import Mathlib

/-!
# abc-mediawatch-rss: the extraction-and-normalisation pipeline

A shallow embedding of the two feed adapters of the repository,
`FetchAndParseToRSS` of `abckohlerrss.go` (Kohler Report) and `FetchAndParseToRSS` of
`abcrss.go` (Media Watch), together with the standard-library behaviour they rest on:

* the page is the outcome of `http.Get` and `goquery.NewDocumentFromReader`, kept as the
  list of its `script` elements in document order;
* `json.Unmarshal` is a syntax check of the whole text followed by the type-directed
  decoding of the syntax tree into the `ABCJSON` value of the adapter;
* `time.Time` values are decoded from RFC 3339 strings and printed with `time.RFC1123`.

The standard library is taken as of Go 1.20 and later, on a 64-bit platform.

Go strings are modelled by `String`, a sequence of Unicode code points.
-/

namespace AbcRss

/-! ## JSON text -/

/-- The syntax tree of a JSON text. Strings, numbers and member names keep their raw spelling
(what stands between the quotes, escapes included): `json.Unmarshal` hands the raw bytes to the
decoder of each target type. -/
inductive JSON where
  | null : JSON
  | bool (b : Bool) : JSON
  | num (lit : String) : JSON
  | str (raw : String) : JSON
  | arr (elems : List JSON) : JSON
  | obj (members : List (String × JSON)) : JSON

/-- The nesting limit of the scanner of `encoding/json` (`maxNestingDepth`). -/
def maxNestingDepth : Nat := 10000

/-- The four white space characters of JSON. -/
def isSpace (c : Char) : Bool :=
  c == ' ' || c == '\t' || c == '\r' || c == '\n'

def isDigit (c : Char) : Bool := '0' ≤ c && c ≤ '9'

def isHexDigit (c : Char) : Bool :=
  isDigit c || ('a' ≤ c && c ≤ 'f') || ('A' ≤ c && c ≤ 'F')

def skipSpace : List Char → List Char
  | [] => []
  | c :: cs => if isSpace c then skipSpace cs else c :: cs

/-- The longest run of digits at the head of the input, and what follows it. -/
def spanDigits : List Char → List Char × List Char
  | [] => ([], [])
  | c :: cs =>
    if isDigit c then ((spanDigits cs).1.cons c, (spanDigits cs).2) else ([], c :: cs)

/-- Scan a string literal after its opening quote: the raw content up to the closing quote and
the input after it. Control characters and malformed escapes are rejected. -/
def scanString : List Char → Option (List Char × List Char)
  | [] => none
  | c :: cs =>
    if c = '"' then some ([], cs)
    else if c = '\\' then
      match cs with
      | [] => none
      | e :: cs1 =>
        if e = 'u' then
          match cs1 with
          | h1 :: h2 :: h3 :: h4 :: cs2 =>
            if isHexDigit h1 && isHexDigit h2 && isHexDigit h3 && isHexDigit h4 then
              (scanString cs2).map fun r => ('\\' :: 'u' :: h1 :: h2 :: h3 :: h4 :: r.1, r.2)
            else none
          | _ => none
        else if e = '"' || e = '\\' || e = '/' || e = 'b' || e = 'f' || e = 'n' || e = 'r'
            || e = 't' then
          (scanString cs1).map fun r => ('\\' :: e :: r.1, r.2)
        else none
    else if c.toNat < 0x20 then none
    else (scanString cs).map fun r => (c :: r.1, r.2)

/-- The optional fraction of a number: a period and at least one digit. -/
def scanFrac : List Char → Option (List Char × List Char)
  | '.' :: cs =>
    match spanDigits cs with
    | ([], _) => none
    | (ds, rest) => some ('.' :: ds, rest)
  | cs => some ([], cs)

/-- The optional exponent of a number: `e` or `E`, an optional sign and at least one digit. -/
def scanExp : List Char → Option (List Char × List Char)
  | [] => some ([], [])
  | c :: cs =>
    if c = 'e' || c = 'E' then
      match cs with
      | [] => none
      | s :: cs1 =>
        if s = '+' || s = '-' then
          match spanDigits cs1 with
          | ([], _) => none
          | (ds, rest) => some (c :: s :: ds, rest)
        else
          match spanDigits (s :: cs1) with
          | ([], _) => none
          | (ds, rest) => some (c :: ds, rest)
    else some ([], c :: cs)

/-- The integer part of a number: a single `0`, or a non-zero digit and further digits. -/
def scanInt : List Char → Option (List Char × List Char)
  | [] => none
  | c :: cs =>
    if c = '0' then some (['0'], cs)
    else if isDigit c then some (c :: (spanDigits cs).1, (spanDigits cs).2)
    else none

/-- Scan a number literal: its spelling and the input after it. -/
def scanNumber (cs : List Char) : Option (List Char × List Char) :=
  let signed : List Char × List Char :=
    match cs with
    | '-' :: r => (['-'], r)
    | _ => ([], cs)
  match scanInt signed.2 with
  | none => none
  | some (i, r1) =>
    match scanFrac r1 with
    | none => none
    | some (f, r2) =>
      match scanExp r2 with
      | none => none
      | some (e, r3) => some (signed.1 ++ i ++ f ++ e, r3)

/-- The rest of the input after the given characters, when the input starts with them. -/
def expect : List Char → List Char → Option (List Char)
  | [], cs => some cs
  | _ :: _, [] => none
  | p :: ps, c :: cs => if p = c then expect ps cs else none

mutual
/-- Parse one value at the head of the input (white space already skipped), `depth` containers
being open. The first argument bounds the number of calls; the length of the input is enough. -/
def parseValue : Nat → Nat → List Char → Option (JSON × List Char)
  | 0, _, _ => none
  | fuel + 1, depth, cs =>
    match cs with
    | [] => none
    | c :: r =>
      if c = '{' then
        if depth ≥ maxNestingDepth then none
        else
          match skipSpace r with
          | '}' :: r1 => some (JSON.obj [], r1)
          | r1 => (parseMembers fuel (depth + 1) r1).map fun p => (JSON.obj p.1, p.2)
      else if c = '[' then
        if depth ≥ maxNestingDepth then none
        else
          match skipSpace r with
          | ']' :: r1 => some (JSON.arr [], r1)
          | r1 => (parseElems fuel (depth + 1) r1).map fun p => (JSON.arr p.1, p.2)
      else if c = '"' then
        (scanString r).map fun p => (JSON.str (String.mk p.1), p.2)
      else if c = 't' then (expect ['r', 'u', 'e'] r).map fun r1 => (JSON.bool true, r1)
      else if c = 'f' then (expect ['a', 'l', 's', 'e'] r).map fun r1 => (JSON.bool false, r1)
      else if c = 'n' then (expect ['u', 'l', 'l'] r).map fun r1 => (JSON.null, r1)
      else (scanNumber cs).map fun p => (JSON.num (String.mk p.1), p.2)
/-- Parse the members of an object up to and including the closing brace. -/
def parseMembers : Nat → Nat → List Char → Option (List (String × JSON) × List Char)
  | 0, _, _ => none
  | fuel + 1, depth, cs =>
    match cs with
    | '"' :: r =>
      match scanString r with
      | none => none
      | some (k, r1) =>
        match skipSpace r1 with
        | ':' :: r2 =>
          match parseValue fuel depth (skipSpace r2) with
          | none => none
          | some (v, r3) =>
            match skipSpace r3 with
            | ',' :: r4 =>
              (parseMembers fuel depth (skipSpace r4)).map fun p => ((String.mk k, v) :: p.1, p.2)
            | '}' :: r4 => some ([(String.mk k, v)], r4)
            | _ => none
        | _ => none
    | _ => none
/-- Parse the elements of an array up to and including the closing bracket. -/
def parseElems : Nat → Nat → List Char → Option (List JSON × List Char)
  | 0, _, _ => none
  | fuel + 1, depth, cs =>
    match parseValue fuel depth cs with
    | none => none
    | some (v, r1) =>
      match skipSpace r1 with
      | ',' :: r2 => (parseElems fuel depth (skipSpace r2)).map fun p => (v :: p.1, p.2)
      | ']' :: r2 => some ([v], r2)
      | _ => none
end

/-- The syntax check of `json.Unmarshal` (`checkValid`): the text is one JSON value, white space
around it, nested no deeper than `maxNestingDepth`. The result is its syntax tree. -/
def parseJSON (text : String) : Option JSON :=
  match parseValue (text.length + 1) 0 (skipSpace text.data) with
  | none => none
  | some (v, rest) => if skipSpace rest = [] then some v else none

/-- The result of a parser does not depend on the fuel once the fuel covers what it reads. -/
def FuelFree {α : Type} (p : Nat → Nat → List Char → Option (α × List Char)) (f : Nat) : Prop :=
  ∀ (d : Nat) (cs : List Char) (v : α) (rest : List Char), p f d cs = some (v, rest) →
    rest.length < cs.length
      ∧ ∀ f', cs.length - rest.length ≤ f' → p f' d cs = some (v, rest)

/-! ## Decoding of literals -/

def hexVal (c : Char) : Nat :=
  if isDigit c then c.toNat - '0'.toNat
  else if 'a' ≤ c && c ≤ 'f' then c.toNat - 'a'.toNat + 10
  else c.toNat - 'A'.toNat + 10

def hex4 (h1 h2 h3 h4 : Char) : Nat :=
  ((hexVal h1 * 16 + hexVal h2) * 16 + hexVal h3) * 16 + hexVal h4

/-- The character an escape letter stands for. -/
def escapeChar (e : Char) : Char :=
  if e = 'b' then Char.ofNat 8
  else if e = 'f' then Char.ofNat 12
  else if e = 'n' then '\n'
  else if e = 'r' then '\r'
  else if e = 't' then '\t'
  else e

/-- The Unicode replacement character, written for an unpaired surrogate escape. -/
def replacementChar : Char := Char.ofNat 0xFFFD

/-- The value of a scanned string literal (`unquote` of `encoding/json`): escapes are replaced,
a `\u` escape of a high surrogate followed by one of a low surrogate becomes one character, and
any other surrogate escape the replacement character. `pending` is the high surrogate read just
before, still waiting for its partner. -/
def unquoteChars : Option Nat → List Char → List Char
  | pending, [] => if pending.isSome then [replacementChar] else []
  | pending, c :: cs =>
    if c = '\\' then
      match cs with
      | [] => if pending.isSome then [replacementChar] else []
      | e :: cs1 =>
        if e = 'u' then
          match cs1 with
          | h1 :: h2 :: h3 :: h4 :: cs2 =>
            if 0xDC00 ≤ hex4 h1 h2 h3 h4 ∧ hex4 h1 h2 h3 h4 < 0xE000 then
              match pending with
              | some hi =>
                Char.ofNat ((hi - 0xD800) * 0x400 + (hex4 h1 h2 h3 h4 - 0xDC00) + 0x10000)
                  :: unquoteChars none cs2
              | none => replacementChar :: unquoteChars none cs2
            else if 0xD800 ≤ hex4 h1 h2 h3 h4 ∧ hex4 h1 h2 h3 h4 < 0xDC00 then
              (if pending.isSome then [replacementChar] else [])
                ++ unquoteChars (some (hex4 h1 h2 h3 h4)) cs2
            else
              (if pending.isSome then [replacementChar] else [])
                ++ Char.ofNat (hex4 h1 h2 h3 h4) :: unquoteChars none cs2
          | _ => if pending.isSome then [replacementChar] else []
        else
          (if pending.isSome then [replacementChar] else [])
            ++ escapeChar e :: unquoteChars none cs1
    else (if pending.isSome then [replacementChar] else []) ++ c :: unquoteChars none cs

def unquote (raw : String) : String := String.mk (unquoteChars none raw.data)

/-- The folding of member names (`foldName` of `encoding/json`), exact against the ASCII names
of the struct tags: letters fold to upper case, and the Kelvin sign and the long s, the only
other characters with an ASCII letter in their case orbit, to `K` and `S`. -/
def foldChar (c : Char) : Char :=
  if 'a' ≤ c && c ≤ 'z' then Char.ofNat (c.toNat - 32)
  else if c = Char.ofNat 0x212A then 'K'
  else if c = Char.ofNat 0x017F then 'S'
  else c

def foldName (s : String) : String := String.mk (s.data.map foldChar)

def digitsToNat (ds : List Char) : Nat :=
  ds.foldl (fun n c => n * 10 + (c.toNat - '0'.toNat)) 0

/-- The value of a number literal stored into an `int` or `int64` (64 bits on the platforms the
program is built for): `strconv.ParseInt` accepts a sign and digits only, within range. -/
def parseInt64 (lit : String) : Option Int :=
  let neg : Bool := lit.data.head? = some '-'
  let ds : List Char := if neg then lit.data.tail else lit.data
  if ds ≠ [] ∧ ds.all isDigit then
    let v : Int := if neg then -(digitsToNat ds : Int) else (digitsToNat ds : Int)
    if -(2 : Int) ^ 63 ≤ v ∧ v < (2 : Int) ^ 63 then some v else none
  else none

/-- The least magnitude that `strconv.ParseFloat` rounds to infinity: half an ulp above the
largest `float64`. -/
def floatLimit : Nat := 2 ^ 1024 - 2 ^ 970

/-- A number literal stored into an `any` is converted with `strconv.ParseFloat`, which fails
when the magnitude rounds to infinity. The comparison is exact, on naturals. -/
def floatOverflows (lit : String) : Bool :=
  let cs : List Char := if lit.data.head? = some '-' then lit.data.tail else lit.data
  let ip := spanDigits cs
  let fp : List Char × List Char :=
    match ip.2 with
    | '.' :: r => spanDigits r
    | r => ([], r)
  let ex : Int :=
    match fp.2 with
    | _ :: '-' :: r => -(digitsToNat r : Int)
    | _ :: '+' :: r => (digitsToNat r : Int)
    | _ :: r => (digitsToNat r : Int)
    | [] => 0
  let m : Nat := digitsToNat (ip.1 ++ fp.1)
  let e : Int := ex - (fp.1.length : Int)
  if 0 ≤ e then decide (floatLimit ≤ m * 10 ^ e.toNat)
  else decide (floatLimit * 10 ^ (-e).toNat ≤ m)

/-! ## Timestamps -/

/-- A `time.Time` as far as the feed shows it: the civil date and clock time in the zone of the
timestamp, and the offset of that zone in seconds east of UTC. -/
structure Time where
  year : Nat
  month : Nat
  day : Nat
  hour : Nat
  minute : Nat
  second : Nat
  offset : Int
deriving DecidableEq, Repr

/-- The zero value of `time.Time`: January 1, year 1, 00:00:00 UTC. -/
def Time.zero : Time := ⟨1, 1, 1, 0, 0, 0, 0⟩

def isLeap (year : Nat) : Bool :=
  year % 4 == 0 && (year % 100 != 0 || year % 400 == 0)

def daysIn (month year : Nat) : Nat :=
  if month = 2 then (if isLeap year then 29 else 28)
  else if month = 4 ∨ month = 6 ∨ month = 9 ∨ month = 11 then 30
  else 31

/-- Two digits read as a number, when both are digits. -/
def num2 (a b : Char) : Option Nat :=
  if isDigit a && isDigit b then some (digitsToNat [a, b]) else none

/-- The zone of a timestamp, the layout element `Z07:00`: `Z`, or a sign, two digits, a colon
and two digits. `time.Parse` lets the hours run up to 24 and the minutes up to 60. -/
def parseZone : List Char → Option Int
  | ['Z'] => some 0
  | [s, h1, h2, ':', m1, m2] =>
    match num2 h1 h2, num2 m1 m2 with
    | some hr, some mm =>
      if hr ≤ 24 ∧ mm ≤ 60 then
        if s = '+' then some (((hr * 60 + mm) * 60 : Nat) : Int)
        else if s = '-' then some (-(((hr * 60 + mm) * 60 : Nat) : Int))
        else none
      else none
    | _, _ => none
  | _ => none

/-- The optional fractional second: a period or a comma and at least one digit. The feed prints
whole seconds, so only what follows the fraction is kept. -/
def skipFraction : List Char → List Char
  | c :: d :: r => if (c = '.' || c = ',') && isDigit d then (spanDigits r).2 else c :: d :: r
  | cs => cs

/-- The hour, the layout element `15`: two digits, or one digit before something else. -/
def parseHour : List Char → Option (Nat × List Char)
  | [] => none
  | h1 :: cs =>
    if isDigit h1 then
      match cs with
      | [] => some (digitsToNat [h1], [])
      | h2 :: r => if isDigit h2 then some (digitsToNat [h1, h2], r) else some (digitsToNat [h1], cs)
    else none

/-- The timestamp format of `Time.UnmarshalJSON`: the layout `time.RFC3339`,
`2006-01-02T15:04:05Z07:00`, as `time.Parse` reads it (Go 1.20 and later), with an optional
fractional second after the seconds and every field within its range. -/
def parseRFC3339 (raw : String) : Option Time :=
  match raw.data with
  | y1 :: y2 :: y3 :: y4 :: '-' :: mo1 :: mo2 :: '-' :: d1 :: d2 :: 'T' :: rest =>
    match parseHour rest with
    | some (h, ':' :: mi1 :: mi2 :: ':' :: s1 :: s2 :: rest1) =>
      match num2 y1 y2, num2 y3 y4, num2 mo1 mo2, num2 d1 d2, num2 mi1 mi2, num2 s1 s2,
        parseZone (skipFraction rest1) with
      | some yh, some yl, some mo, some d, some mi, some s, some off =>
        if 1 ≤ mo ∧ mo ≤ 12 ∧ 1 ≤ d ∧ d ≤ daysIn mo (yh * 100 + yl) ∧ h ≤ 23 ∧ mi ≤ 59
            ∧ s ≤ 59 then
          some ⟨yh * 100 + yl, mo, d, h, mi, s, off⟩
        else none
      | _, _, _, _, _, _, _ => none
    | _ => none
  | _ => none

/-- Days from 0000-03-01 to the given civil date of the proleptic Gregorian calendar, plus the
days of 400 years so that the months of January and February of the year 0 stay natural. -/
def dayNumber (year month day : Nat) : Nat :=
  let y : Nat := if month ≤ 2 then year + 399 else year + 400
  let m : Nat := if month ≤ 2 then month + 9 else month - 3
  365 * y + y / 4 - y / 100 + y / 400 + (153 * m + 2) / 5 + day - 1

/-- The weekday of a civil date, 0 for Sunday. 0000-03-01 is a Wednesday. -/
def weekday (year month day : Nat) : Nat := (dayNumber year month day + 3) % 7

def dayAbbrev (w : Nat) : String :=
  ["Sun", "Mon", "Tue", "Wed", "Thu", "Fri", "Sat"].getD w ""

def monthAbbrev (m : Nat) : String :=
  ["Jan", "Feb", "Mar", "Apr", "May", "Jun", "Jul", "Aug", "Sep", "Oct", "Nov", "Dec"].getD
    (m - 1) ""

/-- The decimal digits of a number, most significant first, at least `width` of them
(`appendInt` of package `time` on a natural). -/
def appendInt (n width : Nat) : String :=
  let ds : List Char := (Nat.toDigits 10 n)
  String.mk (List.replicate (width - ds.length) '0' ++ ds)

/-- The zone abbreviation printed for `MST`: `UTC` at offset zero, and the `-0700` form for any
other offset, the zone of a parsed timestamp having no name. The local zone of the process is
taken to be UTC. -/
def zoneAbbrev (offset : Int) : String :=
  if offset = 0 then "UTC"
  else
    (if offset < 0 then "-" else "+") ++ appendInt (offset.natAbs / 60 / 60) 2
      ++ appendInt (offset.natAbs / 60 % 60) 2

/-- `t.Format(time.RFC1123)`, the layout `Mon, 02 Jan 2006 15:04:05 MST`. -/
def Time.FormatRFC1123 (t : Time) : String :=
  dayAbbrev (weekday t.year t.month t.day) ++ ", " ++ appendInt t.day 2 ++ " "
    ++ monthAbbrev t.month ++ " " ++ appendInt t.year 4 ++ " " ++ appendInt t.hour 2 ++ ":"
    ++ appendInt t.minute 2 ++ ":" ++ appendInt t.second 2 ++ " " ++ zoneAbbrev t.offset

/-! ## Go values and `json.Unmarshal` -/

/-- A Go value of one of the types the two `ABCJSON` declarations are built from. A value
carries what `json.Unmarshal` reads from its type by reflection: a struct its fields in
declaration order, each with its Go name and the name of its `json` tag; a slice the zero value
of its element type, and next to its elements the elements left behind its length in the
backing array, which a later array decoded into the same slice picks up again. -/
inductive GoVal where
  | str (s : String) : GoVal
  | bool (b : Bool) : GoVal
  | int (n : Int) : GoVal
  | time (t : Time) : GoVal
  | any (v : Option JSON) : GoVal
  | struct (fields : List (String × String × GoVal)) : GoVal
  | slice (zero : GoVal) (elems : List GoVal) (spare : List GoVal) : GoVal

namespace Go

/-- The zero value of type `string`. -/
def string : GoVal := GoVal.str ""
/-- The zero value of type `bool`. -/
def bool : GoVal := GoVal.bool false
/-- The zero value of type `int`. -/
def int : GoVal := GoVal.int 0
/-- The zero value of type `int64`. -/
def int64 : GoVal := GoVal.int 0
/-- The zero value of type `time.Time`. -/
def time : GoVal := GoVal.time Time.zero
/-- The zero value of type `any`, the nil interface. -/
def any : GoVal := GoVal.any none
/-- The zero value of a slice type, the nil slice. -/
def slice (elem : GoVal) : GoVal := GoVal.slice elem [] []

end Go

namespace GoVal

/-- The fields of a struct value. -/
def fields : GoVal → List (String × String × GoVal)
  | struct fs => fs
  | _ => []

/-- Selection of a field by its Go name, `v.Name`. -/
def field (v : GoVal) (name : String) : GoVal :=
  match v.fields.find? (fun f => f.1 == name) with
  | some f => f.2.2
  | none => GoVal.any none

/-- The elements of a slice value, what `range` iterates over. -/
def elems : GoVal → List GoVal
  | slice _ es _ => es
  | _ => []

/-- The string held by a value of type `string`. -/
def getString : GoVal → String
  | str s => s
  | _ => ""

/-- The timestamp held by a value of type `time.Time`. -/
def getTime : GoVal → Time
  | time t => t
  | _ => Time.zero

end GoVal

/-- The field a member name selects: the field whose tag is the name exactly, else the first
field whose tag equals it under case folding. The result is the Go name of the field. -/
def findField (fs : List (String × String × GoVal)) (key : String) : Option String :=
  match fs.find? (fun f => f.2.1 == key) with
  | some f => some f.1
  | none => (fs.find? (fun f => foldName f.2.1 == foldName key)).map (fun f => f.1)

/-- Assignment to the field with the given Go name. -/
def setField : List (String × String × GoVal) → String → GoVal → List (String × String × GoVal)
  | [], _, _ => []
  | f :: fs, name, v => if f.1 == name then (f.1, f.2.1, v) :: fs else f :: setField fs name v

mutual
/-- Whether a value stored into an `any` holds a number that `strconv.ParseFloat` rejects. -/
def anyOverflows : JSON → Bool
  | JSON.num lit => floatOverflows lit
  | JSON.arr xs => anyOverflowsList xs
  | JSON.obj ms => anyOverflowsMembers ms
  | _ => false
def anyOverflowsList : List JSON → Bool
  | [] => false
  | x :: xs => anyOverflows x || anyOverflowsList xs
def anyOverflowsMembers : List (String × JSON) → Bool
  | [] => false
  | m :: ms => anyOverflows m.2 || anyOverflowsMembers ms
end

mutual
/-- Decode a JSON value into a Go value (`decodeState.value`). The result is `none` when an
`UnmarshalJSON` method fails, which aborts the decoding; else it is the new value and whether an
`UnmarshalTypeError` was saved: the value in the text did not fit the Go type, the target was
left as it was and decoding went on.

* `null` empties a slice or an `any` and leaves every other target untouched;
* a string, `bool` or integer target takes a literal of its own kind only;
* a `time.Time` target runs `Time.UnmarshalJSON`, which fails on anything but `null` and an
  RFC 3339 string;
* an `any` takes every value;
* a struct takes an object, member by member; a slice takes an array, element by element. -/
def decode : GoVal → JSON → Option (GoVal × Bool)
  | v, JSON.null =>
    match v with
    | GoVal.slice z _ _ => some (GoVal.slice z [] [], false)
    | GoVal.any _ => some (GoVal.any none, false)
    | _ => some (v, false)
  | v, JSON.bool b =>
    match v with
    | GoVal.bool _ => some (GoVal.bool b, false)
    | GoVal.any _ => some (GoVal.any (some (JSON.bool b)), false)
    | GoVal.time _ => none
    | _ => some (v, true)
  | v, JSON.num lit =>
    match v with
    | GoVal.int _ =>
      match parseInt64 lit with
      | some n => some (GoVal.int n, false)
      | none => some (v, true)
    | GoVal.any _ => some (GoVal.any (some (JSON.num lit)), floatOverflows lit)
    | GoVal.time _ => none
    | _ => some (v, true)
  | v, JSON.str raw =>
    match v with
    | GoVal.str _ => some (GoVal.str (unquote raw), false)
    | GoVal.any _ => some (GoVal.any (some (JSON.str raw)), false)
    | GoVal.time _ =>
      match parseRFC3339 raw with
      | some t => some (GoVal.time t, false)
      | none => none
    | _ => some (v, true)
  | v, JSON.arr xs =>
    match v with
    | GoVal.slice z es spare =>
      match xs with
      | [] => some (GoVal.slice z [] [], false)
      | _ => (decodeElems z (es ++ spare) xs).map fun r => (GoVal.slice z r.1.1 r.1.2, r.2)
    | GoVal.any _ => some (GoVal.any (some (JSON.arr xs)), anyOverflowsList xs)
    | GoVal.time _ => none
    | _ => some (v, true)
  | v, JSON.obj ms =>
    match v with
    | GoVal.struct fs => (decodeMembers fs ms).map fun r => (GoVal.struct r.1, r.2)
    | GoVal.any _ => some (GoVal.any (some (JSON.obj ms)), anyOverflowsMembers ms)
    | GoVal.time _ => none
    | _ => some (v, true)
/-- Decode the members of an object into the fields of a struct, in the order of the text. A
member whose name selects no field is skipped; a member decodes into the present value of its
field, so a repeated name merges into what the earlier member left. -/
def decodeMembers : List (String × String × GoVal) → List (String × JSON) →
    Option (List (String × String × GoVal) × Bool)
  | fs, [] => some (fs, false)
  | fs, m :: ms =>
    match findField fs (unquote m.1) with
    | none => decodeMembers fs ms
    | some name =>
      match decode ((GoVal.struct fs).field name) m.2 with
      | none => none
      | some r =>
        match decodeMembers (setField fs name r.1) ms with
        | none => none
        | some rs => some (rs.1, r.2 || rs.2)
/-- Decode the elements of an array into a slice: element `i` decodes into what the backing
array holds at `i` (`pool`, the old elements and the spare ones after them), or into a zero
element past its end. The result is the new elements and what is left of the pool. -/
def decodeElems : GoVal → List GoVal → List JSON → Option ((List GoVal × List GoVal) × Bool)
  | _, pool, [] => some (([], pool), false)
  | z, pool, x :: xs =>
    match decode (pool.headD z) x with
    | none => none
    | some r =>
      match decodeElems z pool.tail xs with
      | none => none
      | some rs => some ((r.1 :: rs.1.1, rs.1.2), r.2 || rs.2)
end

/-- The errors of `json.Unmarshal`: the text is not valid JSON (`*json.SyntaxError`); a value
did not fit the Go type it was decoded into (`*json.UnmarshalTypeError`); a timestamp was
rejected by `Time.UnmarshalJSON`. -/
inductive UnmarshalError where
  | SyntaxError : UnmarshalError
  | UnmarshalTypeError : UnmarshalError
  | TimeError : UnmarshalError
deriving DecidableEq, Repr

/-- The call `json.Unmarshal([]byte(text), &v)`, `v` holding `init` before the call. An error of
an `UnmarshalJSON` method is returned at once; a saved type error is returned once the whole
text is decoded. -/
def Unmarshal (text : String) (init : GoVal) : Except UnmarshalError GoVal :=
  match parseJSON text with
  | none => Except.error UnmarshalError.SyntaxError
  | some j =>
    match decode init j with
    | none => Except.error UnmarshalError.TimeError
    | some (v, saved) => if saved then Except.error UnmarshalError.UnmarshalTypeError else Except.ok v

/-! ## The feed and the page -/

/-- The type `xml.Name`. -/
structure XMLName where
  Space : String := ""
  Local : String := ""
deriving DecidableEq, Repr

/-- An RSS feed item (`type Item`, the same declaration in both files). -/
structure Item where
  Title : String := ""
  Link : String := ""
  Description : String := ""
  PubDate : String := ""
  GUID : String := ""
  Thumbnail : String := ""
deriving DecidableEq, Repr

/-- The RSS channel (`type Channel`). -/
structure Channel where
  Title : String := ""
  Link : String := ""
  Description : String := ""
  Items : List Item := []
deriving DecidableEq, Repr

/-- The RSS feed (`type RSS`). `RSS{}`, written `{}` here, is its empty value. -/
structure RSS where
  XMLName : XMLName := {}
  Version : String := ""
  Channel : Channel := {}
deriving DecidableEq, Repr

/-- The errors `FetchAndParseToRSS` returns, one for each `fmt.Errorf` of the function:
`"fetching news to rss: %v"`, `"status code: %v"`, `"parsing news to rss: %v"`,
`"no JSON data found"` and `"parsing JSON data: %v"`. -/
inductive Error where
  | fetching (err : String) : Error
  | statusCode (status : String) : Error
  | parsingNews (err : String) : Error
  | noJSONData : Error
  | parsingJSON (err : UnmarshalError) : Error
deriving DecidableEq, Repr

/-- A `script` element of the parsed page: its `id` attribute, when it has one, and its text
content, `s.Text()`. -/
structure ScriptElement where
  id : Option String
  text : String
deriving DecidableEq, Repr

/-- The outcome of `http.Get` as far as the program reads it: the status, and what
`goquery.NewDocumentFromReader` makes of the body, an error or the document, kept as the list
of its `script` elements in document order. -/
structure Response where
  Status : String
  StatusCode : Nat
  Doc : Except String (List ScriptElement)

/-- The constant `http.StatusOK`. -/
def StatusOK : Nat := 200

/-- The constant `BaseURL` (the same in both files). -/
def BaseURL : String := "https://www.abc.net.au"

/-- Whether `sub` occurs in `cs` as a contiguous run. -/
def containsChars : List Char → List Char → Bool
  | [], sub => sub.isEmpty
  | c :: cs, sub => sub.isPrefixOf (c :: cs) || containsChars cs sub

/-- The function `strings.Contains`. -/
def strings.Contains (s substr : String) : Bool := containsChars s.data substr.data

/-- A Go `map[string]bool`: the bindings, the latest first. -/
abbrev GoMap := List (String × Bool)

/-- The index expression `m[k]`: the zero value `false` for a key that is not in the map. -/
def GoMap.get (m : GoMap) (k : String) : Bool := (m.lookup k).getD false

/-- The assignment `m[k] = v`. -/
def GoMap.set (m : GoMap) (k : String) (v : Bool) : GoMap := (k, v) :: m

/-- A chain of field selections, `v.A.B.C`. -/
def GoVal.sel (v : GoVal) (path : List String) : GoVal := path.foldl GoVal.field v

/-- The variables a run of the item loop updates: the map `seenGUIDs` and `rss.Channel.Items`. -/
structure LoopState where
  seenGUIDs : GoMap := []
  Items : List Item := []
deriving DecidableEq, Repr

/-! ## The Kohler Report adapter (`abckohlerrss.go`) -/

namespace Kohler

/-- The zero value of `type ABCJSON struct` of `abckohlerrss.go`, field by field. -/
def ABCJSON : GoVal :=
  GoVal.struct [
    ("Props", "props", GoVal.struct [
      ("PageProps", "pageProps", GoVal.struct [
        ("Gtm", "gtm", GoVal.struct [
          ("NoGtm", "noGtm", Go.bool)
        ]),
        ("SnowplowPrepared", "snowplowPrepared", GoVal.struct [
          ("SnowplowCollectorURL", "snowplowCollectorURL", Go.string),
          ("AppVersionID", "appVersionId", Go.string),
          ("AppID", "appId", Go.string),
          ("Environment", "environment", Go.string)
        ]),
        ("Environment", "environment", GoVal.struct [
          ("APIKey", "apiKey", GoVal.struct [
            ("Mapbox", "mapbox", Go.string)
          ]),
          ("Application", "application", Go.string),
          ("AppEnvironment", "appEnvironment", Go.string),
          ("Layout", "layout", GoVal.struct [
            ("IsNewsApp", "isNewsApp", Go.bool),
            ("IsFuture", "isFuture", Go.bool)
          ])
        ]),
        ("Experimentsconfig", "experimentsconfig", GoVal.struct [
          ("Experiments", "experiments", GoVal.struct [
            ("StateEditions", "state-editions", GoVal.struct [
              ("Enabled", "enabled", Go.bool),
              ("Variants", "variants", GoVal.struct [
                ("A", "a", Go.int)
              ])
            ]),
            ("BetaOptin", "beta-optin", GoVal.struct [
              ("Enabled", "enabled", Go.bool),
              ("Variants", "variants", GoVal.struct [
                ("A", "a", Go.int)
              ])
            ]),
            ("BetaForced", "beta-forced", GoVal.struct [
              ("Enabled", "enabled", Go.bool),
              ("Variants", "variants", GoVal.struct [
                ("A", "a", Go.int)
              ])
            ]),
            ("ForYou", "for-you", GoVal.struct [
              ("Enabled", "enabled", Go.bool),
              ("Variants", "variants", GoVal.struct [
                ("A", "a", Go.int)
              ])
            ]),
            ("AmNewsNewsletterArticleEmbed", "am-news-newsletter-article-embed", GoVal.struct [
              ("Enabled", "enabled", Go.bool),
              ("Variants", "variants", GoVal.struct [
                ("A", "a", Go.int)
              ])
            ]),
            ("HomepageTrendingView", "homepage-trending-view", GoVal.struct [
              ("Enabled", "enabled", Go.bool),
              ("Variants", "variants", GoVal.struct [
                ("A", "a", Go.int),
                ("B", "b", Go.int)
              ])
            ])
          ])
        ]),
        ("SiteNavigation", "siteNavigation", Go.slice (GoVal.struct [
          ("LinkTo", "linkTo", Go.string),
          ("Children", "children", Go.string),
          ("Active", "active", Go.bool)
        ])),
        ("FooterNavigation", "footerNavigation", Go.slice (GoVal.struct [
          ("LinkHref", "linkHref", Go.string),
          ("LinkTitle", "linkTitle", Go.string)
        ])),
        ("Ticker", "ticker", Go.slice Go.any),
        ("Profiles", "profiles", GoVal.struct [
          ("Environment", "environment", Go.string),
          ("APIKey", "APIKey", Go.string),
          ("AnalyticsID", "analyticsID", Go.string)
        ]),
        ("DeveloperFlags", "developerFlags", Go.slice Go.any),
        ("Toaster", "toaster", GoVal.struct [
          ("Show", "show", Go.bool),
          ("LocalStorageKey", "localStorageKey", Go.string),
          ("BackgroundColor", "backgroundColor", Go.string),
          ("Title", "title", Go.string),
          ("Description", "description", Go.string),
          ("ImgSrc", "imgSrc", Go.string),
          ("CtaPrimary", "ctaPrimary", GoVal.struct [
            ("LinkTo", "linkTo", Go.string),
            ("LinkText", "linkText", Go.string),
            ("BackgroundColor", "backgroundColor", Go.string)
          ]),
          ("ModuleURI", "moduleURI", Go.string),
          ("Dismissable", "dismissable", Go.bool)
        ]),
        ("UnstructuredTracking", "unstructuredTracking", Go.bool),
        ("LoginBanner", "loginBanner", Go.bool),
        ("Location", "location", GoVal.struct [
          ("Pathname", "pathname", Go.string),
          ("Search", "search", Go.string)
        ]),
        ("Channelpage", "channelpage", GoVal.struct [
          ("HeadTagsPagePrepared", "headTagsPagePrepared", GoVal.struct [
            ("BasePath", "basePath", Go.string),
            ("FaviconPath", "faviconPath", Go.string),
            ("CanonicalURL", "canonicalURL", Go.string),
            ("Description", "description", Go.string),
            ("Keywords", "keywords", Go.slice Go.any),
            ("Lang", "lang", Go.string),
            ("Robots", "robots", Go.any),
            ("Title", "title", Go.string)
          ]),
          ("HeadTagsCMSPrepared", "headTagsCMSPrepared", GoVal.struct [
            ("ContentSource", "contentSource", Go.string),
            ("DocType", "docType", Go.string),
            ("Generator", "generator", Go.string),
            ("ID", "id", Go.string),
            ("Version", "version", Go.int)
          ]),
          ("HeadTagsSocialPrepared", "headTagsSocialPrepared", GoVal.struct [
            ("CanonicalURL", "canonicalURL", Go.string),
            ("Description", "description", Go.string),
            ("Image", "image", Go.string),
            ("OgType", "ogType", Go.string),
            ("Title", "title", Go.string),
            ("Twitter", "twitter", Go.string)
          ]),
          ("FixedHeaderPrepared", "fixedHeaderPrepared", GoVal.struct [
            ("Title", "title", Go.string),
            ("HasShare", "hasShare", Go.bool),
            ("BrandProps", "brandProps", GoVal.struct []),
            ("HideContext", "hideContext", Go.bool),
            ("NavigationItems", "navigationItems", Go.slice (GoVal.struct [
              ("LinkTo", "linkTo", Go.string),
              ("Active", "active", Go.bool),
              ("Children", "children", Go.string)
            ]))
          ]),
          ("DataLayer", "dataLayer", GoVal.struct [
            ("Document", "document", GoVal.struct [
              ("Language", "language", Go.string),
              ("CanonicalURL", "canonicalUrl", Go.string),
              ("ContentType", "contentType", Go.string),
              ("URI", "uri", Go.string),
              ("ContentSource", "contentSource", Go.string),
              ("ID", "id", Go.string),
              ("Title", "title", GoVal.struct [
                ("Title", "title", Go.string)
              ]),
              ("PageTitle", "pageTitle", Go.string),
              ("SiteRoot", "siteRoot", GoVal.struct [
                ("Segment", "segment", Go.string),
                ("Title", "title", Go.string)
              ])
            ])
          ]),
          ("Subbanner", "subbanner", GoVal.struct [
            ("DataLayerPrepared", "dataLayerPrepared", GoVal.struct [
              ("URI", "uri", Go.string),
              ("ModuleURI", "moduleUri", Go.string),
              ("ContentSource", "contentSource", Go.string),
              ("ContentType", "contentType", Go.string),
              ("Items", "items", Go.slice (GoVal.struct [
                ("URI", "uri", Go.string)
              ])),
              ("ID", "id", Go.string)
            ]),
            ("Heading", "heading", Go.string),
            ("NavItemPreparedArray", "navItemPreparedArray", Go.slice (GoVal.struct [
              ("LinkTo", "linkTo", Go.string),
              ("Children", "children", Go.string),
              ("Active", "active", Go.bool),
              ("ContentURI", "contentUri", Go.string)
            ]))
          ]),
          ("PageProps", "pageProps", GoVal.struct [
            ("Webview", "webview", Go.bool)
          ]),
          ("SubNavigation", "subNavigation", Go.slice Go.any),
          ("BannerComponents", "bannerComponents", Go.slice Go.any),
          ("HeaderComponents", "headerComponents", Go.slice Go.any),
          ("SidebarComponents", "sidebarComponents", Go.slice Go.any),
          ("Components", "components", Go.slice (GoVal.struct [
            ("DocumentID", "documentId", Go.string),
            ("Background", "background", Go.string),
            ("Theme", "theme", Go.string),
            ("Component", "component", GoVal.struct [
              ("Name", "name", Go.string),
              ("Props", "props", GoVal.struct [
                ("DataLayerPrepared", "dataLayerPrepared", GoVal.struct [
                  ("URI", "uri", Go.string),
                  ("ModuleURI", "moduleUri", Go.string),
                  ("ContentSource", "contentSource", Go.string),
                  ("ContentType", "contentType", Go.string),
                  ("ID", "id", Go.string),
                  ("Title", "title", GoVal.struct [
                    ("Title", "title", Go.string)
                  ]),
                  ("Items", "items", Go.slice (GoVal.struct [
                    ("URI", "uri", Go.string)
                  ]))
                ]),
                ("Heading", "heading", Go.string),
                ("Layout", "layout", Go.string),
                ("Video", "video", GoVal.struct [
                  ("ID", "id", Go.string),
                  ("Config", "config", GoVal.struct [
                    ("Autostart", "autostart", Go.string),
                    ("Mute", "mute", Go.bool),
                    ("Sources", "sources", Go.slice (GoVal.struct [
                      ("File", "file", Go.string),
                      ("Type", "type", Go.string),
                      ("FileSize", "fileSize", Go.int),
                      ("Bitrate", "bitrate", Go.int),
                      ("Label", "label", Go.string)
                    ])),
                    ("Image", "image", Go.string),
                    ("StreamType", "streamType", Go.string)
                  ]),
                  ("AnalyticsData", "analyticsData", GoVal.struct [
                    ("ContentID", "contentID", Go.string),
                    ("ContentSource", "contentSource", Go.string),
                    ("ContentType", "contentType", Go.string),
                    ("Duration", "duration", Go.int),
                    ("StreamType", "streamType", Go.string),
                    ("URI", "uri", Go.string)
                  ]),
                  ("Skin", "skin", GoVal.struct [
                    ("Name", "name", Go.string),
                    ("URL", "url", Go.string)
                  ]),
                  ("Title", "title", Go.string),
                  ("Share", "share", GoVal.struct [
                    ("HasPopover", "hasPopover", Go.bool),
                    ("SendBy", "sendBy", GoVal.struct [
                      ("Title", "title", Go.string),
                      ("Items", "items", Go.slice (GoVal.struct [
                        ("ShareBy", "shareBy", Go.string)
                      ]))
                    ]),
                    ("ShareLink", "shareLink", Go.string),
                    ("ShareOn", "shareOn", GoVal.struct [
                      ("Title", "title", Go.string),
                      ("Items", "items", Go.slice (GoVal.struct [
                        ("ShareBy", "shareBy", Go.string),
                        ("Via", "via", Go.string)
                      ]))
                    ]),
                    ("Synopsis", "synopsis", Go.string),
                    ("Title", "title", Go.string),
                    ("UtilityBarShareLinks", "utilityBarShareLinks", Go.slice (GoVal.struct [
                      ("ShareBy", "shareBy", Go.string)
                    ])),
                    ("UtmSource", "utmSource", Go.string)
                  ]),
                  ("PostDate", "postDate", GoVal.struct [
                    ("PublishedDate", "publishedDate", Go.time),
                    ("UpdatedDate", "updatedDate", Go.any)
                  ])
                ]),
                ("List", "list", Go.slice (GoVal.struct [
                  ("Card", "card", GoVal.struct [
                    ("ContentURI", "contentUri", Go.string),
                    ("ID", "id", Go.string),
                    ("Duration", "duration", Go.int),
                    ("Image", "image", GoVal.struct [
                      ("ImgSrc", "imgSrc", Go.string),
                      ("ImgRatio", "imgRatio", Go.string)
                    ]),
                    ("Title", "title", GoVal.struct [
                      ("Children", "children", Go.string)
                    ])
                  ]),
                  ("Player", "player", GoVal.struct [
                    ("ID", "id", Go.string),
                    ("Config", "config", GoVal.struct [
                      ("Autostart", "autostart", Go.bool),
                      ("Mute", "mute", Go.bool),
                      ("Sources", "sources", Go.slice (GoVal.struct [
                        ("File", "file", Go.string),
                        ("Type", "type", Go.string),
                        ("FileSize", "fileSize", Go.int),
                        ("Bitrate", "bitrate", Go.int),
                        ("Label", "label", Go.string)
                      ])),
                      ("Image", "image", Go.string),
                      ("StreamType", "streamType", Go.string)
                    ]),
                    ("AnalyticsData", "analyticsData", GoVal.struct [
                      ("ContentID", "contentID", Go.string),
                      ("ContentSource", "contentSource", Go.string),
                      ("ContentType", "contentType", Go.string),
                      ("Duration", "duration", Go.int),
                      ("StreamType", "streamType", Go.string),
                      ("URI", "uri", Go.string)
                    ]),
                    ("Skin", "skin", GoVal.struct [
                      ("Name", "name", Go.string),
                      ("URL", "url", Go.string)
                    ]),
                    ("Title", "title", Go.string),
                    ("Share", "share", GoVal.struct [
                      ("HasPopover", "hasPopover", Go.bool),
                      ("SendBy", "sendBy", GoVal.struct [
                        ("Title", "title", Go.string),
                        ("Items", "items", Go.slice (GoVal.struct [
                          ("ShareBy", "shareBy", Go.string)
                        ]))
                      ]),
                      ("ShareLink", "shareLink", Go.string),
                      ("ShareOn", "shareOn", GoVal.struct [
                        ("Title", "title", Go.string),
                        ("Items", "items", Go.slice (GoVal.struct [
                          ("ShareBy", "shareBy", Go.string),
                          ("Via", "via", Go.string)
                        ]))
                      ]),
                      ("Synopsis", "synopsis", Go.string),
                      ("Title", "title", Go.string),
                      ("UtilityBarShareLinks", "utilityBarShareLinks", Go.slice (GoVal.struct [
                        ("ShareBy", "shareBy", Go.string)
                      ])),
                      ("UtmSource", "utmSource", Go.string)
                    ]),
                    ("PostDate", "postDate", GoVal.struct [
                      ("PublishedDate", "publishedDate", Go.time),
                      ("UpdatedDate", "updatedDate", Go.any)
                    ])
                  ])
                ])),
                ("MoreLinks", "moreLinks", Go.slice Go.any)
              ]),
              ("IsRecursive", "isRecursive", Go.bool),
              ("IsSidebar", "isSidebar", Go.bool)
            ])
          ])),
          ("Scripts", "scripts", Go.slice Go.any),
          ("DynamicTicker", "dynamicTicker", Go.any)
        ])
      ]),
      ("NSsp", "__N_SSP", Go.bool)
    ]),
    ("Page", "page", Go.string),
    ("Query", "query", GoVal.struct [
      ("Channel", "channel", Go.slice Go.string)
    ]),
    ("BuildID", "buildId", Go.string),
    ("AssetPrefix", "assetPrefix", Go.string),
    ("IsFallback", "isFallback", Go.bool),
    ("IsExperimentalCompile", "isExperimentalCompile", Go.bool),
    ("DynamicIds", "dynamicIds", Go.slice Go.int),
    ("Gssp", "gssp", Go.bool),
    ("AppGip", "appGip", Go.bool),
    ("ScriptLoader", "scriptLoader", Go.slice Go.any)
  ]

/-- The `Each` loop over `doc.Find("script")`: `jsonData` starts empty and takes the text of
every element whose text contains `"components"`, quotes included. -/
def locate (doc : List ScriptElement) : String :=
  doc.foldl (fun jsonData s =>
    if strings.Contains s.text "\"components\"" then s.text else jsonData) ""

/-- The item made of the featured video of a component. -/
def videoItem (video : GoVal) : Item :=
  { Title := (video.sel ["Title"]).getString
    Link := (video.sel ["Share", "ShareLink"]).getString
    Description := (video.sel ["Share", "Synopsis"]).getString
    PubDate := (video.sel ["PostDate", "PublishedDate"]).getTime.FormatRFC1123
    GUID := (video.sel ["Share", "ShareLink"]).getString
    Thumbnail := (video.sel ["Config", "Image"]).getString }

/-- The item made of an entry of the list of a component, `video` being the featured video of
the same component. -/
def listItemItem (video listItem : GoVal) : Item :=
  { Title := (listItem.sel ["Card", "Title", "Children"]).getString
    Link := (listItem.sel ["Player", "Share", "ShareLink"]).getString
    Description := (listItem.sel ["Player", "Share", "Synopsis"]).getString
    PubDate := (listItem.sel ["Player", "PostDate", "PublishedDate"]).getTime.FormatRFC1123
    GUID := (listItem.sel ["Player", "Share", "ShareLink"]).getString
    Thumbnail := (video.sel ["Config", "Image"]).getString }

/-- The block of the featured video: the item is appended unless its guid was seen. -/
def videoStep (st : LoopState) (video : GoVal) : LoopState :=
  let guid := (video.sel ["Share", "ShareLink"]).getString
  if !st.seenGUIDs.get guid then
    { seenGUIDs := st.seenGUIDs.set guid true, Items := st.Items ++ [videoItem video] }
  else st

/-- The body of the loop over `component.Component.Props.List`: an entry whose guid was seen is
passed over (`continue`), any other is recorded and appended. -/
def listStep (video : GoVal) (st : LoopState) (listItem : GoVal) : LoopState :=
  let guid := (listItem.sel ["Player", "Share", "ShareLink"]).getString
  if st.seenGUIDs.get guid then st
  else
    { seenGUIDs := st.seenGUIDs.set guid true, Items := st.Items ++ [listItemItem video listItem] }

/-- The body of the loop over the components of the channel page. -/
def componentStep (st : LoopState) (component : GoVal) : LoopState :=
  if (component.sel ["Component", "Name"]).getString = "VideoPlayer" then
    let video := component.sel ["Component", "Props", "Video"]
    (component.sel ["Component", "Props", "List"]).elems.foldl (listStep video)
      (videoStep st video)
  else st

/-- The feed built from the decoded page state: version, header fields and items. -/
def buildRSS (abcData : GoVal) : RSS :=
  { Version := "2.0"
    Channel :=
      { Title :=
          (abcData.sel ["Props", "PageProps", "Channelpage", "HeadTagsPagePrepared",
            "Title"]).getString
        Link :=
          (abcData.sel ["Props", "PageProps", "Channelpage", "HeadTagsPagePrepared",
            "CanonicalURL"]).getString
        Description :=
          (abcData.sel ["Props", "PageProps", "Channelpage", "HeadTagsPagePrepared",
            "Description"]).getString
        Items :=
          ((abcData.sel ["Props", "PageProps", "Channelpage", "Components"]).elems.foldl
            componentStep {}).Items } }

/-- The function `FetchAndParseToRSS` of `abckohlerrss.go`, on the outcome `get` of
`http.Get(BaseURL + "/news/programs/kohler-report")`. The result is the pair the Go function
returns, the error (`none` for `nil`) and the feed. -/
def FetchAndParseToRSS (get : Except String Response) : Option Error × RSS :=
  match get with
  | Except.error err => (some (Error.fetching err), {})
  | Except.ok resp =>
    if resp.StatusCode ≠ StatusOK then (some (Error.statusCode resp.Status), {})
    else
      match resp.Doc with
      | Except.error err => (some (Error.parsingNews err), {})
      | Except.ok doc =>
        if locate doc = "" then (some Error.noJSONData, {})
        else
          match Unmarshal (locate doc) ABCJSON with
          | Except.error err => (some (Error.parsingJSON err), {})
          | Except.ok abcData => (none, buildRSS abcData)

end Kohler

/-! ## The Media Watch adapter (`abcrss.go`) -/

namespace MediaWatch

/-- The zero value of `type ABCJSON struct` of `abcrss.go`, field by field. -/
def ABCJSON : GoVal :=
  GoVal.struct [
    ("Props", "props", GoVal.struct [
      ("PageProps", "pageProps", GoVal.struct [
        ("Gtm", "gtm", Go.bool),
        ("HeadTagsGTMPrepared", "headTagsGTMPrepared", GoVal.struct [
          ("GtmContainerID", "gtmContainerId", Go.string),
          ("Application", "application", GoVal.struct [
            ("Environment", "environment", Go.string),
            ("GeneratorName", "generatorName", Go.string),
            ("GeneratorVersion", "generatorVersion", Go.string),
            ("Product", "product", Go.string)
          ])
        ]),
        ("SnowplowPrepared", "snowplowPrepared", GoVal.struct [
          ("SnowplowCollectorURL", "snowplowCollectorURL", Go.string),
          ("AppVersionID", "appVersionId", Go.string),
          ("AppID", "appId", Go.string),
          ("Environment", "environment", Go.string)
        ]),
        ("DeveloperFlags", "developerFlags", Go.slice Go.any),
        ("ConnectData", "connectData", GoVal.struct [
          ("ConnectSection", "connectSection", GoVal.struct [
            ("ConnectSocialPrepared", "connectSocialPrepared", GoVal.struct [
              ("PhoneServices", "phoneServices", Go.any),
              ("SocialServices", "socialServices", Go.slice (GoVal.struct [
                ("CanonicalURL", "canonicalURL", Go.string)
              ])),
              ("EmailServices", "emailServices", Go.any)
            ]),
            ("ConnectSubscribePrepared", "connectSubscribePrepared", Go.any)
          ]),
          ("Footer", "footer", GoVal.struct [
            ("SocialServices", "socialServices", Go.slice (GoVal.struct [
              ("CanonicalURL", "canonicalURL", Go.string)
            ])),
            ("PhoneServices", "phoneServices", Go.any),
            ("EmailServices", "emailServices", Go.any),
            ("Newsletter", "newsletter", Go.any)
          ])
        ]),
        ("DynamicConfigController", "dynamicConfigController", GoVal.struct [
          ("PreparedProps", "preparedProps", GoVal.struct [
            ("PreparedFeatureFlagsProps", "preparedFeatureFlagsProps", GoVal.struct [
              ("ServerFlags", "serverFlags", GoVal.struct [
                ("ShowItemsInTestHarness", "showItemsInTestHarness", GoVal.struct [
                  ("Enabled", "enabled", Go.bool)
                ]),
                ("RolloutEducationNewsNeighbourhood", "rolloutEducationNewsNeighbourhood",
                  GoVal.struct [
                  ("Enabled", "enabled", Go.bool)
                ]),
                ("RolloutGardeningP2DetailsPage", "rolloutGardeningP2DetailsPage", GoVal.struct [
                  ("Enabled", "enabled", Go.bool)
                ]),
                ("RolloutHomepageSurveyBanner", "rolloutHomepageSurveyBanner", GoVal.struct [
                  ("Enabled", "enabled", Go.bool)
                ]),
                ("RolloutHomepageSurveyPanel", "rolloutHomepageSurveyPanel", GoVal.struct [
                  ("Enabled", "enabled", Go.bool)
                ]),
                ("RolloutPacificMoreLikeThisRecs", "rolloutPacificMoreLikeThisRecs", GoVal.struct [
                  ("Enabled", "enabled", Go.bool)
                ]),
                ("RolloutTriplejMoreLikeThisRecs", "rolloutTriplejMoreLikeThisRecs", GoVal.struct [
                  ("Enabled", "enabled", Go.bool)
                ]),
                ("ConfigureRUM", "configureRUM", GoVal.struct [
                  ("Enabled", "enabled", Go.bool),
                  ("ReplayRate", "replayRate", Go.int),
                  ("SampleRate", "sampleRate", Go.int)
                ]),
                ("RolloutCareersEntryLevelProgram", "rolloutCareersEntryLevelProgram",
                  GoVal.struct [
                  ("Enabled", "enabled", Go.bool)
                ]),
                ("RolloutGivesNewHomepageCollections", "rolloutGivesNewHomepageCollections",
                  GoVal.struct [
                  ("Enabled", "enabled", Go.bool)
                ]),
                ("RolloutIncludeSearchPageFilters", "rolloutIncludeSearchPageFilters",
                  GoVal.struct [
                  ("Enabled", "enabled", Go.bool)
                ]),
                ("RolloutListenMoreLikeThisRecs", "rolloutListenMoreLikeThisRecs", GoVal.struct [
                  ("Enabled", "enabled", Go.bool)
                ]),
                ("RolloutNewsLivePlayerLogo", "rolloutNewsLivePlayerLogo", GoVal.struct [
                  ("Enabled", "enabled", Go.bool)
                ]),
                ("RolloutRageNewsCarousel", "rolloutRageNewsCarousel", GoVal.struct [
                  ("Enabled", "enabled", Go.bool)
                ]),
                ("ShowABCmeSunsetMessaging", "showABCmeSunsetMessaging", GoVal.struct [
                  ("Enabled", "enabled", Go.bool)
                ]),
                ("ShowEverydaySunsetMessaging", "showEverydaySunsetMessaging", GoVal.struct [
                  ("Enabled", "enabled", Go.bool)
                ])
              ])
            ]),
            ("PreparedExperimentsProps", "preparedExperimentsProps", GoVal.struct [
              ("ExperimentsSingletonProviderData", "experimentsSingletonProviderData",
                GoVal.struct [
                ("FallbackEvaluations", "fallbackEvaluations", GoVal.struct []),
                ("CacheKey", "cacheKey", Go.string),
                ("Remote", "remote", GoVal.struct [
                  ("CredentialRenewURL", "credentialRenewURL", Go.string),
                  ("Region", "region", Go.string),
                  ("Project", "project", Go.string)
                ])
              ]),
              ("ExperimentEvaluationsGroupData", "experimentEvaluationsGroupData", GoVal.struct [
                ("Features", "features", Go.slice Go.any),
                ("AsPath", "asPath", Go.string)
              ])
            ])
          ]),
          ("DynamicPrepairController", "dynamicPrepairController", GoVal.struct []),
          ("DynamicPageConfigController", "dynamicPageConfigController", GoVal.struct [])
        ]),
        ("ExperimentsSingletonProviderData", "experimentsSingletonProviderData", GoVal.struct [
          ("FallbackEvaluations", "fallbackEvaluations", GoVal.struct []),
          ("CacheKey", "cacheKey", Go.string),
          ("Remote", "remote", GoVal.struct [
            ("CredentialRenewURL", "credentialRenewURL", Go.string),
            ("Region", "region", Go.string),
            ("Project", "project", Go.string)
          ])
        ]),
        ("ExperimentEvaluationsGroupData", "experimentEvaluationsGroupData", GoVal.struct [
          ("Features", "features", Go.slice Go.any),
          ("AsPath", "asPath", Go.string)
        ]),
        ("PreparedFeatureFlagsData", "preparedFeatureFlagsData", GoVal.struct [
          ("ServerFlags", "serverFlags", GoVal.struct [
            ("ShowItemsInTestHarness", "showItemsInTestHarness", GoVal.struct [
              ("Enabled", "enabled", Go.bool)
            ]),
            ("RolloutEducationNewsNeighbourhood", "rolloutEducationNewsNeighbourhood",
              GoVal.struct [
              ("Enabled", "enabled", Go.bool)
            ]),
            ("RolloutGardeningP2DetailsPage", "rolloutGardeningP2DetailsPage", GoVal.struct [
              ("Enabled", "enabled", Go.bool)
            ]),
            ("RolloutHomepageSurveyBanner", "rolloutHomepageSurveyBanner", GoVal.struct [
              ("Enabled", "enabled", Go.bool)
            ]),
            ("RolloutHomepageSurveyPanel", "rolloutHomepageSurveyPanel", GoVal.struct [
              ("Enabled", "enabled", Go.bool)
            ]),
            ("RolloutPacificMoreLikeThisRecs", "rolloutPacificMoreLikeThisRecs", GoVal.struct [
              ("Enabled", "enabled", Go.bool)
            ]),
            ("RolloutTriplejMoreLikeThisRecs", "rolloutTriplejMoreLikeThisRecs", GoVal.struct [
              ("Enabled", "enabled", Go.bool)
            ]),
            ("ConfigureRUM", "configureRUM", GoVal.struct [
              ("Enabled", "enabled", Go.bool),
              ("ReplayRate", "replayRate", Go.int),
              ("SampleRate", "sampleRate", Go.int)
            ]),
            ("RolloutCareersEntryLevelProgram", "rolloutCareersEntryLevelProgram", GoVal.struct [
              ("Enabled", "enabled", Go.bool)
            ]),
            ("RolloutGivesNewHomepageCollections", "rolloutGivesNewHomepageCollections",
              GoVal.struct [
              ("Enabled", "enabled", Go.bool)
            ]),
            ("RolloutIncludeSearchPageFilters", "rolloutIncludeSearchPageFilters", GoVal.struct [
              ("Enabled", "enabled", Go.bool)
            ]),
            ("RolloutListenMoreLikeThisRecs", "rolloutListenMoreLikeThisRecs", GoVal.struct [
              ("Enabled", "enabled", Go.bool)
            ]),
            ("RolloutNewsLivePlayerLogo", "rolloutNewsLivePlayerLogo", GoVal.struct [
              ("Enabled", "enabled", Go.bool)
            ]),
            ("RolloutRageNewsCarousel", "rolloutRageNewsCarousel", GoVal.struct [
              ("Enabled", "enabled", Go.bool)
            ]),
            ("ShowABCmeSunsetMessaging", "showABCmeSunsetMessaging", GoVal.struct [
              ("Enabled", "enabled", Go.bool)
            ]),
            ("ShowEverydaySunsetMessaging", "showEverydaySunsetMessaging", GoVal.struct [
              ("Enabled", "enabled", Go.bool)
            ])
          ])
        ]),
        ("AppEnvironment", "appEnvironment", Go.string),
        ("DatadogRUMPrepared", "datadogRUMPrepared", GoVal.struct [
          ("ApplicationID", "applicationId", Go.string),
          ("ClientToken", "clientToken", Go.string),
          ("Service", "service", Go.string),
          ("Env", "env", Go.string),
          ("Version", "version", Go.string)
        ]),
        ("HeadTagsRUMPrepared", "headTagsRUMPrepared", GoVal.struct [
          ("TraceID", "traceId", Go.string),
          ("TraceTime", "traceTime", Go.int64)
        ]),
        ("Analytics", "analytics", GoVal.struct [
          ("Debug", "debug", GoVal.struct [
            ("SchemaVersion", "schemaVersion", Go.string)
          ]),
          ("Application", "application", GoVal.struct [
            ("Environment", "environment", Go.string),
            ("GeneratorName", "generatorName", Go.string),
            ("GeneratorVersion", "generatorVersion", Go.string),
            ("Platform", "platform", Go.string),
            ("Product", "product", Go.string)
          ])
        ]),
        ("TemplatePrepared", "templatePrepared", GoVal.struct [
          ("MastheadPrepared", "mastheadPrepared", GoVal.struct [
            ("NotFound", "notFound", Go.bool),
            ("IsProgramPage", "isProgramPage", Go.bool),
            ("MastheadBrandPrepared", "mastheadBrandPrepared", GoVal.struct [
              ("NavigationData", "navigationData", Go.slice (GoVal.struct [
                ("LinkTo", "linkTo", Go.string),
                ("Children", "children", Go.string),
                ("Active", "active", Go.bool)
              ])),
              ("BrandLockupPrepared", "brandLockupPrepared", GoVal.struct [
                ("LogoHref", "logoHref", Go.string),
                ("LogoType", "logoType", Go.string),
                ("ScreenReaderText", "screenReaderText", Go.string)
              ]),
              ("MastheadCTA", "mastheadCTA", GoVal.struct [
                ("IconScreenReaderText", "iconScreenReaderText", Go.string),
                ("IconType", "iconType", Go.string),
                ("LinkTo", "linkTo", Go.string),
                ("Text", "text", Go.string)
              ]),
              ("IsCTAOutsideNav", "isCTAOutsideNav", Go.bool)
            ]),
            ("MastheadParentPrepared", "mastheadParentPrepared", GoVal.struct [
              ("SearchURL", "searchURL", Go.string),
              ("ShowSearch", "showSearch", Go.bool),
              ("HideLogin", "hideLogin", Go.bool),
              ("MastheadSearchPrepared", "mastheadSearchPrepared", GoVal.struct [
                ("PluginOptions", "pluginOptions", Go.slice (GoVal.struct [
                  ("Type", "type", Go.string),
                  ("HitsPerPage", "hitsPerPage", Go.int),
                  ("Client", "client", GoVal.struct [
                    ("AppID", "appId", Go.string),
                    ("APIKey", "apiKey", Go.string)
                  ]),
                  ("IndexName", "indexName", Go.string)
                ]))
              ])
            ]),
            ("Source", "source", Go.string)
          ]),
          ("ProfilesProviderPrepared", "profilesProviderPrepared", GoVal.struct [
            ("Environment", "environment", Go.string),
            ("APIKey", "APIKey", Go.string),
            ("AnalyticsID", "analyticsID", Go.string)
          ]),
          ("NewsletterToasterPrepared", "newsletterToasterPrepared", Go.any),
          ("SiteFooterPrepared", "siteFooterPrepared", GoVal.struct [
            ("NotFound", "notFound", Go.bool),
            ("FullProductName", "fullProductName", Go.string),
            ("Columns", "columns", Go.slice (GoVal.struct [
              ("Component", "component", Go.string),
              ("ComponentProps", "componentProps", GoVal.struct [
                ("Acknowledgement", "acknowledgement", Go.string),
                ("FooterLogoPrepared", "footerLogoPrepared", GoVal.struct [
                  ("LogoHref", "logoHref", Go.string),
                  ("LogoType", "logoType", Go.string),
                  ("ScreenReaderText", "screenReaderText", Go.string)
                ]),
                ("List", "list", Go.slice (GoVal.struct [
                  ("LinkHref", "linkHref", Go.string),
                  ("LinkTitle", "linkTitle", Go.string)
                ])),
                ("LinkType", "linkType", Go.string),
                ("FooterClassName", "footerClassName", Go.string),
                ("SocialServices", "socialServices", Go.slice (GoVal.struct [
                  ("CanonicalURL", "canonicalURL", Go.string)
                ]))
              ]),
              ("FooterColumnHeading", "footerColumnHeading", Go.string),
              ("LoaderParams", "loaderParams", GoVal.struct [
                ("SiteFooterLinksVariation", "siteFooterLinksVariation", Go.string)
              ])
            ]))
          ]),
          ("NotificationMessagePrepared", "notificationMessagePrepared", Go.any),
          ("Title", "title", Go.string),
          ("ShowDate", "showDate", Go.bool),
          ("ShowLocation", "showLocation", Go.bool),
          ("Chromeless", "chromeless", Go.bool)
        ]),
        ("Data", "data", GoVal.struct [
          ("ComponentsContent", "componentsContent", Go.slice (GoVal.struct [
            ("Key", "key", Go.string),
            ("Component", "component", Go.string),
            ("ComponentProps", "componentProps", GoVal.struct [
              ("ID", "id", Go.string),
              ("HeadingPrepared", "headingPrepared", Go.string),
              ("Items", "items", Go.slice (GoVal.struct [
                ("ArticleLink", "articleLink", Go.string),
                ("CardAttributionPrepared", "cardAttributionPrepared", GoVal.struct [
                  ("PublishedDate", "publishedDate", Go.time),
                  ("PublishedDateFormat", "publishedDateFormat", Go.bool)
                ]),
                ("CardImagePrepared", "cardImagePrepared", GoVal.struct [
                  ("Alt", "alt", Go.string),
                  ("Ratio", "ratio", Go.string),
                  ("SrcSet", "srcSet", Go.slice Go.any)
                ]),
                ("CardMediaIndicatorPrepared", "cardMediaIndicatorPrepared", GoVal.struct [
                  ("Icon", "icon", Go.string),
                  ("Duration", "duration", Go.bool)
                ]),
                ("ContentLabelPrepared", "contentLabelPrepared", Go.any),
                ("ContentURI", "contentUri", Go.string),
                ("Description", "description", Go.string),
                ("CardID", "cardId", Go.string),
                ("CardTitle", "cardTitle", Go.string),
                ("NoBorders", "noBorders", Go.bool),
                ("PresentersPrepared", "presentersPrepared", Go.any),
                ("ImagePositionPrepared", "imagePositionPrepared", GoVal.struct [
                  ("Mobile", "mobile", Go.string),
                  ("Tablet", "tablet", Go.string),
                  ("Desktop", "desktop", Go.string)
                ]),
                ("CardContentPositionPrepared", "cardContentPositionPrepared", GoVal.struct []),
                ("HasMobileFeatured", "hasMobileFeatured", Go.bool),
                ("DocType", "docType", Go.string),
                ("Segments", "segments", Go.slice (GoVal.struct [
                  ("ArticleLink", "articleLink", Go.string),
                  ("CardAttributionPrepared", "cardAttributionPrepared", GoVal.struct [
                    ("PublishedDate", "publishedDate", Go.time),
                    ("PublishedDateFormat", "publishedDateFormat", Go.bool)
                  ]),
                  ("CardImagePrepared", "cardImagePrepared", GoVal.struct [
                    ("Alt", "alt", Go.string),
                    ("ImgSrc", "imgSrc", Go.string),
                    ("Ratio", "ratio", Go.string),
                    ("SrcSet", "srcSet", Go.slice Go.string),
                    ("Width", "width", Go.string),
                    ("Height", "height", Go.string)
                  ]),
                  ("CardMediaIndicatorPrepared", "cardMediaIndicatorPrepared", GoVal.struct [
                    ("Icon", "icon", Go.string),
                    ("Duration", "duration", Go.bool)
                  ]),
                  ("ContentLabelPrepared", "contentLabelPrepared", GoVal.struct [
                    ("LabelText", "labelText", Go.string)
                  ]),
                  ("ContentURI", "contentUri", Go.string),
                  ("Description", "description", Go.string),
                  ("CardID", "cardId", Go.string),
                  ("CardTitle", "cardTitle", Go.string),
                  ("NoBorders", "noBorders", Go.bool),
                  ("PresentersPrepared", "presentersPrepared", Go.any),
                  ("ImagePositionPrepared", "imagePositionPrepared", GoVal.struct [
                    ("Mobile", "mobile", Go.string),
                    ("Tablet", "tablet", Go.string),
                    ("Desktop", "desktop", Go.string)
                  ]),
                  ("CardContentPositionPrepared", "cardContentPositionPrepared", GoVal.struct []),
                  ("HasMobileFeatured", "hasMobileFeatured", Go.bool)
                ])),
                ("ProgramTemplate", "programTemplate", Go.string),
                ("Expanded", "expanded", Go.bool)
              ])),
              ("Analytics", "analytics", GoVal.struct [
                ("URI", "uri", Go.string),
                ("ModuleURI", "moduleUri", Go.string),
                ("ContentSource", "contentSource", Go.string),
                ("ContentType", "contentType", Go.string),
                ("ID", "id", Go.string),
                ("Title", "title", GoVal.struct [
                  ("Title", "title", Go.string)
                ]),
                ("Items", "items", Go.slice (GoVal.struct [
                  ("URI", "uri", Go.string)
                ]))
              ]),
              ("Pagination", "pagination", GoVal.struct [
                ("CollectionLoaderLimit", "collectionLoaderLimit", Go.int),
                ("Offset", "offset", Go.int),
                ("Size", "size", Go.int),
                ("Total", "total", Go.int)
              ]),
              ("ProgramID", "programId", Go.any),
              ("LoadMoreURL", "loadMoreUrl", Go.string),
              ("ProgramTemplate", "programTemplate", Go.string),
              ("HeadingMessage", "headingMessage", Go.string),
              ("Variant", "variant", Go.string),
              ("Label", "label", Go.string),
              ("Description", "description", Go.string),
              ("URL", "url", Go.string)
            ]),
            ("CollectionPreparerParams", "collectionPreparerParams", GoVal.struct [
              ("ShowDate", "showDate", Go.bool)
            ]),
            ("Optional", "optional", Go.bool)
          ])),
          ("Title", "title", Go.string),
          ("Description", "description", Go.string),
          ("Analytics", "analytics", GoVal.struct [
            ("Document", "document", GoVal.struct [
              ("ContentSource", "contentSource", Go.string),
              ("ContentType", "contentType", Go.string),
              ("ID", "id", Go.string),
              ("URI", "uri", Go.string),
              ("CanonicalURL", "canonicalUrl", Go.string),
              ("Title", "title", GoVal.struct [
                ("Title", "title", Go.string)
              ]),
              ("Program", "program", GoVal.struct [
                ("Name", "name", Go.string),
                ("ID", "id", Go.string)
              ]),
              ("SiteRoot", "siteRoot", GoVal.struct [
                ("Segment", "segment", Go.string),
                ("Title", "title", Go.string)
              ]),
              ("Language", "language", Go.string)
            ])
          ]),
          ("ShowDate", "showDate", Go.bool),
          ("ShowLocation", "showLocation", Go.bool),
          ("ShowSmartBanner", "showSmartBanner", Go.bool),
          ("Chromeless", "chromeless", Go.bool),
          ("HeadTagsSocial", "headTagsSocial", GoVal.struct [])
        ]),
        ("HeadTagsCMSPrepared", "headTagsCMSPrepared", GoVal.struct [
          ("Generator", "generator", Go.string),
          ("Site", "site", Go.string)
        ]),
        ("HeadTagsPagePrepared", "headTagsPagePrepared", GoVal.struct [
          ("BasePath", "basePath", Go.string),
          ("FaviconPath", "faviconPath", Go.string),
          ("CanonicalURL", "canonicalURL", Go.string),
          ("Description", "description", Go.string),
          ("Keywords", "keywords", Go.slice Go.any),
          ("Lang", "lang", Go.string),
          ("Robots", "robots", Go.any),
          ("Title", "title", Go.string),
          ("TouchIconFilename", "touchIconFilename", Go.string)
        ]),
        ("HeadTagsSocialPrepared", "headTagsSocialPrepared", GoVal.struct [
          ("CanonicalURL", "canonicalURL", Go.string),
          ("Description", "description", Go.string),
          ("Image", "image", Go.string),
          ("OgType", "ogType", Go.string),
          ("Title", "title", Go.string),
          ("Twitter", "twitter", Go.string),
          ("Site", "site", Go.string)
        ]),
        ("AddAScreenReaderOnlyH1", "addAScreenReaderOnlyH1", Go.bool),
        ("ProfilesProviderPrepared", "profilesProviderPrepared", GoVal.struct [
          ("Environment", "environment", Go.string),
          ("APIKey", "APIKey", Go.string),
          ("AnalyticsID", "analyticsID", Go.string)
        ])
      ]),
      ("NSsp", "__N_SSP", Go.bool)
    ]),
    ("Page", "page", Go.string),
    ("Query", "query", GoVal.struct [
      ("ProductSlug", "productSlug", Go.string),
      ("ProductPageSlug", "productPageSlug", Go.string)
    ]),
    ("BuildID", "buildId", Go.string),
    ("IsFallback", "isFallback", Go.bool),
    ("IsExperimentalCompile", "isExperimentalCompile", Go.bool),
    ("Gssp", "gssp", Go.bool),
    ("AppGip", "appGip", Go.bool),
    ("ScriptLoader", "scriptLoader", Go.slice Go.any)
  ]

/-- The `Each` loop over `doc.Find("script#__NEXT_DATA__")`: `jsonData` starts empty and takes
the text of every `script` element whose `id` is `__NEXT_DATA__`. -/
def locate (doc : List ScriptElement) : String :=
  doc.foldl (fun jsonData s => if s.id = some "__NEXT_DATA__" then s.text else jsonData) ""

/-- The item made of an entry of an episode collection. -/
def listItemItem (listItem : GoVal) : Item :=
  { Title := (listItem.sel ["CardTitle"]).getString
    Link := BaseURL ++ (listItem.sel ["ArticleLink"]).getString
    Description := (listItem.sel ["Description"]).getString
    PubDate := (listItem.sel ["CardAttributionPrepared", "PublishedDate"]).getTime.FormatRFC1123
    GUID := BaseURL ++ (listItem.sel ["ArticleLink"]).getString }

/-- The body of the loop over `component.ComponentProps.Items`: an entry whose guid was seen is
passed over (`continue`), any other is recorded and appended. -/
def listStep (st : LoopState) (listItem : GoVal) : LoopState :=
  let guid := BaseURL ++ (listItem.sel ["ArticleLink"]).getString
  if st.seenGUIDs.get guid then st
  else { seenGUIDs := st.seenGUIDs.set guid true, Items := st.Items ++ [listItemItem listItem] }

/-- The body of the loop over `abcData.Props.PageProps.Data.ComponentsContent`. -/
def componentStep (st : LoopState) (component : GoVal) : LoopState :=
  if (component.sel ["Component"]).getString = "EpisodeCollection" then
    (component.sel ["ComponentProps", "Items"]).elems.foldl listStep st
  else st

/-- The feed built from the decoded page state: version, header fields and items. -/
def buildRSS (abcData : GoVal) : RSS :=
  { Version := "2.0"
    Channel :=
      { Title := (abcData.sel ["Props", "PageProps", "HeadTagsSocialPrepared", "Site"]).getString
        Link :=
          (abcData.sel ["Props", "PageProps", "HeadTagsSocialPrepared", "CanonicalURL"]).getString
        Description :=
          (abcData.sel ["Props", "PageProps", "HeadTagsSocialPrepared", "Description"]).getString
        Items :=
          ((abcData.sel ["Props", "PageProps", "Data", "ComponentsContent"]).elems.foldl
            componentStep {}).Items } }

/-- The function `FetchAndParseToRSS` of `abcrss.go`, on the outcome `get` of
`http.Get(BaseURL + "/mediawatch/episodes")`. The result is the pair the Go function returns,
the error (`none` for `nil`) and the feed. -/
def FetchAndParseToRSS (get : Except String Response) : Option Error × RSS :=
  match get with
  | Except.error err => (some (Error.fetching err), {})
  | Except.ok resp =>
    if resp.StatusCode ≠ StatusOK then (some (Error.statusCode resp.Status), {})
    else
      match resp.Doc with
      | Except.error err => (some (Error.parsingNews err), {})
      | Except.ok doc =>
        if locate doc = "" then (some Error.noJSONData, {})
        else
          match Unmarshal (locate doc) ABCJSON with
          | Except.error err => (some (Error.parsingJSON err), {})
          | Except.ok abcData => (none, buildRSS abcData)

end MediaWatch

/-! ## Candidate entries -/

/-- The candidate entries of a decoded Kohler Report payload in source order, each as the item
it maps to: the components in array order, and of every component named `VideoPlayer` the
featured video followed by the entries of its list in array order. -/
def Kohler.candidates (abcData : GoVal) : List Item :=
  ((abcData.sel ["Props", "PageProps", "Channelpage", "Components"]).elems.map
    fun component =>
      if (component.sel ["Component", "Name"]).getString = "VideoPlayer" then
        Kohler.videoItem (component.sel ["Component", "Props", "Video"])
          :: (component.sel ["Component", "Props", "List"]).elems.map
            (Kohler.listItemItem (component.sel ["Component", "Props", "Video"]))
      else []).flatten

/-- The candidate entries of a decoded Media Watch payload in source order, each as the item it
maps to: the components in array order, and of every component named `EpisodeCollection` its
items in array order. -/
def MediaWatch.candidates (abcData : GoVal) : List Item :=
  ((abcData.sel ["Props", "PageProps", "Data", "ComponentsContent"]).elems.map
    fun component =>
      if (component.sel ["Component"]).getString = "EpisodeCollection" then
        (component.sel ["ComponentProps", "Items"]).elems.map MediaWatch.listItemItem
      else []).flatten

/-- The two adapters of the repository. -/
inductive Adapter where
  | kohlerReport : Adapter
  | mediaWatch : Adapter
deriving DecidableEq, Repr

namespace Adapter

/-- The zero value of the `ABCJSON` of the adapter. -/
def ABCJSON : Adapter → GoVal
  | kohlerReport => Kohler.ABCJSON
  | mediaWatch => MediaWatch.ABCJSON

/-- The payload locator of the adapter. -/
def locate : Adapter → List ScriptElement → String
  | kohlerReport => Kohler.locate
  | mediaWatch => MediaWatch.locate

/-- The candidate entries of a decoded payload. -/
def candidates : Adapter → GoVal → List Item
  | kohlerReport => Kohler.candidates
  | mediaWatch => MediaWatch.candidates

/-- The feed built from a decoded payload. -/
def buildRSS : Adapter → GoVal → RSS
  | kohlerReport => Kohler.buildRSS
  | mediaWatch => MediaWatch.buildRSS

/-- The function `FetchAndParseToRSS` of the adapter. -/
def FetchAndParseToRSS : Adapter → Except String Response → Option Error × RSS
  | kohlerReport => Kohler.FetchAndParseToRSS
  | mediaWatch => MediaWatch.FetchAndParseToRSS

end Adapter

/-- The candidate entries of a page in source order: those of its decoded payload, and none
when the markup or the payload cannot be read. -/
def Adapter.entries (a : Adapter) (get : Except String Response) : List Item :=
  match get with
  | Except.error _ => []
  | Except.ok resp =>
    match resp.Doc with
    | Except.error _ => []
    | Except.ok doc =>
      match Unmarshal (a.locate doc) a.ABCJSON with
      | Except.error _ => []
      | Except.ok abcData => a.candidates abcData

/-- A page fetched with status 200 whose markup parsed into the given `script` elements. -/
def fetched (status : String) (doc : List ScriptElement) : Except String Response :=
  Except.ok { Status := status, StatusCode := StatusOK, Doc := Except.ok doc }

/-- The deduplication step both loops perform on an item: it is passed over when its guid is in
the map, else the guid is recorded and the item appended. -/
def accept (st : LoopState) (it : Item) : LoopState :=
  if st.seenGUIDs.get it.GUID then st
  else { seenGUIDs := st.seenGUIDs.set it.GUID true, Items := st.Items ++ [it] }

/-- The first occurrences of a list of items: every item whose guid no earlier item bears. -/
def firstOccurrences : List Item → List Item
  | [] => []
  | c :: cs => c :: (firstOccurrences cs).filter (fun d => d.GUID != c.GUID)

/-- The map of a loop state holds exactly the guids of the items appended so far. -/
def LoopState.Consistent (st : LoopState) : Prop :=
  ∀ g, st.seenGUIDs.get g = true ↔ g ∈ st.Items.map Item.GUID

/-- The `Each` loop of both locators: `jsonData` takes the text of every selected element. -/
def lastText (p : ScriptElement → Bool) (doc : List ScriptElement) (init : String) : String :=
  doc.foldl (fun jsonData s => if p s then s.text else jsonData) init

/-! ## What a payload holds for the decoder -/

mutual
/-- Whether a Go value is of the type of `s`: the same kind of value, for a struct the same
field names and tags in the same order with fields of the same types, for a slice elements of
the type of the zero element of `s`. -/
def sameShape : GoVal → GoVal → Bool
  | GoVal.str _, v =>
    match v with
    | GoVal.str _ => true
    | _ => false
  | GoVal.bool _, v =>
    match v with
    | GoVal.bool _ => true
    | _ => false
  | GoVal.int _, v =>
    match v with
    | GoVal.int _ => true
    | _ => false
  | GoVal.time _, v =>
    match v with
    | GoVal.time _ => true
    | _ => false
  | GoVal.any _, v =>
    match v with
    | GoVal.any _ => true
    | _ => false
  | GoVal.struct sfs, v =>
    match v with
    | GoVal.struct fs => sameShapeFields sfs fs
    | _ => false
  | GoVal.slice sz _ _, v =>
    match v with
    | GoVal.slice z es spare =>
      sameShape sz z && es.all (fun e => sameShape sz e) && spare.all (fun e => sameShape sz e)
    | _ => false
def sameShapeFields : List (String × String × GoVal) → List (String × String × GoVal) → Bool
  | [], fs => fs.isEmpty
  | sf :: sfs, fs =>
    match fs with
    | [] => false
    | f :: fs1 =>
      sf.1 == f.1 && sf.2.1 == f.2.1 && sameShape sf.2.2 f.2.2 && sameShapeFields sfs fs1
end

mutual
/-- Whether a JSON value fits the Go type of `s`, every value in it being of a kind its target
takes: `null` fits every type; a string, a `bool`, an integer within 64 bits, an RFC 3339
timestamp fit the type of their kind; every value without a number beyond `float64` fits `any`;
an object fits a struct when each member that selects a field fits the type of the field; an
array fits a slice when each element fits the element type. -/
def fits : GoVal → JSON → Bool
  | _, JSON.null => true
  | s, JSON.bool _ =>
    match s with
    | GoVal.bool _ => true
    | GoVal.any _ => true
    | _ => false
  | s, JSON.num lit =>
    match s with
    | GoVal.int _ => (parseInt64 lit).isSome
    | GoVal.any _ => !floatOverflows lit
    | _ => false
  | s, JSON.str raw =>
    match s with
    | GoVal.str _ => true
    | GoVal.any _ => true
    | GoVal.time _ => (parseRFC3339 raw).isSome
    | _ => false
  | s, JSON.arr xs =>
    match s with
    | GoVal.slice z _ _ => fitsElems z xs
    | GoVal.any _ => !anyOverflowsList xs
    | _ => false
  | s, JSON.obj ms =>
    match s with
    | GoVal.struct fs => fitsMembers fs ms
    | GoVal.any _ => !anyOverflowsMembers ms
    | _ => false
def fitsMembers : List (String × String × GoVal) → List (String × JSON) → Bool
  | _, [] => true
  | fs, m :: ms =>
    (match findField fs (unquote m.1) with
      | none => true
      | some name => fits ((GoVal.struct fs).field name) m.2)
    && fitsMembers fs ms
def fitsElems : GoVal → List JSON → Bool
  | _, [] => true
  | z, x :: xs => fits z x && fitsElems z xs
end

/-- A step from a Go value to a part of it: the selection of a field by its Go name, or the
passage from a slice to its elements. -/
inductive Step where
  | field (name : String) : Step
  | elem : Step
deriving DecidableEq, Repr

mutual
/-- The nodes of a payload that `decode` decodes into the part of the target that `path` leads
to, in the order of the text, each with the zero value of the type of that part. A payload with
repeated member names, or with names that differ in case only, has several nodes for one
field. -/
def nodesAt : GoVal → List Step → JSON → List (GoVal × JSON)
  | s, path, JSON.obj ms =>
    match path with
    | [] => [(s, JSON.obj ms)]
    | Step.field name :: rest =>
      match s with
      | GoVal.struct fs => nodesAtMembers fs name rest ms
      | _ => []
    | Step.elem :: _ => []
  | s, path, JSON.arr xs =>
    match path with
    | [] => [(s, JSON.arr xs)]
    | Step.elem :: rest =>
      match s with
      | GoVal.slice z _ _ => nodesAtElems z rest xs
      | _ => []
    | Step.field _ :: _ => []
  | s, path, j =>
    match path with
    | [] => [(s, j)]
    | _ => []
def nodesAtMembers : List (String × String × GoVal) → String → List Step →
    List (String × JSON) → List (GoVal × JSON)
  | _, _, _, [] => []
  | fs, name, rest, m :: ms =>
    (if findField fs (unquote m.1) = some name then
      nodesAt ((GoVal.struct fs).field name) rest m.2
    else [])
    ++ nodesAtMembers fs name rest ms
def nodesAtElems : GoVal → List Step → List JSON → List (GoVal × JSON)
  | _, _, [] => []
  | z, rest, x :: xs => nodesAt z rest x ++ nodesAtElems z rest xs
end

/-- Whether a node is of another JSON kind than the target it is decoded into: anything but a
string for a `string` or a `time.Time`, but a `bool` for a `bool`, but a number for an integer,
but an object for a struct, but an array for a slice. `null` and the targets of type `any` are
never of the wrong kind. -/
def wrongKind : GoVal → JSON → Bool
  | _, JSON.null => false
  | GoVal.any _, _ => false
  | GoVal.str _, JSON.str _ => false
  | GoVal.time _, JSON.str _ => false
  | GoVal.bool _, JSON.bool _ => false
  | GoVal.int _, JSON.num _ => false
  | GoVal.struct _, JSON.obj _ => false
  | GoVal.slice _ _ _, JSON.arr _ => false
  | _, _ => true

/-- What a `string` field holds after the given nodes were decoded into it, `init` before: the
value of the last string among them. -/
def lastString (init : String) (nodes : List (GoVal × JSON)) : String :=
  nodes.foldl
    (fun acc p =>
      match p.1, p.2 with
      | GoVal.str _, JSON.str raw => unquote raw
      | _, _ => acc)
    init

/-- The three header fields of the channel. -/
inductive HeaderField where
  | title : HeaderField
  | link : HeaderField
  | description : HeaderField
deriving DecidableEq, Repr

/-- The header field of a channel. -/
def Channel.header (c : Channel) : HeaderField → String
  | HeaderField.title => c.Title
  | HeaderField.link => c.Link
  | HeaderField.description => c.Description

/-- The Go names of the fields selected for a header field, as in `buildRSS`. -/
def Adapter.headerSel : Adapter → HeaderField → List String
  | Adapter.kohlerReport, HeaderField.title =>
    ["Props", "PageProps", "Channelpage", "HeadTagsPagePrepared", "Title"]
  | Adapter.kohlerReport, HeaderField.link =>
    ["Props", "PageProps", "Channelpage", "HeadTagsPagePrepared", "CanonicalURL"]
  | Adapter.kohlerReport, HeaderField.description =>
    ["Props", "PageProps", "Channelpage", "HeadTagsPagePrepared", "Description"]
  | Adapter.mediaWatch, HeaderField.title =>
    ["Props", "PageProps", "HeadTagsSocialPrepared", "Site"]
  | Adapter.mediaWatch, HeaderField.link =>
    ["Props", "PageProps", "HeadTagsSocialPrepared", "CanonicalURL"]
  | Adapter.mediaWatch, HeaderField.description =>
    ["Props", "PageProps", "HeadTagsSocialPrepared", "Description"]

/-- The nodes of a payload at the metadata path of a header field: `props.pageProps.channelpage.
headTagsPagePrepared.title`, `.canonicalURL` and `.description` in the Kohler Report adapter,
`props.pageProps.headTagsSocialPrepared.site`, `.canonicalURL` and `.description` in the Media
Watch adapter. The path is absent from the payload when there is no such node. -/
def Adapter.headerNodes (a : Adapter) (f : HeaderField) (j : JSON) : List (GoVal × JSON) :=
  nodesAt a.ABCJSON ((a.headerSel f).map Step.field) j

/-- What `decode` owes to the type `s` of its target on the node `j`: it fails on a value that
does not fit only, keeps the type of the target, and saves an error exactly for a value that
does not fit. -/
def DecodeSpec (s : GoVal) (j : JSON) (res : Option (GoVal × Bool)) : Prop :=
  match res with
  | none => fits s j = false
  | some r => sameShape s r.1 = true ∧ (r.2 = false ↔ fits s j = true)

/-- What `decodeMembers` owes to the fields `sfs` of its target. -/
def MembersSpec (sfs : List (String × String × GoVal)) (ms : List (String × JSON))
    (res : Option (List (String × String × GoVal) × Bool)) : Prop :=
  match res with
  | none => fitsMembers sfs ms = false
  | some r => sameShapeFields sfs r.1 = true ∧ (r.2 = false ↔ fitsMembers sfs ms = true)

/-- What `decodeElems` owes to the element type `sz` of its target. -/
def ElemsSpec (sz : GoVal) (xs : List JSON)
    (res : Option ((List GoVal × List GoVal) × Bool)) : Prop :=
  match res with
  | none => fitsElems sz xs = false
  | some r =>
    r.1.1.all (fun e => sameShape sz e) = true ∧ r.1.2.all (fun e => sameShape sz e) = true
      ∧ (r.2 = false ↔ fitsElems sz xs = true)

/-- Whether `json.Unmarshal` decodes the text into the `ABCJSON` of the adapter without an
error. -/
def Adapter.decodes (a : Adapter) (text : String) : Bool :=
  match Unmarshal text a.ABCJSON with
  | Except.ok _ => true
  | Except.error _ => false

/-! ## Components and timestamps of a decoded payload -/

/-- The components of a decoded Kohler Report payload in array order, the range of the outer
loop. -/
def Kohler.components (abcData : GoVal) : List GoVal :=
  (abcData.sel ["Props", "PageProps", "Channelpage", "Components"]).elems

/-- The test of the Kohler Report loop on a component: `component.Component.Name` is
`VideoPlayer`. -/
def Kohler.producesItems (component : GoVal) : Bool :=
  decide ((component.sel ["Component", "Name"]).getString = "VideoPlayer")

/-- The candidate entries of one `VideoPlayer` component: the featured video, then the entries
of the list in array order. -/
def Kohler.componentEntries (component : GoVal) : List Item :=
  Kohler.videoItem (component.sel ["Component", "Props", "Video"])
    :: (component.sel ["Component", "Props", "List"]).elems.map
      (Kohler.listItemItem (component.sel ["Component", "Props", "Video"]))

/-- The components of a decoded Media Watch payload in array order, the range of the outer
loop. -/
def MediaWatch.components (abcData : GoVal) : List GoVal :=
  (abcData.sel ["Props", "PageProps", "Data", "ComponentsContent"]).elems

/-- The test of the Media Watch loop on a component: `component.Component` is
`EpisodeCollection`. -/
def MediaWatch.producesItems (component : GoVal) : Bool :=
  decide ((component.sel ["Component"]).getString = "EpisodeCollection")

/-- The candidate entries of one `EpisodeCollection` component: its items in array order. -/
def MediaWatch.componentEntries (component : GoVal) : List Item :=
  (component.sel ["ComponentProps", "Items"]).elems.map MediaWatch.listItemItem

namespace Adapter

/-- The components the outer loop of the adapter ranges over. -/
def components : Adapter → GoVal → List GoVal
  | kohlerReport => Kohler.components
  | mediaWatch => MediaWatch.components

/-- The test of the loop of the adapter on a component. -/
def producesItems : Adapter → GoVal → Bool
  | kohlerReport => Kohler.producesItems
  | mediaWatch => MediaWatch.producesItems

/-- The candidate entries of one component that passes the test of the loop. -/
def componentEntries : Adapter → GoVal → List Item
  | kohlerReport => Kohler.componentEntries
  | mediaWatch => MediaWatch.componentEntries

/-- The paths of `ABCJSON` whose timestamps the loop of the adapter formats into `PubDate`. -/
def datePaths : Adapter → List (List Step)
  | kohlerReport =>
    [[Step.field "Props", Step.field "PageProps", Step.field "Channelpage",
        Step.field "Components", Step.elem, Step.field "Component", Step.field "Props",
        Step.field "Video", Step.field "PostDate", Step.field "PublishedDate"],
      [Step.field "Props", Step.field "PageProps", Step.field "Channelpage",
        Step.field "Components", Step.elem, Step.field "Component", Step.field "Props",
        Step.field "List", Step.elem, Step.field "Player", Step.field "PostDate",
        Step.field "PublishedDate"]]
  | mediaWatch =>
    [[Step.field "Props", Step.field "PageProps", Step.field "Data",
        Step.field "ComponentsContent", Step.elem, Step.field "ComponentProps",
        Step.field "Items", Step.elem, Step.field "CardAttributionPrepared",
        Step.field "PublishedDate"]]

/-- The decoded payload of a page: what `json.Unmarshal` leaves in `abcData`, and the zero
`ABCJSON` when the markup or the payload cannot be read. -/
def payload (a : Adapter) (get : Except String Response) : GoVal :=
  match get with
  | Except.error _ => a.ABCJSON
  | Except.ok resp =>
    match resp.Doc with
    | Except.error _ => a.ABCJSON
    | Except.ok doc =>
      match Unmarshal (a.locate doc) a.ABCJSON with
      | Except.error _ => a.ABCJSON
      | Except.ok abcData => abcData

end Adapter

/-- Whether every part of a value that the path leads to satisfies `p`: a field step leads to
the value of the field, an element step to the elements of a slice, the spare elements of its
backing array and the zero element new elements start from. -/
def allAt (p : GoVal → Bool) : List Step → GoVal → Bool
  | [], v => p v
  | Step.field name :: rest, v => allAt p rest (v.field name)
  | Step.elem :: rest, v =>
    match v with
    | GoVal.slice z es spare =>
      allAt p rest z && es.all (fun e => allAt p rest e) && spare.all (fun e => allAt p rest e)
    | _ => true

/-- The timestamp of a value is the zero `time.Time`. -/
def unsetTime (v : GoVal) : Bool :=
  decide (v.getTime = Time.zero)

/-! ## Equality of decoded values -/

mutual
/-- Whether two JSON values are the same tree. -/
def sameJSON : JSON → JSON → Bool
  | JSON.null, k =>
    match k with
    | JSON.null => true
    | _ => false
  | JSON.bool b, k =>
    match k with
    | JSON.bool c => b == c
    | _ => false
  | JSON.num lit, k =>
    match k with
    | JSON.num lit' => lit == lit'
    | _ => false
  | JSON.str raw, k =>
    match k with
    | JSON.str raw' => raw == raw'
    | _ => false
  | JSON.arr xs, k =>
    match k with
    | JSON.arr ys => sameJSONElems xs ys
    | _ => false
  | JSON.obj ms, k =>
    match k with
    | JSON.obj ns => sameJSONMembers ms ns
    | _ => false
/-- Whether two lists of JSON values are the same. -/
def sameJSONElems : List JSON → List JSON → Bool
  | [], ys => ys.isEmpty
  | x :: xs, ys =>
    match ys with
    | [] => false
    | y :: ys1 => sameJSON x y && sameJSONElems xs ys1
/-- Whether two lists of members are the same. -/
def sameJSONMembers : List (String × JSON) → List (String × JSON) → Bool
  | [], ns => ns.isEmpty
  | m :: ms, ns =>
    match ns with
    | [] => false
    | n :: ns1 => m.1 == n.1 && sameJSON m.2 n.2 && sameJSONMembers ms ns1
end

mutual
/-- Whether two Go values are the same, the backing arrays of their slices included. -/
def sameValue : GoVal → GoVal → Bool
  | GoVal.str s, w =>
    match w with
    | GoVal.str s' => s == s'
    | _ => false
  | GoVal.bool b, w =>
    match w with
    | GoVal.bool b' => b == b'
    | _ => false
  | GoVal.int n, w =>
    match w with
    | GoVal.int n' => n == n'
    | _ => false
  | GoVal.time t, w =>
    match w with
    | GoVal.time t' => t == t'
    | _ => false
  | GoVal.any x, w =>
    match w with
    | GoVal.any x' =>
      match x, x' with
      | none, none => true
      | some j, some j' => sameJSON j j'
      | _, _ => false
    | _ => false
  | GoVal.struct fs, w =>
    match w with
    | GoVal.struct fs' => sameValueFields fs fs'
    | _ => false
  | GoVal.slice z es sp, w =>
    match w with
    | GoVal.slice z' es' sp' => sameValue z z' && sameValues es es' && sameValues sp sp'
    | _ => false
/-- Whether two lists of Go values are the same. -/
def sameValues : List GoVal → List GoVal → Bool
  | [], ws => ws.isEmpty
  | v :: vs, ws =>
    match ws with
    | [] => false
    | w :: ws1 => sameValue v w && sameValues vs ws1
/-- Whether two lists of fields are the same. -/
def sameValueFields : List (String × String × GoVal) → List (String × String × GoVal) → Bool
  | [], gs => gs.isEmpty
  | f :: fs, gs =>
    match gs with
    | [] => false
    | g :: gs1 =>
      f.1 == g.1 && f.2.1 == g.2.1 && sameValue f.2.2 g.2.2 && sameValueFields fs gs1
end

/-! ## Arrays and entries of a payload -/

/-- What a part of a value holds after the given nodes were decoded into it one after the
other, `init` before, and `none` when the decoder fails on one of them. -/
def decodeAll (init : GoVal) : List (GoVal × JSON) → Option GoVal
  | [] => some init
  | n :: ns =>
    match decode init n.2 with
    | none => none
    | some r => decodeAll r.1 ns

/-- The elements `json.Unmarshal` makes of an array decoded into a nil slice: every element of
the array decoded into a zero element of its own. -/
def freshElems (z : GoVal) (xs : List JSON) : List GoVal :=
  xs.filterMap fun x => (decode z x).map Prod.fst

/-- The zero element of a slice value. -/
def GoVal.zeroElem : GoVal → GoVal
  | GoVal.slice z _ _ => z
  | v => v

namespace Adapter

/-- The selector of the components the outer loop of the adapter ranges over. -/
def componentsSel : Adapter → List String
  | kohlerReport => ["Props", "PageProps", "Channelpage", "Components"]
  | mediaWatch => ["Props", "PageProps", "Data", "ComponentsContent"]

/-- The zero value of a component of the adapter. -/
def componentZero (a : Adapter) : GoVal :=
  (a.ABCJSON.sel a.componentsSel).zeroElem

end Adapter

/-- A step from a value to one part of it: to the value of a field, or to the element of a
slice at an index. -/
inductive Place where
  | field (name : String) : Place
  | index (i : Nat) : Place
deriving DecidableEq, Repr

mutual
/-- The nodes of a payload that `json.Unmarshal` decodes into the part of a value of shape `s`
at the given places, in the order of the text. -/
def nodesOf : GoVal → List Place → JSON → List (GoVal × JSON)
  | s, path, JSON.obj ms =>
    match path with
    | [] => [(s, JSON.obj ms)]
    | Place.field name :: rest =>
      match s with
      | GoVal.struct fs => nodesOfMembers fs name rest ms
      | _ => []
    | Place.index _ :: _ => []
  | s, path, JSON.arr xs =>
    match path with
    | [] => [(s, JSON.arr xs)]
    | Place.index i :: rest =>
      match s with
      | GoVal.slice z _ _ => nodesOfElems z i rest xs
      | _ => []
    | Place.field _ :: _ => []
  | s, path, j =>
    match path with
    | [] => [(s, j)]
    | _ => []
/-- The nodes among the members of an object that are decoded into the field `name`. -/
def nodesOfMembers : List (String × String × GoVal) → String → List Place →
    List (String × JSON) → List (GoVal × JSON)
  | _, _, _, [] => []
  | fs, name, rest, m :: ms =>
    (if findField fs (unquote m.1) = some name then
      nodesOf ((GoVal.struct fs).field name) rest m.2
    else [])
    ++ nodesOfMembers fs name rest ms
/-- The nodes of the element of an array at index `i`. -/
def nodesOfElems : GoVal → Nat → List Place → List JSON → List (GoVal × JSON)
  | _, _, _, [] => []
  | z, i, rest, x :: xs =>
    match i with
    | 0 => nodesOf z rest x
    | i + 1 => nodesOfElems z i rest xs
end

/-- Whether the part of a value at the given places satisfies `p`, together with the zero
elements that new elements of the slices on the way start from; the element at an index is
taken from the backing array, the elements of the slice and the spare ones after them. -/
def holdsAt (p : GoVal → Bool) : List Place → GoVal → Bool
  | [], v => p v
  | Place.field name :: rest, v => holdsAt p rest (v.field name)
  | Place.index i :: rest, v =>
    match v with
    | GoVal.slice z es spare => holdsAt p rest z && holdsAt p rest ((es ++ spare).getD i z)
    | _ => true

/-- A reference to a candidate entry of a payload: the index of its component, and the index of
the entry in the list or items of the component, or none for the featured video of a Kohler
Report component. -/
structure EntryRef where
  component : Nat
  entry : Option Nat
deriving DecidableEq, Repr

namespace Adapter

/-- The places of `ABCJSON` at which the loop reads the publish date of the referenced entry. -/
def datePlaces : Adapter → EntryRef → List Place
  | kohlerReport, ⟨k, none⟩ =>
    [Place.field "Props", Place.field "PageProps", Place.field "Channelpage",
      Place.field "Components", Place.index k, Place.field "Component", Place.field "Props",
      Place.field "Video", Place.field "PostDate", Place.field "PublishedDate"]
  | kohlerReport, ⟨k, some i⟩ =>
    [Place.field "Props", Place.field "PageProps", Place.field "Channelpage",
      Place.field "Components", Place.index k, Place.field "Component", Place.field "Props",
      Place.field "List", Place.index i, Place.field "Player", Place.field "PostDate",
      Place.field "PublishedDate"]
  | mediaWatch, ⟨_, none⟩ => []
  | mediaWatch, ⟨k, some i⟩ =>
    [Place.field "Props", Place.field "PageProps", Place.field "Data",
      Place.field "ComponentsContent", Place.index k, Place.field "ComponentProps",
      Place.field "Items", Place.index i, Place.field "CardAttributionPrepared",
      Place.field "PublishedDate"]

/-- The item the loop makes of the referenced entry of a decoded payload, if the payload has
that entry in a component that passes the test of the loop. -/
def entryAt : Adapter → GoVal → EntryRef → Option Item
  | kohlerReport, abcData, ⟨k, e⟩ =>
    match (Kohler.components abcData)[k]? with
    | none => none
    | some component =>
      if Kohler.producesItems component = true then
        match e with
        | none => some (Kohler.videoItem (component.sel ["Component", "Props", "Video"]))
        | some i =>
          ((component.sel ["Component", "Props", "List"]).elems[i]?).map
            (Kohler.listItemItem (component.sel ["Component", "Props", "Video"]))
      else none
  | mediaWatch, abcData, ⟨k, e⟩ =>
    match (MediaWatch.components abcData)[k]? with
    | none => none
    | some component =>
      if MediaWatch.producesItems component = true then
        match e with
        | none => none
        | some i =>
          ((component.sel ["ComponentProps", "Items"]).elems[i]?).map MediaWatch.listItemItem
      else none

end Adapter

/-! ## Sample pages -/

/-- A Kohler Report payload with two `VideoPlayer` components and one of another name: the
first list repeats the share link of its featured video, the second featured video that of an
earlier list entry. -/
def Kohler.samplePayload : String :=
    "\x7b\"props\":\x7b\"pageProps\":\x7b\"channelpage\":\x7b\"headTagsPagePrepared\":\x7b" ++
    "\"title\":\"The Kohler Report\",\"canonicalURL\":\"https://www.abc.net.au/news/program" ++
    "s/kohler-report\",\"description\":\"Finance news\"\x7d,\"components\":[\x7b\"documentI" ++
    "d\":\"1\",\"component\":\x7b\"name\":\"VideoPlayer\",\"props\":\x7b\"video\":\x7b\"tit" ++
    "le\":\"Rates on hold\",\"config\":\x7b\"image\":\"img1\"\x7d,\"share\":\x7b\"shareLink" ++
    "\":\"https://abc/1\",\"synopsis\":\"S1\"\x7d,\"postDate\":\x7b\"publishedDate\":\"2024" ++
    "-03-05T19:30:00+11:00\"\x7d\x7d,\"list\":[\x7b\"card\":\x7b\"title\":\x7b\"children\":" ++
    "\"Rates again\"\x7d,\"image\":\x7b\"imgSrc\":\"card1\"\x7d\x7d,\"player\":\x7b\"config" ++
    "\":\x7b\"image\":\"own1\"\x7d,\"share\":\x7b\"shareLink\":\"https://abc/1\",\"synopsis" ++
    "\":\"S1b\"\x7d,\"postDate\":\x7b\"publishedDate\":\"2024-03-06T19:30:00+11:00\"\x7d" ++
    "\x7d\x7d,\x7b\"card\":\x7b\"title\":\x7b\"children\":\"Shares slide\"\x7d\x7d,\"player" ++
    "\":\x7b\"config\":\x7b\"image\":\"own2\"\x7d,\"share\":\x7b\"shareLink\":\"https://abc" ++
    "/2\",\"synopsis\":\"S2\"\x7d,\"postDate\":\x7b\"publishedDate\":\"2024-03-04T08:30:00Z" ++
    "\"\x7d\x7d\x7d]\x7d\x7d\x7d,\x7b\"documentId\":\"1\",\"component\":\x7b\"name\":\"Teas" ++
    "er\",\"props\":\x7b\"video\":\x7b\"title\":\"Ignored\",\"share\":\x7b\"shareLink\":\"h" ++
    "ttps://abc/9\",\"synopsis\":\"S9\"\x7d\x7d\x7d\x7d\x7d,\x7b\"documentId\":\"1\",\"comp" ++
    "onent\":\x7b\"name\":\"VideoPlayer\",\"props\":\x7b\"video\":\x7b\"title\":\"Shares sl" ++
    "ide, repeated\",\"config\":\x7b\"image\":\"img2\"\x7d,\"share\":\x7b\"shareLink\":\"ht" ++
    "tps://abc/2\",\"synopsis\":\"S2b\"\x7d\x7d,\"list\":[\x7b\"card\":\x7b\"title\":\x7b\"" ++
    "children\":\"Dollar up\"\x7d\x7d,\"player\":\x7b\"share\":\x7b\"shareLink\":\"https://" ++
    "abc/3\",\"synopsis\":\"S3\"\x7d\x7d\x7d]\x7d\x7d\x7d]\x7d\x7d\x7d,\"page\":\"/news/[.." ++
    ".channel]\"\x7d"

/-- A page holding `Kohler.samplePayload` after a script without the marker. -/
def Kohler.samplePage : Except String Response :=
  fetched "200 OK"
    [{ id := none, text := "window.dataLayer = []" },
     { id := some "__NEXT_DATA__", text := Kohler.samplePayload }]

/-- A Media Watch payload with two `EpisodeCollection` components and one of another name: the
first collection repeats an article link, the second one of the first. -/
def MediaWatch.samplePayload : String :=
    "\x7b\"props\":\x7b\"pageProps\":\x7b\"data\":\x7b\"componentsContent\":[\x7b\"key\":\"" ++
    "k\",\"component\":\"EpisodeCollection\",\"componentProps\":\x7b\"items\":[\x7b\"articl" ++
    "eLink\":\"/mediawatch/episodes/ep01\",\"cardAttributionPrepared\":\x7b\"publishedDate" ++
    "\":\"2024-02-05T21:15:00+11:00\"\x7d,\"description\":\"D1\",\"cardTitle\":\"Episode 1" ++
    "\"\x7d,\x7b\"articleLink\":\"/mediawatch/episodes/ep01\",\"cardAttributionPrepared\":" ++
    "\x7b\"publishedDate\":\"2024-02-06T21:15:00+11:00\"\x7d,\"description\":\"D1b\",\"card" ++
    "Title\":\"Episode 1, again\"\x7d,\x7b\"articleLink\":\"/mediawatch/episodes/ep02\",\"c" ++
    "ardAttributionPrepared\":\x7b\"publishedDate\":\"2024-02-12T10:15:00Z\"\x7d,\"descript" ++
    "ion\":\"D2\",\"cardTitle\":\"Episode 2\"\x7d]\x7d\x7d,\x7b\"key\":\"k\",\"component\":" ++
    "\"Promo\",\"componentProps\":\x7b\"items\":[\x7b\"articleLink\":\"/mediawatch/promo\"," ++
    "\"description\":\"D9\",\"cardTitle\":\"Ignored\"\x7d]\x7d\x7d,\x7b\"key\":\"k\",\"comp" ++
    "onent\":\"EpisodeCollection\",\"componentProps\":\x7b\"items\":[\x7b\"articleLink\":\"" ++
    "/mediawatch/episodes/ep02\",\"description\":\"D2b\",\"cardTitle\":\"Episode 2, repeate" ++
    "d\"\x7d,\x7b\"articleLink\":\"/mediawatch/episodes/ep03\",\"description\":\"D3\",\"car" ++
    "dTitle\":\"Episode 3\"\x7d]\x7d\x7d]\x7d,\"headTagsSocialPrepared\":\x7b\"canonicalURL" ++
    "\":\"https://www.abc.net.au/mediawatch/episodes\",\"description\":\"Media Watch episod" ++
    "es\",\"site\":\"Media Watch\"\x7d\x7d\x7d,\"page\":\"/mediawatch/episodes\"\x7d"

/-- A page holding `MediaWatch.samplePayload` after a script of another id. -/
def MediaWatch.samplePage : Except String Response :=
  fetched "200 OK"
    [{ id := none, text := "window.dataLayer = []" },
     { id := some "__NEXT_DATA__", text := MediaWatch.samplePayload }]

/-- A page with three scripts, of which the first two contain the marker `"components"`: a
bootstrap script, the page state `Kohler.samplePayload`, and a script without the marker. -/
def Kohler.twoMarkedDoc : List ScriptElement :=
  [{ id := none, text := "\x7b\"components\":[]\x7d" },
   { id := some "__NEXT_DATA__", text := Kohler.samplePayload },
   { id := none, text := "window.dataLayer = []" }]

/-- A page without any script that contains the marker `"components"`. -/
def Kohler.unmarkedDoc : List ScriptElement :=
  [{ id := none, text := "window.dataLayer = []" },
   { id := some "__NEXT_DATA__", text := "\x7b\"props\":\x7b\x7d\x7d" }]

/-- A page whose only script has the identifier `__NEXT_DATA__` and no text. -/
def MediaWatch.emptyScriptDoc : List ScriptElement :=
  [{ id := some "__NEXT_DATA__", text := "" }]

/-- A page with two scripts of identifier `__NEXT_DATA__`, the second holding
`MediaWatch.samplePayload`. -/
def MediaWatch.twoScriptsDoc : List ScriptElement :=
  [{ id := some "__NEXT_DATA__", text := "\x7b\x7d" },
   { id := none, text := "window.dataLayer = []" },
   { id := some "__NEXT_DATA__", text := MediaWatch.samplePayload }]

/-- A Kohler Report page whose payload is valid JSON with a string in the place of the object
`pageProps`. -/
def Kohler.wrongTypeDoc : List ScriptElement :=
  [{ id := some "__NEXT_DATA__", text := "\x7b\"components\":[],\"props\":\x7b\"pageProps\":\"none\"\x7d\x7d" }]

/-- A Media Watch page whose payload is valid JSON with an array in the place of the object
`props`. -/
def MediaWatch.wrongTypeDoc : List ScriptElement :=
  [{ id := some "__NEXT_DATA__", text := "\x7b\"props\":[]\x7d" }]

/-- A Kohler Report payload whose channel title is a number. -/
def Kohler.numberTitlePayload : String :=
    "\x7b\"props\":\x7b\"pageProps\":\x7b\"channelpage\":\x7b\"headTagsPagePrepared\":\x7b" ++
    "\"title\":5\x7d,\"components\":[]\x7d\x7d\x7d\x7d"

/-- A page holding `Kohler.numberTitlePayload`. -/
def Kohler.numberTitleDoc : List ScriptElement :=
  [{ id := some "__NEXT_DATA__", text := Kohler.numberTitlePayload }]

/-- A Media Watch page whose only entry has a publish date that is a string but no RFC 3339
timestamp. -/
def MediaWatch.badDateDoc : List ScriptElement :=
  [{ id := some "__NEXT_DATA__",
     text :=
    "\x7b\"props\":\x7b\"pageProps\":\x7b\"data\":\x7b\"componentsContent\":[\x7b\"componen" ++
    "t\":\"EpisodeCollection\",\"componentProps\":\x7b\"items\":[\x7b\"articleLink\":\"/med" ++
    "iawatch/episodes/ep01\",\"cardAttributionPrepared\":\x7b\"publishedDate\":\"5 February" ++
    " 2024\"\x7d,\"cardTitle\":\"Episode 1\"\x7d]\x7d\x7d]\x7d\x7d\x7d\x7d" }]

/-- A Media Watch payload without page properties. -/
def MediaWatch.minimalPayload : String := "\x7b\"props\":\x7b\x7d,\"page\":\"/mediawatch/episodes\"\x7d"

/-- A page holding `MediaWatch.minimalPayload`. -/
def MediaWatch.minimalDoc : List ScriptElement :=
  [{ id := some "__NEXT_DATA__", text := MediaWatch.minimalPayload }]

/-- A Media Watch payload with a canonical URL and neither site nor description. -/
def MediaWatch.linkOnlyPayload : String :=
    "\x7b\"props\":\x7b\"pageProps\":\x7b\"headTagsSocialPrepared\":\x7b\"canonicalURL\":\"" ++
    "https://www.abc.net.au/mediawatch/episodes\"\x7d\x7d\x7d\x7d"

/-- A page holding `MediaWatch.linkOnlyPayload`. -/
def MediaWatch.linkOnlyDoc : List ScriptElement :=
  [{ id := some "__NEXT_DATA__", text := MediaWatch.linkOnlyPayload }]

/-- A Media Watch payload of one `EpisodeCollection` component with two entries, neither of
which has a publish date. -/
def MediaWatch.undatedPayload : String :=
    "\x7b\"props\":\x7b\"pageProps\":\x7b\"data\":\x7b\"componentsContent\":[\x7b\"componen" ++
    "t\":\"EpisodeCollection\",\"componentProps\":\x7b\"items\":[\x7b\"articleLink\":\"/med" ++
    "iawatch/episodes/ep01\",\"cardTitle\":\"Episode 1\",\"description\":\"D1\"\x7d,\x7b\"a" ++
    "rticleLink\":\"/mediawatch/episodes/ep02\",\"cardTitle\":\"Episode 2\"\x7d]\x7d\x7d]" ++
    "\x7d,\"headTagsSocialPrepared\":\x7b\"site\":\"Media Watch\"\x7d\x7d\x7d\x7d"

/-- A page holding `MediaWatch.undatedPayload`. -/
def MediaWatch.undatedDoc : List ScriptElement :=
  [{ id := some "__NEXT_DATA__", text := MediaWatch.undatedPayload }]

/-- The payload `MediaWatch.undatedPayload` with a component named `Promo`, holding an item of
its own, before the `EpisodeCollection` component. -/
def MediaWatch.undatedPromoPayload : String :=
    "\x7b\"props\":\x7b\"pageProps\":\x7b\"data\":\x7b\"componentsContent\":[\x7b\"componen" ++
    "t\":\"Promo\",\"componentProps\":\x7b\"items\":[\x7b\"articleLink\":\"/mediawatch/prom" ++
    "o\",\"cardTitle\":\"Ignored\"\x7d]\x7d\x7d,\x7b\"component\":\"EpisodeCollection\",\"c" ++
    "omponentProps\":\x7b\"items\":[\x7b\"articleLink\":\"/mediawatch/episodes/ep01\",\"car" ++
    "dTitle\":\"Episode 1\",\"description\":\"D1\"\x7d,\x7b\"articleLink\":\"/mediawatch/ep" ++
    "isodes/ep02\",\"cardTitle\":\"Episode 2\"\x7d]\x7d\x7d]\x7d,\"headTagsSocialPrepared\"" ++
    ":\x7b\"site\":\"Media Watch\"\x7d\x7d\x7d\x7d"

/-- A page holding `MediaWatch.undatedPromoPayload`. -/
def MediaWatch.undatedPromoDoc : List ScriptElement :=
  [{ id := some "__NEXT_DATA__", text := MediaWatch.undatedPromoPayload }]

/-- A Media Watch payload with the three metadata fields, an `EpisodeCollection` component
whose items array is empty, and a component named `Promo` that holds an item. -/
def MediaWatch.emptyItemsPayload : String :=
    "\x7b\"props\":\x7b\"pageProps\":\x7b\"data\":\x7b\"componentsContent\":[\x7b\"componen" ++
    "t\":\"EpisodeCollection\",\"componentProps\":\x7b\"items\":[]\x7d\x7d,\x7b\"component" ++
    "\":\"Promo\",\"componentProps\":\x7b\"items\":[\x7b\"articleLink\":\"/mediawatch/promo" ++
    "\",\"cardTitle\":\"Ignored\"\x7d]\x7d\x7d]\x7d,\"headTagsSocialPrepared\":\x7b\"canoni" ++
    "calURL\":\"https://www.abc.net.au/mediawatch/episodes\",\"description\":\"Media Watch " ++
    "episodes\",\"site\":\"Media Watch\"\x7d\x7d\x7d\x7d"

/-- A page holding `MediaWatch.emptyItemsPayload`. -/
def MediaWatch.emptyItemsDoc : List ScriptElement :=
  [{ id := some "__NEXT_DATA__", text := MediaWatch.emptyItemsPayload }]

/-- A page holding `Kohler.samplePayload` alone. -/
def Kohler.sampleDoc : List ScriptElement :=
  [{ id := some "__NEXT_DATA__", text := Kohler.samplePayload }]

/-- A Kohler Report payload with the three metadata fields and one `VideoPlayer` component that
has no video and an empty list. -/
def Kohler.emptyListPayload : String :=
    "\x7b\"props\":\x7b\"pageProps\":\x7b\"channelpage\":\x7b\"headTagsPagePrepared\":\x7b" ++
    "\"title\":\"The Kohler Report\",\"canonicalURL\":\"https://www.abc.net.au/news/program" ++
    "s/kohler-report\",\"description\":\"Finance news\"\x7d,\"components\":[\x7b\"component" ++
    "\":\x7b\"name\":\"VideoPlayer\",\"props\":\x7b\"list\":[]\x7d\x7d\x7d]\x7d\x7d\x7d\x7d"

/-- A page holding `Kohler.emptyListPayload`. -/
def Kohler.emptyListDoc : List ScriptElement :=
  [{ id := some "__NEXT_DATA__", text := Kohler.emptyListPayload }]

/-- A Kohler Report payload with the three metadata fields and one component, named `Teaser`,
that holds a video. -/
def Kohler.teaserOnlyPayload : String :=
    "\x7b\"props\":\x7b\"pageProps\":\x7b\"channelpage\":\x7b\"headTagsPagePrepared\":\x7b" ++
    "\"title\":\"The Kohler Report\",\"canonicalURL\":\"https://www.abc.net.au/news/program" ++
    "s/kohler-report\",\"description\":\"Finance news\"\x7d,\"components\":[\x7b\"component" ++
    "\":\x7b\"name\":\"Teaser\",\"props\":\x7b\"video\":\x7b\"title\":\"Ignored\",\"share\"" ++
    ":\x7b\"shareLink\":\"https://abc/9\"\x7d\x7d,\"list\":[]\x7d\x7d\x7d]\x7d\x7d\x7d\x7d"

/-- A page holding `Kohler.teaserOnlyPayload`. -/
def Kohler.teaserOnlyDoc : List ScriptElement :=
  [{ id := some "__NEXT_DATA__", text := Kohler.teaserOnlyPayload }]

/-- The payload `MediaWatch.undatedPayload` with a component named `Promo` before the
`EpisodeCollection` component, the card title of whose item is the number 5. -/
def MediaWatch.numberPromoPayload : String :=
    "\x7b\"props\":\x7b\"pageProps\":\x7b\"data\":\x7b\"componentsContent\":[\x7b\"componen" ++
    "t\":\"Promo\",\"componentProps\":\x7b\"items\":[\x7b\"articleLink\":\"/mediawatch/prom" ++
    "o\",\"cardTitle\":5\x7d]\x7d\x7d,\x7b\"component\":\"EpisodeCollection\",\"componentPr" ++
    "ops\":\x7b\"items\":[\x7b\"articleLink\":\"/mediawatch/episodes/ep01\",\"cardTitle\":" ++
    "\"Episode 1\",\"description\":\"D1\"\x7d,\x7b\"articleLink\":\"/mediawatch/episodes/ep" ++
    "02\",\"cardTitle\":\"Episode 2\"\x7d]\x7d\x7d]\x7d,\"headTagsSocialPrepared\":\x7b\"si" ++
    "te\":\"Media Watch\"\x7d\x7d\x7d\x7d"

/-- A page holding `MediaWatch.numberPromoPayload`. -/
def MediaWatch.numberPromoDoc : List ScriptElement :=
  [{ id := some "__NEXT_DATA__", text := MediaWatch.numberPromoPayload }]

/-! # Properties -/

set_option maxRecDepth 1000000

/-! ## The parser -/

theorem skipSpace_length (cs : List Char) : (skipSpace cs).length ≤ cs.length := by
  induction cs with
  | nil => simp [skipSpace]
  | cons c cs ih =>
    simp only [skipSpace]
    split
    · exact Nat.le_succ_of_le ih
    · exact Nat.le_refl _

theorem spanDigits_length (cs : List Char) : (spanDigits cs).2.length ≤ cs.length := by
  induction cs with
  | nil => simp [spanDigits]
  | cons c cs ih =>
    simp only [spanDigits]
    split
    · exact Nat.le_succ_of_le ih
    · exact Nat.le_refl _

theorem scanString_length : ∀ (cs raw rest : List Char),
    scanString cs = some (raw, rest) → rest.length < cs.length
  | [], raw, rest, h => by simp [scanString] at h
  | c :: cs, raw, rest, h => by
    unfold scanString at h
    split at h
    · simp only [Option.some.injEq, Prod.mk.injEq] at h
      rw [← h.2]
      exact Nat.lt_succ_self _
    · split at h
      · split at h
        · cases h
        · rename_i e cs1
          split at h
          · split at h
            · rename_i h1 h2 h3 h4 cs2
              split at h
              · cases hs : scanString cs2 with
                | none => simp [hs] at h
                | some r =>
                  simp only [hs, Option.map_some', Option.some.injEq, Prod.mk.injEq] at h
                  have := scanString_length cs2 r.1 r.2 hs
                  rw [← h.2]
                  simp only [List.length_cons]
                  omega
              · cases h
            · cases h
          · split at h
            · cases hs : scanString cs1 with
              | none => simp [hs] at h
              | some r =>
                simp only [hs, Option.map_some', Option.some.injEq, Prod.mk.injEq] at h
                have := scanString_length cs1 r.1 r.2 hs
                rw [← h.2]
                simp only [List.length_cons]
                omega
            · cases h
      · split at h
        · cases h
        · cases hs : scanString cs with
          | none => simp [hs] at h
          | some r =>
            simp only [hs, Option.map_some', Option.some.injEq, Prod.mk.injEq] at h
            have := scanString_length cs r.1 r.2 hs
            rw [← h.2]
            simp only [List.length_cons]
            omega

theorem scanFrac_length (cs lit rest : List Char) (h : scanFrac cs = some (lit, rest)) :
    rest.length ≤ cs.length := by
  unfold scanFrac at h
  split at h
  · rename_i cs1
    have := spanDigits_length cs1
    split at h
    · cases h
    · rename_i ds r _ hsp
      simp only [Option.some.injEq, Prod.mk.injEq] at h
      rw [hsp] at this
      rw [← h.2]
      simp only [List.length_cons]
      exact Nat.le_succ_of_le this
  · simp only [Option.some.injEq, Prod.mk.injEq] at h
    rw [← h.2]

theorem scanExp_length (cs lit rest : List Char) (h : scanExp cs = some (lit, rest)) :
    rest.length ≤ cs.length := by
  unfold scanExp at h
  split at h
  · simp only [Option.some.injEq, Prod.mk.injEq] at h
    rw [← h.2]
  · rename_i c cs1
    split at h
    · split at h
      · cases h
      · rename_i s cs2
        split at h
        · have := spanDigits_length cs2
          split at h
          · cases h
          · rename_i ds r _ hsp
            simp only [Option.some.injEq, Prod.mk.injEq] at h
            rw [hsp] at this
            simp only at this
            rw [← h.2]
            simp only [List.length_cons]
            omega
        · have := spanDigits_length (s :: cs2)
          split at h
          · cases h
          · rename_i ds r _ hsp
            simp only [Option.some.injEq, Prod.mk.injEq] at h
            rw [hsp] at this
            simp only at this
            rw [← h.2]
            simp only [List.length_cons] at this ⊢
            omega
    · simp only [Option.some.injEq, Prod.mk.injEq] at h
      rw [← h.2]

theorem scanInt_length (cs lit rest : List Char) (h : scanInt cs = some (lit, rest)) :
    rest.length < cs.length := by
  unfold scanInt at h
  split at h
  · cases h
  · rename_i c cs1
    split at h
    · simp only [Option.some.injEq, Prod.mk.injEq] at h
      rw [← h.2]
      exact Nat.lt_succ_self _
    · split at h
      · simp only [Option.some.injEq, Prod.mk.injEq] at h
        have := spanDigits_length cs1
        rw [← h.2]
        simp only [List.length_cons]
        omega
      · cases h

theorem scanNumber_length (cs lit rest : List Char) (h : scanNumber cs = some (lit, rest)) :
    rest.length < cs.length := by
  unfold scanNumber at h
  simp only at h
  have hsigned : (match cs with
      | '-' :: r => (['-'], r)
      | _ => (([] : List Char), cs)).2.length ≤ cs.length := by
    split
    · simp
    · simp
  split at h
  · cases h
  · rename_i i r1 hi
    have h1 := scanInt_length _ i r1 hi
    split at h
    · cases h
    · rename_i f r2 hf
      have h2 := scanFrac_length r1 f r2 hf
      split at h
      · cases h
      · rename_i e r3 he
        have h3 := scanExp_length r2 e r3 he
        simp only [Option.some.injEq, Prod.mk.injEq] at h
        rw [← h.2]
        omega

theorem parseElems_fuelFree (f : Nat) (hv : FuelFree parseValue f) (he : FuelFree parseElems f) :
    FuelFree parseElems (f + 1) := by
  intro d cs vs rest h
  unfold parseElems at h
  split at h
  · cases h
  · rename_i v r1 hpv
    obtain ⟨hlen1, hfuel1⟩ := hv d cs v r1 hpv
    have hsk := skipSpace_length r1
    split at h
    · rename_i r2 hsp
      rw [hsp] at hsk
      simp only [List.length_cons] at hsk
      have hsk2 := skipSpace_length r2
      cases hpe : parseElems f d (skipSpace r2) with
      | none => simp [hpe] at h
      | some p =>
        simp only [hpe, Option.map_some', Option.some.injEq, Prod.mk.injEq] at h
        obtain ⟨hlen2, hfuel2⟩ := he d (skipSpace r2) p.1 p.2 hpe
        rw [← h.1, ← h.2]
        refine ⟨by omega, ?_⟩
        intro f' hf'
        cases f' with
        | zero => omega
        | succ f'' =>
          unfold parseElems
          rw [hfuel1 f'' (by omega)]
          simp only [hsp]
          rw [hfuel2 f'' (by omega)]
          rfl
    · rename_i r2 hsp
      rw [hsp] at hsk
      simp only [List.length_cons] at hsk
      simp only [Option.some.injEq, Prod.mk.injEq] at h
      rw [← h.1, ← h.2]
      refine ⟨by omega, ?_⟩
      intro f' hf'
      cases f' with
      | zero => omega
      | succ f'' =>
        unfold parseElems
        rw [hfuel1 f'' (by omega)]
        simp only [hsp]
    · cases h

theorem parseMembers_fuelFree (f : Nat) (hv : FuelFree parseValue f)
    (hm : FuelFree parseMembers f) : FuelFree parseMembers (f + 1) := by
  intro d cs ms rest h
  unfold parseMembers at h
  split at h
  · rename_i r
    split at h
    · cases h
    · rename_i k r1 hss
      have hk := scanString_length r k r1 hss
      have hsk1 := skipSpace_length r1
      split at h
      · rename_i r2 hsp1
        rw [hsp1] at hsk1
        simp only [List.length_cons] at hsk1
        have hsk2 := skipSpace_length r2
        split at h
        · cases h
        · rename_i v r3 hpv
          obtain ⟨hlen1, hfuel1⟩ := hv d (skipSpace r2) v r3 hpv
          have hsk3 := skipSpace_length r3
          split at h
          · rename_i r4 hsp3
            rw [hsp3] at hsk3
            simp only [List.length_cons] at hsk3
            have hsk4 := skipSpace_length r4
            cases hpm : parseMembers f d (skipSpace r4) with
            | none => simp [hpm] at h
            | some p =>
              simp only [hpm, Option.map_some', Option.some.injEq, Prod.mk.injEq] at h
              obtain ⟨hlen2, hfuel2⟩ := hm d (skipSpace r4) p.1 p.2 hpm
              rw [← h.1, ← h.2]
              simp only [List.length_cons]
              refine ⟨by omega, ?_⟩
              intro f' hf'
              cases f' with
              | zero => omega
              | succ f'' =>
                unfold parseMembers
                simp only [hss, hsp1]
                rw [hfuel1 f'' (by omega)]
                simp only [hsp3]
                rw [hfuel2 f'' (by omega)]
                rfl
          · rename_i r4 hsp3
            rw [hsp3] at hsk3
            simp only [List.length_cons] at hsk3
            simp only [Option.some.injEq, Prod.mk.injEq] at h
            rw [← h.1, ← h.2]
            simp only [List.length_cons]
            refine ⟨by omega, ?_⟩
            intro f' hf'
            cases f' with
            | zero => omega
            | succ f'' =>
              unfold parseMembers
              simp only [hss, hsp1]
              rw [hfuel1 f'' (by omega)]
              simp only [hsp3]
          · cases h
      · cases h
  · cases h

theorem expect_length : ∀ (ps cs rest : List Char), expect ps cs = some rest →
    rest.length ≤ cs.length
  | [], cs, rest, h => by
    simp only [expect, Option.some.injEq] at h
    rw [h]
  | _ :: _, [], rest, h => by simp [expect] at h
  | p :: ps, c :: cs, rest, h => by
    simp only [expect] at h
    split at h
    · exact Nat.le_succ_of_le (expect_length ps cs rest h)
    · cases h

theorem parseValue_fuelFree (f : Nat) (hm : FuelFree parseMembers f)
    (he : FuelFree parseElems f) : FuelFree parseValue (f + 1) := by
  intro d cs v rest h
  unfold parseValue at h
  split at h
  · cases h
  · rename_i c r
    split at h
    · rename_i hc
      split at h
      · cases h
      · rename_i hdepth
        have hsk := skipSpace_length r
        split at h
        · rename_i r1 hsp
          rw [hsp] at hsk
          simp only [List.length_cons] at hsk
          simp only [Option.some.injEq, Prod.mk.injEq] at h
          rw [← h.1, ← h.2]
          simp only [List.length_cons]
          refine ⟨by omega, ?_⟩
          intro f' hf'
          cases f' with
          | zero => omega
          | succ f'' =>
            unfold parseValue
            dsimp only
            rw [if_pos hc, if_neg hdepth, hsp]
            rfl
        · rename_i r1 hne
          cases hpm : parseMembers f (d + 1) (skipSpace r) with
          | none => simp [hpm] at h
          | some p =>
            simp only [hpm, Option.map_some', Option.some.injEq, Prod.mk.injEq] at h
            obtain ⟨hlen, hfuel⟩ := hm (d + 1) (skipSpace r) p.1 p.2 hpm
            rw [← h.1, ← h.2]
            simp only [List.length_cons]
            refine ⟨by omega, ?_⟩
            intro f' hf'
            cases f' with
            | zero => omega
            | succ f'' =>
              unfold parseValue
              dsimp only
              rw [if_pos hc, if_neg hdepth]
              split
              · rename_i r2 hsp
                exact absurd hsp (hne r2)
              · rw [hfuel f'' (by omega)]
                rfl
    · rename_i hc
      split at h
      · rename_i hc2
        split at h
        · cases h
        · rename_i hdepth
          have hsk := skipSpace_length r
          split at h
          · rename_i r1 hsp
            rw [hsp] at hsk
            simp only [List.length_cons] at hsk
            simp only [Option.some.injEq, Prod.mk.injEq] at h
            rw [← h.1, ← h.2]
            simp only [List.length_cons]
            refine ⟨by omega, ?_⟩
            intro f' hf'
            cases f' with
            | zero => omega
            | succ f'' =>
              unfold parseValue
              dsimp only
              rw [if_neg hc, if_pos hc2, if_neg hdepth, hsp]
              rfl
          · rename_i r1 hne
            cases hpe : parseElems f (d + 1) (skipSpace r) with
            | none => simp [hpe] at h
            | some p =>
              simp only [hpe, Option.map_some', Option.some.injEq, Prod.mk.injEq] at h
              obtain ⟨hlen, hfuel⟩ := he (d + 1) (skipSpace r) p.1 p.2 hpe
              rw [← h.1, ← h.2]
              simp only [List.length_cons]
              refine ⟨by omega, ?_⟩
              intro f' hf'
              cases f' with
              | zero => omega
              | succ f'' =>
                unfold parseValue
                dsimp only
                rw [if_neg hc, if_pos hc2, if_neg hdepth]
                split
                · rename_i r2 hsp
                  exact absurd hsp (hne r2)
                · rw [hfuel f'' (by omega)]
                  rfl
      · rename_i hc2
        have hlen : rest.length < (c :: r).length := by
          split at h
          · cases hs : scanString r with
            | none => simp [hs] at h
            | some p =>
              simp only [hs, Option.map_some', Option.some.injEq, Prod.mk.injEq] at h
              have := scanString_length r p.1 p.2 hs
              rw [← h.2]
              simp only [List.length_cons]
              omega
          · split at h
            · cases hs : expect ['r', 'u', 'e'] r with
              | none => simp [hs] at h
              | some p =>
                simp only [hs, Option.map_some', Option.some.injEq, Prod.mk.injEq] at h
                have := expect_length _ r p hs
                rw [← h.2]
                simp only [List.length_cons]
                omega
            · split at h
              · cases hs : expect ['a', 'l', 's', 'e'] r with
                | none => simp [hs] at h
                | some p =>
                  simp only [hs, Option.map_some', Option.some.injEq, Prod.mk.injEq] at h
                  have := expect_length _ r p hs
                  rw [← h.2]
                  simp only [List.length_cons]
                  omega
              · split at h
                · cases hs : expect ['u', 'l', 'l'] r with
                  | none => simp [hs] at h
                  | some p =>
                    simp only [hs, Option.map_some', Option.some.injEq, Prod.mk.injEq] at h
                    have := expect_length _ r p hs
                    rw [← h.2]
                    simp only [List.length_cons]
                    omega
                · cases hs : scanNumber (c :: r) with
                  | none => simp [hs] at h
                  | some p =>
                    simp only [hs, Option.map_some', Option.some.injEq, Prod.mk.injEq] at h
                    have := scanNumber_length (c :: r) p.1 p.2 hs
                    rw [← h.2]
                    exact this
        refine ⟨hlen, ?_⟩
        intro f' hf'
        cases f' with
        | zero => omega
        | succ f'' =>
          unfold parseValue
          dsimp only
          rw [if_neg hc, if_neg hc2]
          exact h

theorem parse_fuelFree (f : Nat) :
    FuelFree parseValue f ∧ FuelFree parseMembers f ∧ FuelFree parseElems f := by
  induction f with
  | zero =>
    refine ⟨?_, ?_, ?_⟩ <;> intro d cs v rest h
    · have h0 : parseValue 0 d cs = none := rfl
      rw [h0] at h
      cases h
    · have h0 : parseMembers 0 d cs = none := rfl
      rw [h0] at h
      cases h
    · have h0 : parseElems 0 d cs = none := rfl
      rw [h0] at h
      cases h
  | succ f ih =>
    exact ⟨parseValue_fuelFree f ih.2.1 ih.2.2, parseMembers_fuelFree f ih.1 ih.2.1,
      parseElems_fuelFree f ih.1 ih.2.2⟩

/-- The fuel of `parseJSON` is enough: no amount of fuel makes a text parse that `parseJSON`
rejects, or parse into another tree. -/
theorem parseJSON_fuel (text : String) (f : Nat) (v : JSON) (rest : List Char)
    (h : parseValue f 0 (skipSpace text.data) = some (v, rest)) :
    parseValue (text.length + 1) 0 (skipSpace text.data) = some (v, rest) := by
  have hlen := skipSpace_length text.data
  apply ((parse_fuelFree f).1 0 _ v rest h).2
  have : text.length = text.data.length := rfl
  omega

theorem parseValue_fuel_eq (text : String) (f : Nat) (hf : text.length + 1 ≤ f) :
    parseValue f 0 (skipSpace text.data)
      = parseValue (text.length + 1) 0 (skipSpace text.data) := by
  cases h : parseValue f 0 (skipSpace text.data) with
  | some r => exact (parseJSON_fuel text f r.1 r.2 h).symm
  | none =>
    cases h' : parseValue (text.length + 1) 0 (skipSpace text.data) with
    | none => rfl
    | some r =>
      have hlen := skipSpace_length text.data
      have hdata : text.length = text.data.length := rfl
      have := ((parse_fuelFree (text.length + 1)).1 0 _ r.1 r.2 h').2 f (by omega)
      rw [this] at h
      cases h

/-! ## The deduplication loop -/

theorem firstOccurrences_sublist (cs : List Item) : (firstOccurrences cs).Sublist cs := by
  induction cs with
  | nil => exact List.Sublist.slnil
  | cons c cs ih =>
    exact List.Sublist.cons₂ c ((List.filter_sublist _).trans ih)

theorem firstOccurrences_nodup (cs : List Item) :
    ((firstOccurrences cs).map Item.GUID).Nodup := by
  induction cs with
  | nil => simp [firstOccurrences]
  | cons c cs ih =>
    simp only [firstOccurrences, List.map_cons, List.nodup_cons]
    constructor
    · intro hmem
      rcases List.mem_map.mp hmem with ⟨d, hd, hg⟩
      have := (List.mem_filter.mp hd).2
      simp [hg] at this
    · exact ih.sublist ((List.filter_sublist _).map Item.GUID)

theorem loopState_consistent_empty : LoopState.Consistent {} := by
  intro g
  simp [GoMap.get]

theorem goMap_get_set (m : GoMap) (k g : String) :
    (m.set k true).get g = true ↔ g = k ∨ m.get g = true := by
  unfold GoMap.set GoMap.get
  by_cases h : g = k
  · subst h
    simp [List.lookup]
  · have : (g == k) = false := by simpa using h
    simp [List.lookup, this, h]

theorem accept_consistent (st : LoopState) (it : Item) (h : st.Consistent) :
    (accept st it).Consistent := by
  unfold accept
  split
  · exact h
  · intro g
    rw [goMap_get_set, h g]
    simp only [List.map_append, List.map_cons, List.map_nil, List.mem_append, List.mem_singleton]
    exact or_comm

theorem foldl_accept_items (cs : List Item) (st : LoopState) (h : st.Consistent) :
    (cs.foldl accept st).Items
      = st.Items ++ (firstOccurrences cs).filter
          (fun d => !decide (d.GUID ∈ st.Items.map Item.GUID)) := by
  induction cs generalizing st with
  | nil => simp [firstOccurrences]
  | cons c cs ih =>
    rw [List.foldl_cons, ih _ (accept_consistent st c h)]
    unfold accept
    by_cases hs : st.seenGUIDs.get c.GUID = true
    · have hmem : c.GUID ∈ st.Items.map Item.GUID := (h _).mp hs
      simp only [hs, if_true, firstOccurrences, List.filter_cons, hmem, decide_True,
        Bool.not_true, Bool.false_eq_true, if_false, List.filter_filter]
      congr 1
      apply List.filter_congr
      intro d _
      by_cases hd : d.GUID = c.GUID
      · simp [hd, hmem]
      · simp [hd]
    · have hmem : c.GUID ∉ st.Items.map Item.GUID := fun hm => hs ((h _).mpr hm)
      simp only [hs, if_false, firstOccurrences, List.filter_cons, hmem, decide_False,
        Bool.not_false, if_true, List.filter_filter, List.append_assoc, List.singleton_append,
        Bool.false_eq_true]
      congr 2
      apply List.filter_congr
      intro d _
      by_cases hd : d.GUID = c.GUID
      · simp [hd]
      · simp [hd, hmem]

theorem foldl_accept_empty (cs : List Item) :
    (cs.foldl accept {}).Items = firstOccurrences cs := by
  rw [foldl_accept_items cs {} loopState_consistent_empty]
  simp

theorem foldl_steps (f : LoopState → GoVal → LoopState) (g : GoVal → List Item)
    (hf : ∀ st c, f st c = (g c).foldl accept st) (cs : List GoVal) (st : LoopState) :
    cs.foldl f st = ((cs.map g).flatten).foldl accept st := by
  induction cs generalizing st with
  | nil => rfl
  | cons c cs ih =>
    simp only [List.foldl_cons, List.map_cons, List.flatten_cons, List.foldl_append, hf, ih]

theorem kohler_videoStep_eq (st : LoopState) (video : GoVal) :
    Kohler.videoStep st video = accept st (Kohler.videoItem video) := by
  unfold Kohler.videoStep accept
  cases h : st.seenGUIDs.get (video.sel ["Share", "ShareLink"]).getString <;>
    simp [Kohler.videoItem, h]

theorem kohler_listStep_eq (video : GoVal) (st : LoopState) (listItem : GoVal) :
    Kohler.listStep video st listItem = accept st (Kohler.listItemItem video listItem) := by
  unfold Kohler.listStep accept
  cases h : st.seenGUIDs.get (listItem.sel ["Player", "Share", "ShareLink"]).getString <;>
    simp [Kohler.listItemItem, h]

theorem mediaWatch_listStep_eq (st : LoopState) (listItem : GoVal) :
    MediaWatch.listStep st listItem = accept st (MediaWatch.listItemItem listItem) := by
  unfold MediaWatch.listStep accept
  cases h : st.seenGUIDs.get (BaseURL ++ (listItem.sel ["ArticleLink"]).getString) <;>
    simp [MediaWatch.listItemItem, h]

theorem foldl_congr_step {α : Type} (f g : LoopState → α → LoopState) (h : ∀ st x, f st x = g st x)
    (xs : List α) (st : LoopState) : xs.foldl f st = xs.foldl g st := by
  induction xs generalizing st with
  | nil => rfl
  | cons x xs ih => simp only [List.foldl_cons, h, ih]

theorem kohler_buildRSS_items (abcData : GoVal) :
    (Kohler.buildRSS abcData).Channel.Items = firstOccurrences (Kohler.candidates abcData) := by
  unfold Kohler.buildRSS Kohler.candidates
  simp only
  rw [← foldl_accept_empty]
  congr 1
  apply foldl_steps
  intro st c
  unfold Kohler.componentStep
  split
  · simp only [List.foldl_cons, kohler_videoStep_eq, List.foldl_map]
    exact foldl_congr_step _ _ (kohler_listStep_eq _) _ _
  · rfl

theorem mediaWatch_buildRSS_items (abcData : GoVal) :
    (MediaWatch.buildRSS abcData).Channel.Items
      = firstOccurrences (MediaWatch.candidates abcData) := by
  unfold MediaWatch.buildRSS MediaWatch.candidates
  simp only
  rw [← foldl_accept_empty]
  congr 1
  apply foldl_steps
  intro st c
  unfold MediaWatch.componentStep
  split
  · simp only [List.foldl_map]
    exact foldl_congr_step _ _ mediaWatch_listStep_eq _ _
  · rfl

theorem adapter_buildRSS_items (a : Adapter) (abcData : GoVal) :
    (a.buildRSS abcData).Channel.Items = firstOccurrences (a.candidates abcData) := by
  cases a
  · exact kohler_buildRSS_items abcData
  · exact mediaWatch_buildRSS_items abcData

/-- What `FetchAndParseToRSS` computes, the same in both adapters: the five fatal conditions in
the order of the code, then the feed built from the decoded payload. -/
theorem adapter_FetchAndParseToRSS_eq (a : Adapter) (get : Except String Response) :
    a.FetchAndParseToRSS get =
      match get with
      | Except.error err => (some (Error.fetching err), {})
      | Except.ok resp =>
        if resp.StatusCode ≠ StatusOK then (some (Error.statusCode resp.Status), {})
        else
          match resp.Doc with
          | Except.error err => (some (Error.parsingNews err), {})
          | Except.ok doc =>
            if a.locate doc = "" then (some Error.noJSONData, {})
            else
              match Unmarshal (a.locate doc) a.ABCJSON with
              | Except.error err => (some (Error.parsingJSON err), {})
              | Except.ok abcData => (none, a.buildRSS abcData) := by
  cases a <;> rfl

/-- A run that returns no error went through every stage: the page was fetched with status 200,
its markup parsed, a payload located and decoded, and the feed built from it. -/
theorem adapter_run_ok (a : Adapter) (get : Except String Response)
    (h : (a.FetchAndParseToRSS get).1 = none) :
    ∃ resp doc abcData, get = Except.ok resp ∧ resp.StatusCode = StatusOK
      ∧ resp.Doc = Except.ok doc ∧ a.locate doc ≠ ""
      ∧ Unmarshal (a.locate doc) a.ABCJSON = Except.ok abcData
      ∧ (a.FetchAndParseToRSS get).2 = a.buildRSS abcData := by
  rw [adapter_FetchAndParseToRSS_eq] at h ⊢
  split at h
  · simp at h
  · rename_i resp
    split at h
    · simp at h
    · rename_i hstatus
      split at h
      · simp at h
      · rename_i doc hdoc
        split at h
        · simp at h
        · rename_i hloc
          split at h
          · simp at h
          · rename_i abcData hdec
            refine ⟨resp, doc, abcData, rfl, not_not.mp hstatus, hdoc, hloc, hdec, ?_⟩
            simp only [hstatus, hdoc, hloc, hdec, if_false]

theorem adapter_items_eq (a : Adapter) (get : Except String Response)
    (h : (a.FetchAndParseToRSS get).1 = none) :
    (a.FetchAndParseToRSS get).2.Channel.Items = firstOccurrences (a.entries get) := by
  obtain ⟨resp, doc, abcData, hget, _, hdoc, _, hdec, hrss⟩ := adapter_run_ok a get h
  rw [hrss, adapter_buildRSS_items]
  subst hget
  simp only [Adapter.entries, hdoc, hdec]

/-! ## The payload locators -/

theorem lastText_of_none (p : ScriptElement → Bool) (doc : List ScriptElement) (init : String)
    (h : ∀ s ∈ doc, p s = false) : lastText p doc init = init := by
  unfold lastText
  induction doc generalizing init with
  | nil => rfl
  | cons x xs ih =>
    have hx : p x = false := h x (List.mem_cons_self _ _)
    simp only [List.foldl_cons, hx, Bool.false_eq_true, if_false]
    exact ih init (fun s hs => h s (List.mem_cons_of_mem _ hs))

theorem lastText_of_last (p : ScriptElement → Bool) (pre post : List ScriptElement)
    (s : ScriptElement) (init : String) (hs : p s = true) (hpost : ∀ t ∈ post, p t = false) :
    lastText p (pre ++ s :: post) init = s.text := by
  have h := lastText_of_none p post s.text hpost
  unfold lastText at h ⊢
  simp only [List.foldl_append, List.foldl_cons, hs, if_true]
  exact h

theorem exists_last (p : ScriptElement → Bool) (doc : List ScriptElement)
    (h : ∃ s ∈ doc, p s = true) :
    ∃ pre s post, doc = pre ++ s :: post ∧ p s = true ∧ ∀ t ∈ post, p t = false := by
  induction doc with
  | nil => simp at h
  | cons x xs ih =>
    by_cases hx : ∃ s ∈ xs, p s = true
    · obtain ⟨pre, s, post, hdoc, hs, hpost⟩ := ih hx
      exact ⟨x :: pre, s, post, by rw [hdoc]; rfl, hs, hpost⟩
    · obtain ⟨s, hmem, hs⟩ := h
      have hnone : ∀ t ∈ xs, p t = false := by
        intro t ht
        cases hpt : p t
        · rfl
        · exact absurd ⟨t, ht, hpt⟩ hx
      rcases List.mem_cons.mp hmem with rfl | hmem
      · exact ⟨[], s, xs, rfl, hs, hnone⟩
      · rw [hnone s hmem] at hs
        cases hs

theorem kohler_locate_eq (doc : List ScriptElement) :
    Kohler.locate doc
      = lastText (fun s => strings.Contains s.text "\"components\"") doc "" := rfl

theorem mediaWatch_locate_eq (doc : List ScriptElement) :
    MediaWatch.locate doc
      = lastText (fun s => decide (s.id = some "__NEXT_DATA__")) doc "" := by
  unfold MediaWatch.locate lastText
  congr 1
  funext jsonData s
  by_cases h : s.id = some "__NEXT_DATA__" <;> simp [h]

theorem contains_ne_empty (s : ScriptElement)
    (h : strings.Contains s.text "\"components\"" = true) : s.text ≠ "" := by
  intro he
  rw [he] at h
  revert h
  decide

theorem adapter_fetched_eq (a : Adapter) (status : String) (doc : List ScriptElement) :
    a.FetchAndParseToRSS (fetched status doc) =
      if a.locate doc = "" then (some Error.noJSONData, {})
      else
        match Unmarshal (a.locate doc) a.ABCJSON with
        | Except.error err => (some (Error.parsingJSON err), {})
        | Except.ok abcData => (none, a.buildRSS abcData) := by
  rw [adapter_FetchAndParseToRSS_eq]
  simp [fetched]

theorem adapter_not_found_iff (a : Adapter) (status : String) (doc : List ScriptElement) :
    a.FetchAndParseToRSS (fetched status doc) = (some Error.noJSONData, {})
      ↔ a.locate doc = "" := by
  rw [adapter_fetched_eq]
  constructor
  · intro h
    by_contra hne
    rw [if_neg hne] at h
    split at h <;> simp at h
  · intro h
    rw [if_pos h]

/-! ## The decoder -/

theorem find_name_sameShape (q : String → String → Bool) :
    ∀ (sfs fs : List (String × String × GoVal)), sameShapeFields sfs fs = true →
      (fs.find? (fun f => q f.1 f.2.1)).map (fun f => f.1)
        = (sfs.find? (fun f => q f.1 f.2.1)).map (fun f => f.1)
  | [], fs, h => by
    cases fs with
    | nil => rfl
    | cons f fs => simp [sameShapeFields] at h
  | sf :: sfs, fs, h => by
    cases fs with
    | nil => simp [sameShapeFields] at h
    | cons f fs =>
      simp only [sameShapeFields, Bool.and_eq_true, beq_iff_eq] at h
      obtain ⟨⟨⟨h1, h2⟩, _⟩, h4⟩ := h
      simp only [List.find?_cons, ← h1, ← h2]
      cases q sf.1 sf.2.1 with
      | true => simp [h1]
      | false => exact find_name_sameShape q sfs fs h4

theorem findField_sameShape (sfs fs : List (String × String × GoVal)) (key : String)
    (h : sameShapeFields sfs fs = true) : findField fs key = findField sfs key := by
  have h1 := find_name_sameShape (fun _ tag => tag == key) sfs fs h
  have h2 := find_name_sameShape (fun _ tag => foldName tag == foldName key) sfs fs h
  unfold findField
  simp only at h1 h2
  cases hf : fs.find? (fun f => f.2.1 == key) <;> cases hs : sfs.find? (fun f => f.2.1 == key)
    <;> simp only [hf, hs, Option.map] at h1 ⊢
  · exact h2
  · cases h1
  · cases h1
  · simpa using h1

theorem field_sameShape (name : String) :
    ∀ (sfs fs : List (String × String × GoVal)), sameShapeFields sfs fs = true →
      sameShape ((GoVal.struct sfs).field name) ((GoVal.struct fs).field name) = true
  | [], fs, h => by
    cases fs with
    | nil => simp [GoVal.field, GoVal.fields, sameShape]
    | cons f fs => simp [sameShapeFields] at h
  | sf :: sfs, fs, h => by
    cases fs with
    | nil => simp [sameShapeFields] at h
    | cons f fs =>
      simp only [sameShapeFields, Bool.and_eq_true, beq_iff_eq] at h
      obtain ⟨⟨⟨h1, _⟩, h3⟩, h4⟩ := h
      have ih := field_sameShape name sfs fs h4
      simp only [GoVal.field, GoVal.fields, List.find?_cons, ← h1] at ih ⊢
      cases sf.1 == name with
      | true => exact h3
      | false => exact ih

theorem setField_sameShape (name : String) (v : GoVal) :
    ∀ (sfs fs : List (String × String × GoVal)), sameShapeFields sfs fs = true →
      sameShape ((GoVal.struct sfs).field name) v = true →
      sameShapeFields sfs (setField fs name v) = true
  | [], fs, h, _ => by
    cases fs with
    | nil => simp [setField, sameShapeFields]
    | cons f fs => simp [sameShapeFields] at h
  | sf :: sfs, fs, h, hv => by
    cases fs with
    | nil => simp [sameShapeFields] at h
    | cons f fs =>
      simp only [sameShapeFields, Bool.and_eq_true, beq_iff_eq] at h
      obtain ⟨⟨⟨h1, h2⟩, h3⟩, h4⟩ := h
      simp only [GoVal.field, GoVal.fields, List.find?_cons] at hv
      simp only [setField, ← h1]
      cases hn : sf.1 == name with
      | true =>
        rw [hn] at hv
        simp only [if_true, sameShapeFields, Bool.and_eq_true, beq_iff_eq]
        exact ⟨⟨⟨trivial, h2⟩, hv⟩, h4⟩
      | false =>
        rw [hn] at hv
        simp only [Bool.false_eq_true, if_false, sameShapeFields, Bool.and_eq_true, beq_iff_eq]
        exact ⟨⟨⟨h1, h2⟩, h3⟩, setField_sameShape name v sfs fs h4 hv⟩

theorem bool_eq_not_of_iff (a b : Bool) (h : a = false ↔ b = true) : a = !b := by
  cases a <;> cases b <;> simp_all

mutual
theorem decode_spec : ∀ (j : JSON) (s v : GoVal), sameShape s v = true →
    DecodeSpec s j (decode v j)
  | JSON.null, s, v, h => by
    cases s <;> cases v <;> simp [sameShape] at h <;>
      simp [decode, DecodeSpec, fits, sameShape, *]
  | JSON.bool b, s, v, h => by
    cases s <;> cases v <;> simp [sameShape] at h <;>
      simp [decode, DecodeSpec, fits, sameShape, *]
    · exact ⟨h.1.2, h.2⟩
  | JSON.num lit, s, v, h => by
    cases s <;> cases v <;> simp [sameShape] at h <;>
      simp [decode, DecodeSpec, fits, sameShape, *]
    · cases parseInt64 lit <;> simp [sameShape]
    · exact ⟨h.1.2, h.2⟩
  | JSON.str raw, s, v, h => by
    cases s <;> cases v <;> simp [sameShape] at h <;>
      simp [decode, DecodeSpec, fits, sameShape, *]
    · cases parseRFC3339 raw <;> simp [sameShape]
    · exact ⟨h.1.2, h.2⟩
  | JSON.arr xs, s, v, h => by
    cases s <;> cases v <;> simp [sameShape] at h <;>
      simp [decode, DecodeSpec, fits, sameShape, *]
    · rename_i sz ses ssp z es sp
      cases xs with
      | nil => simp [fitsElems, h.1.1]
      | cons x xs =>
        have hpool : (es ++ sp).all (fun e => sameShape sz e) = true := by
          simp only [List.all_append, Bool.and_eq_true, List.all_eq_true]
          exact ⟨h.1.2, h.2⟩
        have ih := decodeElems_spec (x :: xs) sz z (es ++ sp) h.1.1 hpool
        simp only
        cases hd : decodeElems z (es ++ sp) (x :: xs) with
        | none =>
          rw [hd] at ih
          simpa [ElemsSpec] using ih
        | some r =>
          rw [hd] at ih
          simp only [ElemsSpec] at ih
          simp only [List.all_eq_true] at ih
          simp [h.1.1, bool_eq_not_of_iff _ _ ih.2.2]
          exact ⟨ih.1, ih.2.1⟩
  | JSON.obj ms, s, v, h => by
    cases s <;> cases v <;> simp [sameShape] at h <;>
      simp [decode, DecodeSpec, fits, sameShape, *]
    · rename_i sfs fs
      have ih := decodeMembers_spec ms sfs fs h
      cases hd : decodeMembers fs ms with
      | none =>
        rw [hd] at ih
        simpa [MembersSpec] using ih
      | some r =>
        rw [hd] at ih
        simp only [MembersSpec] at ih
        simp [ih.1, bool_eq_not_of_iff _ _ ih.2]
    · exact ⟨h.1.2, h.2⟩
theorem decodeMembers_spec : ∀ (ms : List (String × JSON))
    (sfs fs : List (String × String × GoVal)), sameShapeFields sfs fs = true →
    MembersSpec sfs ms (decodeMembers fs ms)
  | [], sfs, fs, h => by simp [decodeMembers, MembersSpec, fitsMembers, h]
  | m :: ms, sfs, fs, h => by
    simp only [decodeMembers, fitsMembers, findField_sameShape sfs fs _ h]
    cases hf : findField sfs (unquote m.1) with
    | none =>
      simpa [MembersSpec, fitsMembers, hf] using decodeMembers_spec ms sfs fs h
    | some name =>
      have ih1 := decode_spec m.2 ((GoVal.struct sfs).field name) ((GoVal.struct fs).field name)
        (field_sameShape name sfs fs h)
      simp only
      cases hd : decode ((GoVal.struct fs).field name) m.2 with
      | none =>
        rw [hd] at ih1
        simp only [DecodeSpec] at ih1
        simp [MembersSpec, fitsMembers, hf, ih1]
      | some r =>
        rw [hd] at ih1
        simp only [DecodeSpec] at ih1
        have ih2 := decodeMembers_spec ms sfs (setField fs name r.1)
          (setField_sameShape name r.1 sfs fs h ih1.1)
        simp only
        cases hd2 : decodeMembers (setField fs name r.1) ms with
        | none =>
          rw [hd2] at ih2
          simp only [MembersSpec] at ih2
          simp [MembersSpec, fitsMembers, hf, ih2]
        | some rs =>
          rw [hd2] at ih2
          simp only [MembersSpec] at ih2
          simp only [MembersSpec, fitsMembers, hf, Bool.or_eq_false_iff, Bool.and_eq_true]
          exact ⟨ih2.1, by rw [ih1.2, ih2.2]⟩
theorem decodeElems_spec : ∀ (xs : List JSON) (sz z : GoVal) (pool : List GoVal),
    sameShape sz z = true → pool.all (fun e => sameShape sz e) = true →
    ElemsSpec sz xs (decodeElems z pool xs)
  | [], sz, z, pool, hz, hpool => by simp [decodeElems, ElemsSpec, fitsElems, hpool]
  | x :: xs, sz, z, pool, hz, hpool => by
    have hhead : sameShape sz (pool.headD z) = true := by
      cases pool with
      | nil => simpa using hz
      | cons p ps =>
        simp only [List.all_cons, Bool.and_eq_true] at hpool
        simpa using hpool.1
    have htail : pool.tail.all (fun e => sameShape sz e) = true := by
      cases pool with
      | nil => simp
      | cons p ps =>
        simp only [List.all_cons, Bool.and_eq_true] at hpool
        simpa using hpool.2
    have ih1 := decode_spec x sz (pool.headD z) hhead
    have ih2 := decodeElems_spec xs sz z pool.tail hz htail
    simp only [decodeElems]
    cases hd : decode (pool.headD z) x with
    | none =>
      rw [hd] at ih1
      simp only [DecodeSpec] at ih1
      simp [ElemsSpec, fitsElems, ih1]
    | some r =>
      rw [hd] at ih1
      simp only [DecodeSpec] at ih1
      simp only
      cases hd2 : decodeElems z pool.tail xs with
      | none =>
        rw [hd2] at ih2
        simp only [ElemsSpec] at ih2
        simp [ElemsSpec, fitsElems, ih2]
      | some rs =>
        rw [hd2] at ih2
        simp only [ElemsSpec] at ih2
        simp only [ElemsSpec, fitsElems, List.all_cons, Bool.and_eq_true,
          Bool.or_eq_false_iff]
        exact ⟨⟨ih1.1, ih2.1⟩, ih2.2.1, by rw [ih1.2, ih2.2.2]⟩
end

theorem fits_of_wrongKind (t : GoVal) (y : JSON) (h : wrongKind t y = true) :
    fits t y = false := by
  cases t <;> cases y <;> simp [wrongKind] at h <;> simp [fits]

mutual
theorem fits_nodesAt : ∀ (j : JSON) (s : GoVal) (path : List Step) (p : GoVal × JSON),
    fits s j = true → p ∈ nodesAt s path j → fits p.1 p.2 = true
  | JSON.null, s, path, p, hf, hp => by
    cases path <;> simp [nodesAt] at hp
    subst hp
    exact hf
  | JSON.bool b, s, path, p, hf, hp => by
    cases path <;> simp [nodesAt] at hp
    subst hp
    exact hf
  | JSON.num lit, s, path, p, hf, hp => by
    cases path <;> simp [nodesAt] at hp
    subst hp
    exact hf
  | JSON.str raw, s, path, p, hf, hp => by
    cases path <;> simp [nodesAt] at hp
    subst hp
    exact hf
  | JSON.arr xs, s, path, p, hf, hp => by
    cases path with
    | nil =>
      simp [nodesAt] at hp
      subst hp
      exact hf
    | cons st rest =>
      cases st with
      | field name => simp [nodesAt] at hp
      | elem =>
        cases s <;> simp [nodesAt] at hp
        rename_i z es sp
        simp only [fits] at hf
        exact fits_nodesAtElems xs z rest p hf hp
  | JSON.obj ms, s, path, p, hf, hp => by
    cases path with
    | nil =>
      simp [nodesAt] at hp
      subst hp
      exact hf
    | cons st rest =>
      cases st with
      | elem => simp [nodesAt] at hp
      | field name =>
        cases s <;> simp [nodesAt] at hp
        rename_i fs
        simp only [fits] at hf
        exact fits_nodesAtMembers ms fs name rest p hf hp
theorem fits_nodesAtMembers : ∀ (ms : List (String × JSON))
    (fs : List (String × String × GoVal)) (name : String) (rest : List Step) (p : GoVal × JSON),
    fitsMembers fs ms = true → p ∈ nodesAtMembers fs name rest ms → fits p.1 p.2 = true
  | [], fs, name, rest, p, hf, hp => by simp [nodesAtMembers] at hp
  | m :: ms, fs, name, rest, p, hf, hp => by
    simp only [fitsMembers, Bool.and_eq_true] at hf
    simp only [nodesAtMembers, List.mem_append] at hp
    rcases hp with hp | hp
    · by_cases hk : findField fs (unquote m.1) = some name
      · rw [if_pos hk] at hp
        have h1 := hf.1
        rw [hk] at h1
        exact fits_nodesAt m.2 _ rest p h1 hp
      · rw [if_neg hk] at hp
        cases hp
    · exact fits_nodesAtMembers ms fs name rest p hf.2 hp
theorem fits_nodesAtElems : ∀ (xs : List JSON) (z : GoVal) (rest : List Step)
    (p : GoVal × JSON), fitsElems z xs = true → p ∈ nodesAtElems z rest xs →
    fits p.1 p.2 = true
  | [], z, rest, p, hf, hp => by simp [nodesAtElems] at hp
  | x :: xs, z, rest, p, hf, hp => by
    simp only [fitsElems, Bool.and_eq_true] at hf
    simp only [nodesAtElems, List.mem_append] at hp
    rcases hp with hp | hp
    · exact fits_nodesAt x z rest p hf.1 hp
    · exact fits_nodesAtElems xs z rest p hf.2 hp
end

theorem sel_nil (v : GoVal) : v.sel [] = v := rfl

theorem sel_cons (v : GoVal) (n : String) (rest : List String) :
    v.sel (n :: rest) = (v.field n).sel rest := rfl

theorem sel_any_getString (x : Option JSON) (path : List String) :
    ((GoVal.any x).sel path).getString = "" := by
  induction path generalizing x with
  | nil => rfl
  | cons n rest ih => exact ih none

theorem sel_cons_of_no_fields (v : GoVal) (n : String) (rest : List String)
    (h : v.fields = []) : ((v.sel (n :: rest))).getString = "" := by
  rw [sel_cons]
  have : v.field n = GoVal.any none := by simp [GoVal.field, h]
  rw [this]
  exact sel_any_getString none rest

theorem lastString_append (init : String) (xs ys : List (GoVal × JSON)) :
    lastString init (xs ++ ys) = lastString (lastString init xs) ys := by
  simp [lastString, List.foldl_append]

theorem field_setField_other (n n1 : String) (x : GoVal) (hne : n1 ≠ n) :
    ∀ fs : List (String × String × GoVal),
      (GoVal.struct (setField fs n1 x)).field n = (GoVal.struct fs).field n
  | [] => rfl
  | f :: fs => by
    have ih := field_setField_other n n1 x hne fs
    simp only [GoVal.field, GoVal.fields] at ih ⊢
    simp only [setField]
    by_cases h1 : f.1 = n1
    · have hn : (f.1 == n) = false := by
        rw [h1]
        simpa using hne
      simp [h1, List.find?_cons, hne]
    · have h1' : (f.1 == n1) = false := by simpa using h1
      simp only [h1', Bool.false_eq_true, if_false, List.find?_cons]
      cases f.1 == n with
      | true => rfl
      | false => exact ih

theorem findField_mem (fs : List (String × String × GoVal)) (key name : String)
    (h : findField fs key = some name) : ∃ f ∈ fs, f.1 = name := by
  unfold findField at h
  split at h
  · rename_i f hf
    exact ⟨f, List.mem_of_find?_eq_some hf, by simpa using h⟩
  · cases hf : fs.find? (fun f => foldName f.2.1 == foldName key) with
    | none => simp [hf] at h
    | some f =>
      simp [hf] at h
      exact ⟨f, List.mem_of_find?_eq_some hf, h⟩

theorem field_setField_same (n : String) (x : GoVal) :
    ∀ fs : List (String × String × GoVal), (∃ f ∈ fs, f.1 = n) →
      (GoVal.struct (setField fs n x)).field n = x
  | [], h => by simp at h
  | f :: fs, h => by
    simp only [GoVal.field, GoVal.fields, setField]
    by_cases h1 : f.1 = n
    · simp [h1, List.find?_cons]
    · have h1' : (f.1 == n) = false := by simpa using h1
      have hex : ∃ g ∈ fs, g.1 = n := by
        obtain ⟨g, hg, hgn⟩ := h
        rcases List.mem_cons.mp hg with rfl | hg
        · exact absurd hgn h1
        · exact ⟨g, hg, hgn⟩
      have ih := field_setField_same n x fs hex
      simp only [GoVal.field, GoVal.fields] at ih
      simp only [h1', Bool.false_eq_true, if_false, List.find?_cons]
      exact ih

theorem getString_of_sameShape (s w : GoVal) (h : sameShape s w = true)
    (hs : ∀ x, s ≠ GoVal.str x) : w.getString = "" := by
  cases s <;> cases w <;> simp_all [sameShape, GoVal.getString]

theorem fields_of_sameShape (s w : GoVal) (h : sameShape s w = true)
    (hs : ∀ fs, s ≠ GoVal.struct fs) : w.fields = [] := by
  cases s <;> cases w <;> simp_all [sameShape, GoVal.fields]

theorem nodesAt_field_of_not_struct (s : GoVal) (name : String) (rest : List Step) (j : JSON)
    (hs : ∀ fs, s ≠ GoVal.struct fs) : nodesAt s (Step.field name :: rest) j = [] := by
  cases j <;> cases s <;> simp_all [nodesAt]

theorem nodesAt_field_of_not_obj (s : GoVal) (name : String) (rest : List Step) (j : JSON)
    (hj : ∀ ms, j ≠ JSON.obj ms) : nodesAt s (Step.field name :: rest) j = [] := by
  cases j <;> simp_all [nodesAt]

theorem decode_struct_of_not_obj (fs : List (String × String × GoVal)) (j : JSON)
    (hj : ∀ ms, j ≠ JSON.obj ms) (r : GoVal × Bool) (hd : decode (GoVal.struct fs) j = some r) :
    r.1 = GoVal.struct fs := by
  cases j <;> simp_all [decode] <;> subst hd <;> rfl

theorem decode_sel_nil (j : JSON) (s v : GoVal) (h : sameShape s v = true)
    (r : GoVal × Bool) (hd : decode v j = some r) :
    r.1.getString = lastString v.getString [(s, j)] := by
  have hspec := decode_spec j s v h
  rw [hd] at hspec
  have hr : sameShape s r.1 = true := hspec.1
  by_cases hs : ∃ x, s = GoVal.str x
  · obtain ⟨x, rfl⟩ := hs
    cases v <;> simp [sameShape] at h
    cases j <;> simp [decode] at hd <;> subst hd <;> simp [lastString, GoVal.getString]
  · have hs' : ∀ x, s ≠ GoVal.str x := fun x e => hs ⟨x, e⟩
    rw [getString_of_sameShape s r.1 hr hs', getString_of_sameShape s v h hs']
    cases s <;> simp_all [lastString]

theorem decode_sel_cons_of_not_struct (j : JSON) (s v : GoVal) (n : String)
    (rest : List String) (h : sameShape s v = true) (hs : ∀ fs, s ≠ GoVal.struct fs)
    (r : GoVal × Bool) (hd : decode v j = some r) :
    (r.1.sel (n :: rest)).getString
      = lastString (v.sel (n :: rest)).getString
          (nodesAt s ((n :: rest).map Step.field) j) := by
  have hspec := decode_spec j s v h
  rw [hd] at hspec
  have hr : sameShape s r.1 = true := hspec.1
  rw [sel_cons_of_no_fields r.1 n rest (fields_of_sameShape s r.1 hr hs),
    sel_cons_of_no_fields v n rest (fields_of_sameShape s v h hs), List.map_cons,
    nodesAt_field_of_not_struct s n _ j hs]
  rfl

theorem decode_sel_cons_of_not_obj (j : JSON) (s v : GoVal) (n : String)
    (rest : List String) (h : sameShape s v = true) (hj : ∀ ms, j ≠ JSON.obj ms)
    (r : GoVal × Bool) (hd : decode v j = some r) :
    (r.1.sel (n :: rest)).getString
      = lastString (v.sel (n :: rest)).getString
          (nodesAt s ((n :: rest).map Step.field) j) := by
  by_cases hs : ∃ sfs, s = GoVal.struct sfs
  · obtain ⟨sfs, rfl⟩ := hs
    cases v <;> simp [sameShape] at h
    rw [decode_struct_of_not_obj _ j hj r hd, List.map_cons, nodesAt_field_of_not_obj _ n _ j hj]
    rfl
  · exact decode_sel_cons_of_not_struct j s v n rest h (fun fs e => hs ⟨fs, e⟩) r hd

mutual
theorem decode_sel : ∀ (j : JSON) (s v : GoVal) (path : List String), sameShape s v = true →
    ∀ r, decode v j = some r →
      (r.1.sel path).getString
        = lastString (v.sel path).getString (nodesAt s (path.map Step.field) j)
  | j, s, v, [], h, r, hd => by
    have := decode_sel_nil j s v h r hd
    cases j <;> simpa [sel_nil, nodesAt] using this
  | JSON.null, s, v, n :: rest, h, r, hd =>
    decode_sel_cons_of_not_obj _ s v n rest h (fun _ e => by cases e) r hd
  | JSON.bool _, s, v, n :: rest, h, r, hd =>
    decode_sel_cons_of_not_obj _ s v n rest h (fun _ e => by cases e) r hd
  | JSON.num _, s, v, n :: rest, h, r, hd =>
    decode_sel_cons_of_not_obj _ s v n rest h (fun _ e => by cases e) r hd
  | JSON.str _, s, v, n :: rest, h, r, hd =>
    decode_sel_cons_of_not_obj _ s v n rest h (fun _ e => by cases e) r hd
  | JSON.arr _, s, v, n :: rest, h, r, hd =>
    decode_sel_cons_of_not_obj _ s v n rest h (fun _ e => by cases e) r hd
  | JSON.obj ms, s, v, n :: rest, h, r, hd => by
    by_cases hs : ∃ sfs, s = GoVal.struct sfs
    · obtain ⟨sfs, rfl⟩ := hs
      cases v <;> simp [sameShape] at h
      rename_i fs
      simp only [decode, Option.map_eq_some'] at hd
      obtain ⟨r1, hd1, hr⟩ := hd
      subst hr
      simp only [sel_cons, List.map_cons, nodesAt]
      exact decodeMembers_sel ms sfs fs n rest h r1 hd1
    · exact decode_sel_cons_of_not_struct _ s v n rest h (fun fs e => hs ⟨fs, e⟩) r hd
theorem decodeMembers_sel : ∀ (ms : List (String × JSON))
    (sfs fs : List (String × String × GoVal)) (n : String) (rest : List String),
    sameShapeFields sfs fs = true → ∀ r, decodeMembers fs ms = some r →
      (((GoVal.struct r.1).field n).sel rest).getString
        = lastString (((GoVal.struct fs).field n).sel rest).getString
            (nodesAtMembers sfs n (rest.map Step.field) ms)
  | [], sfs, fs, n, rest, h, r, hd => by
    simp [decodeMembers] at hd
    subst hd
    simp [nodesAtMembers, lastString]
  | m :: ms, sfs, fs, n, rest, h, r, hd => by
    simp only [decodeMembers, findField_sameShape sfs fs _ h] at hd
    simp only [nodesAtMembers, lastString_append]
    cases hf : findField sfs (unquote m.1) with
    | none =>
      rw [hf] at hd
      simp only [reduceCtorEq, if_false, lastString, List.foldl_nil]
      exact decodeMembers_sel ms sfs fs n rest h r hd
    | some n1 =>
      rw [hf] at hd
      simp only at hd
      cases hd1 : decode ((GoVal.struct fs).field n1) m.2 with
      | none => simp [hd1] at hd
      | some r1 =>
        rw [hd1] at hd
        simp only at hd
        cases hd2 : decodeMembers (setField fs n1 r1.1) ms with
        | none => simp [hd2] at hd
        | some r2 =>
          rw [hd2] at hd
          simp only [Option.some.injEq] at hd
          subst hd
          have hshape1 := decode_spec m.2 ((GoVal.struct sfs).field n1)
            ((GoVal.struct fs).field n1) (field_sameShape n1 sfs fs h)
          rw [hd1] at hshape1
          have hshape2 : sameShapeFields sfs (setField fs n1 r1.1) = true :=
            setField_sameShape n1 r1.1 sfs fs h hshape1.1
          have ih2 := decodeMembers_sel ms sfs (setField fs n1 r1.1) n rest hshape2 r2 hd2
          simp only
          rw [ih2]
          congr 1
          by_cases hn : n1 = n
          · subst hn
            have hmem : ∃ f ∈ fs, f.1 = n1 :=
              findField_mem fs (unquote m.1) n1 (by rw [findField_sameShape sfs fs _ h, hf])
            rw [field_setField_same n1 r1.1 fs hmem, if_pos rfl]
            exact decode_sel m.2 _ _ rest (field_sameShape n1 sfs fs h) r1 hd1
          · have hne : some n1 ≠ some n := fun e => hn (Option.some.inj e)
            rw [field_setField_other n n1 r1.1 hn fs, if_neg hne]
            rfl
end

/-! ## The call of `json.Unmarshal` -/

theorem parseJSON_empty : parseJSON "" = none := rfl

theorem sameShape_ABCJSON (a : Adapter) : sameShape a.ABCJSON a.ABCJSON = true := by
  cases a <;> decide!

theorem unmarshal_ok (a : Adapter) (text : String) (v : GoVal)
    (h : Unmarshal text a.ABCJSON = Except.ok v) :
    ∃ j, parseJSON text = some j ∧ fits a.ABCJSON j = true
      ∧ decode a.ABCJSON j = some (v, false) := by
  unfold Unmarshal at h
  cases hj : parseJSON text with
  | none => simp [hj] at h
  | some j =>
    simp only [hj] at h
    have hspec := decode_spec j a.ABCJSON a.ABCJSON (sameShape_ABCJSON a)
    cases hd : decode a.ABCJSON j with
    | none => simp [hd] at h
    | some r =>
      rw [hd] at hspec
      simp only [hd] at h
      obtain ⟨w, saved⟩ := r
      cases saved with
      | true => simp at h
      | false =>
        simp only [Bool.false_eq_true, if_false, Except.ok.injEq] at h
        subst h
        exact ⟨j, rfl, hspec.2.mp rfl, hd⟩

theorem unmarshal_of_fits (a : Adapter) (text : String) (j : JSON)
    (hj : parseJSON text = some j) (hf : fits a.ABCJSON j = true) :
    ∃ v, Unmarshal text a.ABCJSON = Except.ok v ∧ decode a.ABCJSON j = some (v, false) := by
  have hspec := decode_spec j a.ABCJSON a.ABCJSON (sameShape_ABCJSON a)
  unfold Unmarshal
  simp only [hj]
  cases hd : decode a.ABCJSON j with
  | none =>
    rw [hd] at hspec
    simp only [DecodeSpec] at hspec
    rw [hf] at hspec
    cases hspec
  | some r =>
    rw [hd] at hspec
    obtain ⟨w, saved⟩ := r
    have hs : saved = false := hspec.2.mpr hf
    subst hs
    exact ⟨w, by simp, rfl⟩

theorem unmarshal_error_iff (a : Adapter) (text : String) :
    (∃ e, Unmarshal text a.ABCJSON = Except.error e)
      ↔ ¬ ∃ j, parseJSON text = some j ∧ fits a.ABCJSON j = true := by
  constructor
  · rintro ⟨e, he⟩ ⟨j, hj, hf⟩
    obtain ⟨v, hv, _⟩ := unmarshal_of_fits a text j hj hf
    rw [hv] at he
    cases he
  · intro h
    cases hu : Unmarshal text a.ABCJSON with
    | error e => exact ⟨e, rfl⟩
    | ok v =>
      obtain ⟨j, hj, hf, _⟩ := unmarshal_ok a text v hu
      exact absurd ⟨j, hj, hf⟩ h

theorem adapter_header_eq (a : Adapter) (abcData : GoVal) (f : HeaderField) :
    (a.buildRSS abcData).Channel.header f = (abcData.sel (a.headerSel f)).getString := by
  cases a <;> cases f <;> rfl

theorem adapter_header_zero (a : Adapter) (f : HeaderField) :
    (a.ABCJSON.sel (a.headerSel f)).getString = "" := by
  cases a <;> cases f <;> decide!

/-! ## Components and candidate entries -/

theorem adapter_candidates_eq (a : Adapter) (abcData : GoVal) :
    a.candidates abcData
      = ((a.components abcData).map fun component =>
          if a.producesItems component = true then a.componentEntries component else []).flatten := by
  cases a
  · simp only [Adapter.candidates, Kohler.candidates, Adapter.components, Kohler.components,
      Adapter.producesItems, Kohler.producesItems, Adapter.componentEntries,
      Kohler.componentEntries, decide_eq_true_eq]
  · simp only [Adapter.candidates, MediaWatch.candidates, Adapter.components,
      MediaWatch.components, Adapter.producesItems, MediaWatch.producesItems,
      Adapter.componentEntries, MediaWatch.componentEntries, decide_eq_true_eq]

theorem mem_candidates_iff (a : Adapter) (abcData : GoVal) (it : Item) :
    it ∈ a.candidates abcData
      ↔ ∃ component ∈ a.components abcData,
          a.producesItems component = true ∧ it ∈ a.componentEntries component := by
  rw [adapter_candidates_eq]
  simp only [List.mem_flatten, List.mem_map]
  constructor
  · rintro ⟨l, ⟨component, hc, rfl⟩, hit⟩
    by_cases hp : a.producesItems component = true
    · rw [if_pos hp] at hit
      exact ⟨component, hc, hp, hit⟩
    · rw [if_neg hp] at hit
      cases hit
  · rintro ⟨component, hc, hp, hit⟩
    exact ⟨_, ⟨component, hc, rfl⟩, by rw [if_pos hp]; exact hit⟩

theorem adapter_payload_eq (a : Adapter) (get : Except String Response)
    (h : (a.FetchAndParseToRSS get).1 = none) :
    (a.FetchAndParseToRSS get).2 = a.buildRSS (a.payload get)
      ∧ a.entries get = a.candidates (a.payload get) := by
  obtain ⟨resp, doc, abcData, hget, _, hdoc, _, hu, hrss⟩ := adapter_run_ok a get h
  subst hget
  simp only [Adapter.payload, Adapter.entries, hdoc, hu]
  exact ⟨hrss, trivial⟩

theorem mem_items_of_run (a : Adapter) (get : Except String Response)
    (h : (a.FetchAndParseToRSS get).1 = none) (it : Item)
    (hit : it ∈ (a.FetchAndParseToRSS get).2.Channel.Items) :
    ∃ component ∈ a.components (a.payload get),
      a.producesItems component = true ∧ it ∈ a.componentEntries component := by
  rw [adapter_items_eq a get h, (adapter_payload_eq a get h).2] at hit
  exact (mem_candidates_iff a _ it).mp ((firstOccurrences_sublist _).subset hit)


/-! ## Parts of a value no node is decoded into -/

theorem allAt_field (p : GoVal → Bool) (n : String) (rest : List Step) (v : GoVal) :
    allAt p (Step.field n :: rest) v = allAt p rest (v.field n) := rfl

theorem allAt_elem_slice (p : GoVal → Bool) (rest : List Step) (z : GoVal)
    (es sp : List GoVal) :
    allAt p (Step.elem :: rest) (GoVal.slice z es sp)
      = (allAt p rest z && es.all (fun e => allAt p rest e)
          && sp.all (fun e => allAt p rest e)) := rfl

theorem allAt_elems (p : GoVal → Bool) (rest : List Step) (v : GoVal)
    (h : allAt p (Step.elem :: rest) v = true) : ∀ e ∈ v.elems, allAt p rest e = true := by
  intro e he
  cases v <;> simp [GoVal.elems] at he
  rw [allAt_elem_slice] at h
  simp only [Bool.and_eq_true, List.all_eq_true] at h
  exact h.1.2 e he

theorem field_of_no_fields (v : GoVal) (n : String) (h : v.fields = []) :
    v.field n = GoVal.any none := by
  simp [GoVal.field, h]

theorem allAt_elem_of_not_slice (p : GoVal → Bool) (rest : List Step) (s w : GoVal)
    (h : sameShape s w = true) (hs : ∀ z es sp, s ≠ GoVal.slice z es sp) :
    allAt p (Step.elem :: rest) w = true := by
  cases s <;> cases w <;> simp_all [sameShape, allAt]

theorem nodesAt_nil_ne (s : GoVal) (j : JSON) : nodesAt s [] j ≠ [] := by
  cases j <;> simp [nodesAt]

theorem decode_allAt_field_of_not_struct (j : JSON) (s v : GoVal) (p : GoVal → Bool)
    (n : String) (rest : List Step) (h : sameShape s v = true)
    (hs : ∀ fs, s ≠ GoVal.struct fs)
    (ha : allAt p (Step.field n :: rest) v = true) (r : GoVal × Bool)
    (hd : decode v j = some r) : allAt p (Step.field n :: rest) r.1 = true := by
  have hspec := decode_spec j s v h
  rw [hd] at hspec
  rw [allAt_field, field_of_no_fields r.1 n (fields_of_sameShape s r.1 hspec.1 hs)]
  rw [allAt_field, field_of_no_fields v n (fields_of_sameShape s v h hs)] at ha
  exact ha

theorem decode_allAt_field_of_not_obj (j : JSON) (s v : GoVal) (p : GoVal → Bool)
    (n : String) (rest : List Step) (h : sameShape s v = true)
    (hj : ∀ ms, j ≠ JSON.obj ms)
    (ha : allAt p (Step.field n :: rest) v = true) (r : GoVal × Bool)
    (hd : decode v j = some r) : allAt p (Step.field n :: rest) r.1 = true := by
  by_cases hs : ∃ sfs, s = GoVal.struct sfs
  · obtain ⟨sfs, rfl⟩ := hs
    cases v <;> simp [sameShape] at h
    rw [decode_struct_of_not_obj _ j hj r hd]
    exact ha
  · exact decode_allAt_field_of_not_struct j s v p n rest h (fun fs e => hs ⟨fs, e⟩) ha r hd

theorem decode_allAt_elem_of_not_arr (j : JSON) (s v : GoVal) (p : GoVal → Bool)
    (rest : List Step) (h : sameShape s v = true) (hj : ∀ xs, j ≠ JSON.arr xs)
    (ha : allAt p (Step.elem :: rest) v = true) (r : GoVal × Bool)
    (hd : decode v j = some r) : allAt p (Step.elem :: rest) r.1 = true := by
  by_cases hs : ∃ z es sp, s = GoVal.slice z es sp
  · obtain ⟨sz, ses, ssp, rfl⟩ := hs
    cases v <;> simp [sameShape] at h
    rename_i z es sp
    rw [allAt_elem_slice] at ha
    simp only [Bool.and_eq_true] at ha
    cases j <;> simp [decode] at hd hj <;> subst hd <;>
      simp [allAt_elem_slice, ha.1.1, ha.1.2, ha.2]
  · have hspec := decode_spec j s v h
    rw [hd] at hspec
    exact allAt_elem_of_not_slice p rest s r.1 hspec.1 (fun z es sp e => hs ⟨z, es, sp, e⟩)

mutual
theorem decode_allAt : ∀ (j : JSON) (s v : GoVal) (p : GoVal → Bool) (path : List Step),
    sameShape s v = true → nodesAt s path j = [] → allAt p path v = true →
    ∀ r, decode v j = some r → allAt p path r.1 = true
  | j, s, v, p, [], h, hn, ha, r, hd => absurd hn (nodesAt_nil_ne s j)
  | JSON.null, s, v, p, Step.field n :: rest, h, hn, ha, r, hd =>
    decode_allAt_field_of_not_obj _ s v p n rest h (fun _ e => by cases e) ha r hd
  | JSON.bool _, s, v, p, Step.field n :: rest, h, hn, ha, r, hd =>
    decode_allAt_field_of_not_obj _ s v p n rest h (fun _ e => by cases e) ha r hd
  | JSON.num _, s, v, p, Step.field n :: rest, h, hn, ha, r, hd =>
    decode_allAt_field_of_not_obj _ s v p n rest h (fun _ e => by cases e) ha r hd
  | JSON.str _, s, v, p, Step.field n :: rest, h, hn, ha, r, hd =>
    decode_allAt_field_of_not_obj _ s v p n rest h (fun _ e => by cases e) ha r hd
  | JSON.arr _, s, v, p, Step.field n :: rest, h, hn, ha, r, hd =>
    decode_allAt_field_of_not_obj _ s v p n rest h (fun _ e => by cases e) ha r hd
  | JSON.null, s, v, p, Step.elem :: rest, h, hn, ha, r, hd =>
    decode_allAt_elem_of_not_arr _ s v p rest h (fun _ e => by cases e) ha r hd
  | JSON.bool _, s, v, p, Step.elem :: rest, h, hn, ha, r, hd =>
    decode_allAt_elem_of_not_arr _ s v p rest h (fun _ e => by cases e) ha r hd
  | JSON.num _, s, v, p, Step.elem :: rest, h, hn, ha, r, hd =>
    decode_allAt_elem_of_not_arr _ s v p rest h (fun _ e => by cases e) ha r hd
  | JSON.str _, s, v, p, Step.elem :: rest, h, hn, ha, r, hd =>
    decode_allAt_elem_of_not_arr _ s v p rest h (fun _ e => by cases e) ha r hd
  | JSON.obj _, s, v, p, Step.elem :: rest, h, hn, ha, r, hd =>
    decode_allAt_elem_of_not_arr _ s v p rest h (fun _ e => by cases e) ha r hd
  | JSON.obj ms, s, v, p, Step.field n :: rest, h, hn, ha, r, hd => by
    by_cases hs : ∃ sfs, s = GoVal.struct sfs
    · obtain ⟨sfs, rfl⟩ := hs
      cases v <;> simp [sameShape] at h
      rename_i fs
      simp only [decode, Option.map_eq_some'] at hd
      obtain ⟨r1, hd1, hr⟩ := hd
      subst hr
      simp only [nodesAt] at hn
      exact decodeMembers_allAt ms sfs fs p n rest h hn ha r1 hd1
    · exact decode_allAt_field_of_not_struct _ s v p n rest h (fun fs e => hs ⟨fs, e⟩) ha r hd
  | JSON.arr xs, s, v, p, Step.elem :: rest, h, hn, ha, r, hd => by
    by_cases hs : ∃ z es sp, s = GoVal.slice z es sp
    · obtain ⟨sz, ses, ssp, rfl⟩ := hs
      cases v <;> simp [sameShape] at h
      rename_i z es sp
      rw [allAt_elem_slice] at ha
      simp only [Bool.and_eq_true] at ha
      simp only [nodesAt] at hn
      cases xs with
      | nil =>
        simp only [decode, Option.some.injEq] at hd
        subst hd
        simp [allAt_elem_slice, ha.1.1]
      | cons x xs =>
        simp only [decode, Option.map_eq_some'] at hd
        obtain ⟨r1, hd1, hr⟩ := hd
        subst hr
        have hpool : (es ++ sp).all (fun e => sameShape sz e) = true := by
          simp only [List.all_append, Bool.and_eq_true, List.all_eq_true]
          exact ⟨h.1.2, h.2⟩
        have hapool : (es ++ sp).all (fun e => allAt p rest e) = true := by
          simp only [List.all_append, Bool.and_eq_true]
          exact ⟨ha.1.2, ha.2⟩
        have ih := decodeElems_allAt (x :: xs) sz z (es ++ sp) p rest h.1.1 hpool hn ha.1.1
          hapool r1 hd1
        simp only [allAt_elem_slice, Bool.and_eq_true]
        exact ⟨⟨ha.1.1, ih.1⟩, ih.2⟩
    · have hspec := decode_spec (JSON.arr xs) s v h
      rw [hd] at hspec
      exact allAt_elem_of_not_slice p rest s r.1 hspec.1 (fun z es sp e => hs ⟨z, es, sp, e⟩)
theorem decodeMembers_allAt : ∀ (ms : List (String × JSON))
    (sfs fs : List (String × String × GoVal)) (p : GoVal → Bool) (n : String)
    (rest : List Step), sameShapeFields sfs fs = true → nodesAtMembers sfs n rest ms = [] →
    allAt p rest ((GoVal.struct fs).field n) = true →
    ∀ r, decodeMembers fs ms = some r → allAt p rest ((GoVal.struct r.1).field n) = true
  | [], sfs, fs, p, n, rest, h, hn, ha, r, hd => by
    simp [decodeMembers] at hd
    subst hd
    exact ha
  | m :: ms, sfs, fs, p, n, rest, h, hn, ha, r, hd => by
    simp only [decodeMembers, findField_sameShape sfs fs _ h] at hd
    simp only [nodesAtMembers, List.append_eq_nil] at hn
    cases hf : findField sfs (unquote m.1) with
    | none =>
      rw [hf] at hd
      exact decodeMembers_allAt ms sfs fs p n rest h hn.2 ha r hd
    | some n1 =>
      rw [hf] at hd
      simp only at hd
      cases hd1 : decode ((GoVal.struct fs).field n1) m.2 with
      | none => simp [hd1] at hd
      | some r1 =>
        rw [hd1] at hd
        simp only at hd
        cases hd2 : decodeMembers (setField fs n1 r1.1) ms with
        | none => simp [hd2] at hd
        | some r2 =>
          rw [hd2] at hd
          simp only [Option.some.injEq] at hd
          subst hd
          have hshape1 := decode_spec m.2 ((GoVal.struct sfs).field n1)
            ((GoVal.struct fs).field n1) (field_sameShape n1 sfs fs h)
          rw [hd1] at hshape1
          have hshape2 : sameShapeFields sfs (setField fs n1 r1.1) = true :=
            setField_sameShape n1 r1.1 sfs fs h hshape1.1
          refine decodeMembers_allAt ms sfs (setField fs n1 r1.1) p n rest hshape2 hn.2 ?_
            r2 hd2
          by_cases hn1 : n1 = n
          · subst hn1
            have hmem : ∃ f ∈ fs, f.1 = n1 :=
              findField_mem fs (unquote m.1) n1 (by rw [findField_sameShape sfs fs _ h, hf])
            rw [field_setField_same n1 r1.1 fs hmem]
            have hn0 := hn.1
            rw [hf, if_pos rfl] at hn0
            exact decode_allAt m.2 _ _ p rest (field_sameShape n1 sfs fs h) hn0 ha r1 hd1
          · rw [field_setField_other n n1 r1.1 hn1 fs]
            exact ha
theorem decodeElems_allAt : ∀ (xs : List JSON) (sz z : GoVal) (pool : List GoVal)
    (p : GoVal → Bool) (rest : List Step), sameShape sz z = true →
    pool.all (fun e => sameShape sz e) = true → nodesAtElems sz rest xs = [] →
    allAt p rest z = true → pool.all (fun e => allAt p rest e) = true →
    ∀ r, decodeElems z pool xs = some r →
      r.1.1.all (fun e => allAt p rest e) = true ∧ r.1.2.all (fun e => allAt p rest e) = true
  | [], sz, z, pool, p, rest, hz, hpool, hn, ha, hap, r, hd => by
    simp [decodeElems] at hd
    subst hd
    exact ⟨rfl, hap⟩
  | x :: xs, sz, z, pool, p, rest, hz, hpool, hn, ha, hap, r, hd => by
    simp only [nodesAtElems, List.append_eq_nil] at hn
    have hhead : sameShape sz (pool.headD z) = true := by
      cases pool with
      | nil => simpa using hz
      | cons q qs =>
        simp only [List.all_cons, Bool.and_eq_true] at hpool
        simpa using hpool.1
    have htail : pool.tail.all (fun e => sameShape sz e) = true := by
      cases pool with
      | nil => simp
      | cons q qs =>
        simp only [List.all_cons, Bool.and_eq_true] at hpool
        simpa using hpool.2
    have hahead : allAt p rest (pool.headD z) = true := by
      cases pool with
      | nil => simpa using ha
      | cons q qs =>
        simp only [List.all_cons, Bool.and_eq_true] at hap
        simpa using hap.1
    have hatail : pool.tail.all (fun e => allAt p rest e) = true := by
      cases pool with
      | nil => simp
      | cons q qs =>
        simp only [List.all_cons, Bool.and_eq_true] at hap
        simpa using hap.2
    simp only [decodeElems] at hd
    cases hd1 : decode (pool.headD z) x with
    | none =>
      rw [hd1] at hd
      cases hd
    | some r1 =>
      rw [hd1] at hd
      simp only at hd
      cases hd2 : decodeElems z pool.tail xs with
      | none => simp [hd2] at hd
      | some r2 =>
        rw [hd2] at hd
        simp only [Option.some.injEq] at hd
        subst hd
        have ih1 := decode_allAt x sz (pool.headD z) p rest hhead hn.1 hahead r1 hd1
        have ih2 := decodeElems_allAt xs sz z pool.tail p rest hz htail hn.2 ha hatail r2 hd2
        simp only [List.all_cons, Bool.and_eq_true]
        exact ⟨⟨ih1, ih2.1⟩, ih2.2⟩
end


theorem format_zero : Time.zero.FormatRFC1123 = "Mon, 01 Jan 0001 00:00:00 UTC" := by decide

theorem kohler_dates_unset (abcData : GoVal)
    (h : ∀ path ∈ Adapter.kohlerReport.datePaths, allAt unsetTime path abcData = true)
    (it : Item) (hit : it ∈ Kohler.candidates abcData) :
    it.PubDate = "Mon, 01 Jan 0001 00:00:00 UTC" := by
  obtain ⟨component, hc, _, hmem⟩ := (mem_candidates_iff Adapter.kohlerReport abcData it).mp hit
  have h1 := h _ (List.mem_cons_self _ _)
  have h2 := h _ (List.mem_cons_of_mem _ (List.mem_cons_self _ _))
  have hv := allAt_elems unsetTime _ _ h1 component hc
  have hl := allAt_elems unsetTime _ _ h2 component hc
  rcases List.mem_cons.mp hmem with rfl | hmem
  · have ht : (component.sel ["Component", "Props", "Video", "PostDate",
        "PublishedDate"]).getTime = Time.zero := of_decide_eq_true hv
    show ((component.sel ["Component", "Props", "Video"]).sel
      ["PostDate", "PublishedDate"]).getTime.FormatRFC1123 = _
    rw [← format_zero, ← ht]
    rfl
  · obtain ⟨listItem, hli, rfl⟩ := List.mem_map.mp hmem
    have hl' := allAt_elems unsetTime _ _ hl listItem hli
    have ht : (listItem.sel ["Player", "PostDate", "PublishedDate"]).getTime = Time.zero :=
      of_decide_eq_true hl'
    show (listItem.sel ["Player", "PostDate", "PublishedDate"]).getTime.FormatRFC1123 = _
    rw [ht, format_zero]

theorem mediaWatch_dates_unset (abcData : GoVal)
    (h : ∀ path ∈ Adapter.mediaWatch.datePaths, allAt unsetTime path abcData = true)
    (it : Item) (hit : it ∈ MediaWatch.candidates abcData) :
    it.PubDate = "Mon, 01 Jan 0001 00:00:00 UTC" := by
  obtain ⟨component, hc, _, hmem⟩ := (mem_candidates_iff Adapter.mediaWatch abcData it).mp hit
  have h1 := h _ (List.mem_cons_self _ _)
  have hl := allAt_elems unsetTime _ _ h1 component hc
  obtain ⟨listItem, hli, rfl⟩ := List.mem_map.mp hmem
  have hl' := allAt_elems unsetTime _ _ hl listItem hli
  have ht : (listItem.sel ["CardAttributionPrepared", "PublishedDate"]).getTime = Time.zero :=
    of_decide_eq_true hl'
  show (listItem.sel ["CardAttributionPrepared", "PublishedDate"]).getTime.FormatRFC1123 = _
  rw [ht, format_zero]

theorem adapter_dates_unset (a : Adapter) (abcData : GoVal)
    (h : ∀ path ∈ a.datePaths, allAt unsetTime path abcData = true)
    (it : Item) (hit : it ∈ a.candidates abcData) :
    it.PubDate = "Mon, 01 Jan 0001 00:00:00 UTC" := by
  cases a
  · exact kohler_dates_unset abcData h it hit
  · exact mediaWatch_dates_unset abcData h it hit

theorem adapter_dates_zero (a : Adapter) :
    ∀ path ∈ a.datePaths, allAt unsetTime path a.ABCJSON = true := by
  cases a <;> decide!

theorem adapter_run_of_decodes (a : Adapter) (status : String) (doc : List ScriptElement)
    (j : JSON) (hj : parseJSON (a.locate doc) = some j)
    (hdec : a.decodes (a.locate doc) = true) :
    ∃ abcData, decode a.ABCJSON j = some (abcData, false)
      ∧ a.FetchAndParseToRSS (fetched status doc) = (none, a.buildRSS abcData)
      ∧ a.payload (fetched status doc) = abcData
      ∧ a.entries (fetched status doc) = a.candidates abcData := by
  have hloc : a.locate doc ≠ "" := by
    intro he
    rw [he, parseJSON_empty] at hj
    cases hj
  unfold Adapter.decodes at hdec
  cases hu : Unmarshal (a.locate doc) a.ABCJSON with
  | error e => simp [hu] at hdec
  | ok abcData =>
    obtain ⟨j', hj', _, hd⟩ := unmarshal_ok a (a.locate doc) abcData hu
    rw [hj] at hj'
    cases hj'
    refine ⟨abcData, hd, ?_, ?_, ?_⟩
    · rw [adapter_fetched_eq, if_neg hloc, hu]
    · simp only [Adapter.payload, fetched, hu]
    · simp only [Adapter.entries, fetched, hu]

theorem adapter_header_of_decode (a : Adapter) (j : JSON) (abcData : GoVal)
    (hd : decode a.ABCJSON j = some (abcData, false)) (f : HeaderField) :
    (a.buildRSS abcData).Channel.header f = lastString "" (a.headerNodes f j) := by
  rw [adapter_header_eq]
  have := decode_sel j a.ABCJSON a.ABCJSON (a.headerSel f) (sameShape_ABCJSON a)
    (abcData, false) hd
  rw [adapter_header_zero] at this
  exact this

theorem format_ne_empty (t : Time) : t.FormatRFC1123 ≠ "" := by
  intro h
  have hl := congrArg String.length h
  simp only [Time.FormatRFC1123, String.length_append] at hl
  have h2 : ", ".length = 2 := by decide
  have h0 : "".length = 0 := by decide
  rw [h2, h0] at hl
  omega

theorem candidate_pubDate_ne_empty (a : Adapter) (abcData : GoVal) (it : Item)
    (hit : it ∈ a.candidates abcData) : it.PubDate ≠ "" := by
  obtain ⟨component, _, _, hmem⟩ := (mem_candidates_iff a abcData it).mp hit
  cases a
  · rcases List.mem_cons.mp hmem with rfl | hmem
    · exact format_ne_empty _
    · obtain ⟨listItem, _, rfl⟩ := List.mem_map.mp hmem
      exact format_ne_empty _
  · obtain ⟨listItem, _, rfl⟩ := List.mem_map.mp hmem
    exact format_ne_empty _

theorem item_pubDate_ne_empty (a : Adapter) (get : Except String Response) (it : Item)
    (hit : it ∈ (a.FetchAndParseToRSS get).2.Channel.Items) : it.PubDate ≠ "" := by
  by_cases h : (a.FetchAndParseToRSS get).1 = none
  · rw [adapter_items_eq a get h, (adapter_payload_eq a get h).2] at hit
    exact candidate_pubDate_ne_empty a _ it ((firstOccurrences_sublist _).subset hit)
  · exfalso
    rw [adapter_FetchAndParseToRSS_eq] at h hit
    cases get with
    | error err => cases hit
    | ok resp =>
      simp only at h hit
      by_cases hs : resp.StatusCode ≠ StatusOK
      · rw [if_pos hs] at hit
        cases hit
      · rw [if_neg hs] at h hit
        cases hdoc : resp.Doc with
        | error err =>
          rw [hdoc] at hit
          cases hit
        | ok doc =>
          rw [hdoc] at h hit
          simp only at h hit
          by_cases hloc : a.locate doc = ""
          · rw [if_pos hloc] at hit
            cases hit
          · rw [if_neg hloc] at h hit
            cases hu : Unmarshal (a.locate doc) a.ABCJSON with
            | error err =>
              rw [hu] at hit
              cases hit
            | ok abcData =>
              rw [hu] at h
              exact h rfl

/-! ## Equality of decoded values -/

mutual
theorem sameJSON_eq : ∀ (j k : JSON), sameJSON j k = true → j = k
  | JSON.null, k, h => by cases k <;> simp [sameJSON] at h ⊢
  | JSON.bool b, k, h => by
    cases k <;> simp [sameJSON] at h ⊢
    exact h
  | JSON.num lit, k, h => by
    cases k <;> simp [sameJSON] at h ⊢
    exact h
  | JSON.str raw, k, h => by
    cases k <;> simp [sameJSON] at h ⊢
    exact h
  | JSON.arr xs, k, h => by
    cases k <;> simp [sameJSON] at h ⊢
    exact sameJSONElems_eq xs _ h
  | JSON.obj ms, k, h => by
    cases k <;> simp [sameJSON] at h ⊢
    exact sameJSONMembers_eq ms _ h
theorem sameJSONElems_eq : ∀ (xs ys : List JSON), sameJSONElems xs ys = true → xs = ys
  | [], ys, h => by cases ys <;> simp [sameJSONElems] at h ⊢
  | x :: xs, ys, h => by
    cases ys with
    | nil => simp [sameJSONElems] at h
    | cons y ys =>
      simp only [sameJSONElems, Bool.and_eq_true] at h
      rw [sameJSON_eq x y h.1, sameJSONElems_eq xs ys h.2]
theorem sameJSONMembers_eq : ∀ (ms ns : List (String × JSON)),
    sameJSONMembers ms ns = true → ms = ns
  | [], ns, h => by cases ns <;> simp [sameJSONMembers] at h ⊢
  | m :: ms, ns, h => by
    cases ns with
    | nil => simp [sameJSONMembers] at h
    | cons n ns =>
      simp only [sameJSONMembers, Bool.and_eq_true, beq_iff_eq] at h
      rw [sameJSONMembers_eq ms ns h.2]
      have h1 : m.1 = n.1 := h.1.1
      have h2 : m.2 = n.2 := sameJSON_eq m.2 n.2 h.1.2
      rw [Prod.ext h1 h2]
end

mutual
theorem sameValue_eq : ∀ (v w : GoVal), sameValue v w = true → v = w
  | GoVal.str s, w, h => by
    cases w <;> simp [sameValue] at h ⊢
    exact h
  | GoVal.bool b, w, h => by
    cases w <;> simp [sameValue] at h ⊢
    exact h
  | GoVal.int n, w, h => by
    cases w <;> simp [sameValue] at h ⊢
    exact h
  | GoVal.time t, w, h => by
    cases w <;> simp [sameValue] at h ⊢
    exact h
  | GoVal.any x, w, h => by
    cases w <;> simp [sameValue] at h ⊢
    rename_i x'
    cases x <;> cases x' <;> simp at h ⊢
    exact sameJSON_eq _ _ h
  | GoVal.struct fs, w, h => by
    cases w <;> simp [sameValue] at h ⊢
    exact sameValueFields_eq fs _ h
  | GoVal.slice z es sp, w, h => by
    cases w <;> simp [sameValue] at h ⊢
    exact ⟨sameValue_eq z _ h.1.1, sameValues_eq es _ h.1.2, sameValues_eq sp _ h.2⟩
theorem sameValues_eq : ∀ (vs ws : List GoVal), sameValues vs ws = true → vs = ws
  | [], ws, h => by cases ws <;> simp [sameValues] at h ⊢
  | v :: vs, ws, h => by
    cases ws with
    | nil => simp [sameValues] at h
    | cons w ws =>
      simp only [sameValues, Bool.and_eq_true] at h
      rw [sameValue_eq v w h.1, sameValues_eq vs ws h.2]
theorem sameValueFields_eq : ∀ (fs gs : List (String × String × GoVal)),
    sameValueFields fs gs = true → fs = gs
  | [], gs, h => by cases gs <;> simp [sameValueFields] at h ⊢
  | f :: fs, gs, h => by
    cases gs with
    | nil => simp [sameValueFields] at h
    | cons g gs =>
      simp only [sameValueFields, Bool.and_eq_true, beq_iff_eq] at h
      rw [sameValueFields_eq fs gs h.2]
      have h1 : f.1 = g.1 := h.1.1.1
      have h2 : f.2.1 = g.2.1 := h.1.1.2
      have h3 : f.2.2 = g.2.2 := sameValue_eq f.2.2 g.2.2 h.1.2
      rw [Prod.ext h1 (Prod.ext h2 h3)]
end

/-! ## Guids and components of the output -/

theorem mem_firstOccurrences_of_first (c : Item) (post : List Item) :
    ∀ pre : List Item, c.GUID ∉ pre.map Item.GUID → c ∈ firstOccurrences (pre ++ c :: post)
  | [], _ => by simp [firstOccurrences]
  | d :: pre, h => by
    simp only [List.map_cons, List.mem_cons, not_or] at h
    have ih := mem_firstOccurrences_of_first c post pre h.2
    simp only [List.cons_append, firstOccurrences, List.mem_cons, List.mem_filter]
    right
    exact ⟨ih, by simpa using h.1⟩

theorem flatten_map_filter {α β : Type} (p : α → Bool) (e : α → List β) :
    ∀ xs : List α, (xs.map fun x => if p x = true then e x else []).flatten
      = ((xs.filter p).map e).flatten
  | [] => rfl
  | x :: xs => by
    have ih := flatten_map_filter p e xs
    by_cases hp : p x = true
    · simp only [List.map_cons, List.flatten_cons, if_pos hp, List.filter_cons_of_pos hp, ih]
    · simp only [List.map_cons, List.flatten_cons, if_neg hp, List.filter_cons_of_neg hp, ih,
        List.nil_append]

theorem adapter_candidates_filter (a : Adapter) (abcData : GoVal) :
    a.candidates abcData
      = (((a.components abcData).filter a.producesItems).map a.componentEntries).flatten := by
  rw [adapter_candidates_eq]
  exact flatten_map_filter a.producesItems a.componentEntries _

theorem string_append_left_cancel (s t u : String) (h : s ++ t = s ++ u) : t = u := by
  have hd := congrArg String.data h
  simp only [String.data_append] at hd
  exact String.ext (List.append_cancel_left hd)

/-! ## The empty guid -/

theorem firstOccurrences_eq_nil (cs : List Item) : firstOccurrences cs = [] ↔ cs = [] := by
  cases cs <;> simp [firstOccurrences]

theorem candidates_eq_nil (a : Adapter) (abcData : GoVal) :
    a.candidates abcData = []
      ↔ ∀ component ∈ a.components abcData,
          a.producesItems component = true → a.componentEntries component = [] := by
  constructor
  · intro h component hc hp
    apply List.eq_nil_iff_forall_not_mem.mpr
    intro it hit
    have : it ∈ a.candidates abcData := (mem_candidates_iff a abcData it).mpr ⟨component, hc, hp, hit⟩
    rw [h] at this
    cases this
  · intro h
    apply List.eq_nil_iff_forall_not_mem.mpr
    intro it hit
    obtain ⟨component, hc, hp, hmem⟩ := (mem_candidates_iff a abcData it).mp hit
    rw [h component hc hp] at hmem
    cases hmem

/-! ## The value at a path of structs -/

theorem decodeAll_append (init : GoVal) (xs ys : List (GoVal × JSON)) :
    decodeAll init (xs ++ ys) = (decodeAll init xs).bind fun w => decodeAll w ys := by
  induction xs generalizing init with
  | nil => rfl
  | cons n ns ih =>
    simp only [List.cons_append, decodeAll]
    cases decode init n.2 with
    | none => rfl
    | some r => exact ih r.1

theorem sel_of_no_fields (v w : GoVal) (n : String) (rest : List String)
    (hv : v.fields = []) (hw : w.fields = []) : w.sel (n :: rest) = v.sel (n :: rest) := by
  rw [sel_cons, sel_cons, field_of_no_fields v n hv, field_of_no_fields w n hw]

theorem decode_value_cons_of_not_struct (j : JSON) (s v : GoVal) (n : String)
    (rest : List String) (h : sameShape s v = true) (hs : ∀ fs, s ≠ GoVal.struct fs)
    (r : GoVal × Bool) (hd : decode v j = some r) :
    decodeAll (v.sel (n :: rest)) (nodesAt s ((n :: rest).map Step.field) j)
      = some (r.1.sel (n :: rest)) := by
  have hspec := decode_spec j s v h
  rw [hd] at hspec
  rw [List.map_cons, nodesAt_field_of_not_struct s n _ j hs,
    sel_of_no_fields v r.1 n rest (fields_of_sameShape s v h hs)
      (fields_of_sameShape s r.1 hspec.1 hs)]
  rfl

theorem decode_value_cons_of_not_obj (j : JSON) (s v : GoVal) (n : String)
    (rest : List String) (h : sameShape s v = true) (hj : ∀ ms, j ≠ JSON.obj ms)
    (r : GoVal × Bool) (hd : decode v j = some r) :
    decodeAll (v.sel (n :: rest)) (nodesAt s ((n :: rest).map Step.field) j)
      = some (r.1.sel (n :: rest)) := by
  by_cases hs : ∃ sfs, s = GoVal.struct sfs
  · obtain ⟨sfs, rfl⟩ := hs
    cases v <;> simp [sameShape] at h
    rw [decode_struct_of_not_obj _ j hj r hd, List.map_cons, nodesAt_field_of_not_obj _ n _ j hj]
    rfl
  · exact decode_value_cons_of_not_struct j s v n rest h (fun fs e => hs ⟨fs, e⟩) r hd

mutual
theorem decode_value : ∀ (j : JSON) (s v : GoVal) (path : List String), sameShape s v = true →
    ∀ r, decode v j = some r →
      decodeAll (v.sel path) (nodesAt s (path.map Step.field) j) = some (r.1.sel path)
  | j, s, v, [], h, r, hd => by
    have hn : nodesAt s [] j = [(s, j)] := by cases j <;> rfl
    simp only [List.map_nil, hn, sel_nil, decodeAll, hd]
  | JSON.null, s, v, n :: rest, h, r, hd =>
    decode_value_cons_of_not_obj _ s v n rest h (fun _ e => by cases e) r hd
  | JSON.bool _, s, v, n :: rest, h, r, hd =>
    decode_value_cons_of_not_obj _ s v n rest h (fun _ e => by cases e) r hd
  | JSON.num _, s, v, n :: rest, h, r, hd =>
    decode_value_cons_of_not_obj _ s v n rest h (fun _ e => by cases e) r hd
  | JSON.str _, s, v, n :: rest, h, r, hd =>
    decode_value_cons_of_not_obj _ s v n rest h (fun _ e => by cases e) r hd
  | JSON.arr _, s, v, n :: rest, h, r, hd =>
    decode_value_cons_of_not_obj _ s v n rest h (fun _ e => by cases e) r hd
  | JSON.obj ms, s, v, n :: rest, h, r, hd => by
    by_cases hs : ∃ sfs, s = GoVal.struct sfs
    · obtain ⟨sfs, rfl⟩ := hs
      cases v <;> simp [sameShape] at h
      rename_i fs
      simp only [decode, Option.map_eq_some'] at hd
      obtain ⟨r1, hd1, hr⟩ := hd
      subst hr
      simp only [sel_cons, List.map_cons, nodesAt]
      exact decodeMembers_value ms sfs fs n rest h r1 hd1
    · exact decode_value_cons_of_not_struct _ s v n rest h (fun fs e => hs ⟨fs, e⟩) r hd
theorem decodeMembers_value : ∀ (ms : List (String × JSON))
    (sfs fs : List (String × String × GoVal)) (n : String) (rest : List String),
    sameShapeFields sfs fs = true → ∀ r, decodeMembers fs ms = some r →
      decodeAll (((GoVal.struct fs).field n).sel rest)
          (nodesAtMembers sfs n (rest.map Step.field) ms)
        = some (((GoVal.struct r.1).field n).sel rest)
  | [], sfs, fs, n, rest, h, r, hd => by
    simp [decodeMembers] at hd
    subst hd
    simp [nodesAtMembers, decodeAll]
  | m :: ms, sfs, fs, n, rest, h, r, hd => by
    simp only [decodeMembers, findField_sameShape sfs fs _ h] at hd
    simp only [nodesAtMembers, decodeAll_append]
    cases hf : findField sfs (unquote m.1) with
    | none =>
      rw [hf] at hd
      simp only [reduceCtorEq, if_false, decodeAll, Option.some_bind]
      exact decodeMembers_value ms sfs fs n rest h r hd
    | some n1 =>
      rw [hf] at hd
      simp only at hd
      cases hd1 : decode ((GoVal.struct fs).field n1) m.2 with
      | none => simp [hd1] at hd
      | some r1 =>
        rw [hd1] at hd
        simp only at hd
        cases hd2 : decodeMembers (setField fs n1 r1.1) ms with
        | none => simp [hd2] at hd
        | some r2 =>
          rw [hd2] at hd
          simp only [Option.some.injEq] at hd
          subst hd
          have hshape1 := decode_spec m.2 ((GoVal.struct sfs).field n1)
            ((GoVal.struct fs).field n1) (field_sameShape n1 sfs fs h)
          rw [hd1] at hshape1
          have hshape2 : sameShapeFields sfs (setField fs n1 r1.1) = true :=
            setField_sameShape n1 r1.1 sfs fs h hshape1.1
          have ih2 := decodeMembers_value ms sfs (setField fs n1 r1.1) n rest hshape2 r2 hd2
          simp only
          by_cases hn : n1 = n
          · subst hn
            have hmem : ∃ f ∈ fs, f.1 = n1 :=
              findField_mem fs (unquote m.1) n1 (by rw [findField_sameShape sfs fs _ h, hf])
            rw [field_setField_same n1 r1.1 fs hmem] at ih2
            rw [if_pos rfl,
              decode_value m.2 _ _ rest (field_sameShape n1 sfs fs h) r1 hd1, Option.some_bind]
            exact ih2
          · have hne : some n1 ≠ some n := fun e => hn (Option.some.inj e)
            rw [field_setField_other n n1 r1.1 hn fs] at ih2
            rw [if_neg hne]
            simp only [decodeAll, Option.some_bind]
            exact ih2
end

/-! ## Arrays decoded into a nil slice -/

theorem decodeElems_fresh : ∀ (xs : List JSON) (z : GoVal) (r : (List GoVal × List GoVal) × Bool),
    decodeElems z [] xs = some r → r.1.1 = freshElems z xs ∧ r.1.2 = []
  | [], z, r, hd => by
    simp [decodeElems] at hd
    subst hd
    exact ⟨rfl, rfl⟩
  | x :: xs, z, r, hd => by
    simp only [decodeElems, List.tail_nil] at hd
    cases hd1 : decode (([] : List GoVal).headD z) x with
    | none =>
      rw [hd1] at hd
      cases hd
    | some r1 =>
      rw [hd1] at hd
      simp only at hd
      cases hd2 : decodeElems z [] xs with
      | none => simp [hd2] at hd
      | some r2 =>
        rw [hd2] at hd
        simp only [Option.some.injEq] at hd
        subst hd
        have ih := decodeElems_fresh xs z r2 hd2
        have hd1' : decode z x = some r1 := hd1
        simp only [freshElems, List.filterMap_cons, hd1', Option.map_some']
        exact ⟨by rw [ih.1]; rfl, ih.2⟩

theorem decode_fresh_slice (z : GoVal) (xs : List JSON) (r : GoVal × Bool)
    (hd : decode (GoVal.slice z [] []) (JSON.arr xs) = some r) :
    r.1.elems = freshElems z xs := by
  cases xs with
  | nil =>
    simp only [decode, Option.some.injEq] at hd
    subst hd
    rfl
  | cons x xs =>
    simp only [decode, List.append_nil, Option.map_eq_some'] at hd
    obtain ⟨r1, hd1, hr⟩ := hd
    subst hr
    exact (decodeElems_fresh (x :: xs) z r1 hd1).1

theorem freshElems_append (z : GoVal) (xs ys : List JSON) :
    freshElems z (xs ++ ys) = freshElems z xs ++ freshElems z ys := by
  simp [freshElems, List.filterMap_append]

/-! ## The components of a payload -/

theorem adapter_components_sel (a : Adapter) (abcData : GoVal) :
    a.components abcData = (abcData.sel a.componentsSel).elems := by
  cases a <;> rfl

theorem adapter_components_zero (a : Adapter) :
    a.ABCJSON.sel a.componentsSel = GoVal.slice a.componentZero [] [] := by
  cases a <;> exact sameValue_eq _ _ (by decide!)

theorem adapter_components_of_array (a : Adapter) (j : JSON) (abcData : GoVal)
    (xs : List JSON) (hd : decode a.ABCJSON j = some (abcData, false))
    (hcomp : (nodesAt a.ABCJSON (a.componentsSel.map Step.field) j).map Prod.snd
      = [JSON.arr xs]) :
    a.components abcData = freshElems a.componentZero xs := by
  have hv := decode_value j a.ABCJSON a.ABCJSON a.componentsSel (sameShape_ABCJSON a)
    (abcData, false) hd
  cases hn : nodesAt a.ABCJSON (a.componentsSel.map Step.field) j with
  | nil => simp [hn] at hcomp
  | cons n ns =>
    rw [hn] at hcomp hv
    simp only [List.map_cons, List.cons.injEq, List.map_eq_nil_iff] at hcomp
    obtain ⟨hn2, hns⟩ := hcomp
    subst hns
    rw [adapter_components_zero] at hv
    simp only [decodeAll, hn2] at hv
    cases hd1 : decode (GoVal.slice a.componentZero [] []) (JSON.arr xs) with
    | none => simp [hd1] at hv
    | some r =>
      rw [hd1] at hv
      simp only [Option.some.injEq] at hv
      rw [adapter_components_sel, ← hv]
      exact decode_fresh_slice _ xs r hd1

theorem filter_insert_of_not {α : Type} (p : α → Bool) (xs ys zs : List α)
    (h : ∀ y ∈ ys, p y = false) : (xs ++ ys ++ zs).filter p = (xs ++ zs).filter p := by
  have : ys.filter p = [] := by
    apply List.filter_eq_nil_iff.mpr
    intro y hy
    simp [h y hy]
  simp [List.filter_append, this]

/-! ## The part of a value at an index no node is decoded into -/

theorem holdsAt_field (p : GoVal → Bool) (n : String) (rest : List Place) (v : GoVal) :
    holdsAt p (Place.field n :: rest) v = holdsAt p rest (v.field n) := rfl

theorem holdsAt_index_slice (p : GoVal → Bool) (i : Nat) (rest : List Place) (z : GoVal)
    (es sp : List GoVal) :
    holdsAt p (Place.index i :: rest) (GoVal.slice z es sp)
      = (holdsAt p rest z && holdsAt p rest ((es ++ sp).getD i z)) := rfl

theorem holdsAt_elem (p : GoVal → Bool) (i : Nat) (rest : List Place) (v e : GoVal)
    (h : holdsAt p (Place.index i :: rest) v = true) (he : v.elems[i]? = some e) :
    holdsAt p rest e = true := by
  cases v <;> simp [GoVal.elems] at he
  rename_i z es sp
  rw [holdsAt_index_slice] at h
  simp only [Bool.and_eq_true] at h
  have hi : i < es.length := (List.getElem?_eq_some_iff.mp he).1
  have : (es ++ sp).getD i z = e := by
    rw [List.getD_eq_getElem?_getD, List.getElem?_append_left hi, he]
    rfl
  rw [← this]
  exact h.2

theorem holdsAt_index_of_not_slice (p : GoVal → Bool) (i : Nat) (rest : List Place)
    (s w : GoVal) (h : sameShape s w = true) (hs : ∀ z es sp, s ≠ GoVal.slice z es sp) :
    holdsAt p (Place.index i :: rest) w = true := by
  cases s <;> cases w <;> simp_all [sameShape, holdsAt]

theorem nodesOf_nil_ne (s : GoVal) (j : JSON) : nodesOf s [] j ≠ [] := by
  cases j <;> simp [nodesOf]

theorem decode_holdsAt_field_of_not_struct (j : JSON) (s v : GoVal) (p : GoVal → Bool)
    (n : String) (rest : List Place) (h : sameShape s v = true)
    (hs : ∀ fs, s ≠ GoVal.struct fs)
    (ha : holdsAt p (Place.field n :: rest) v = true) (r : GoVal × Bool)
    (hd : decode v j = some r) : holdsAt p (Place.field n :: rest) r.1 = true := by
  have hspec := decode_spec j s v h
  rw [hd] at hspec
  rw [holdsAt_field, field_of_no_fields r.1 n (fields_of_sameShape s r.1 hspec.1 hs)]
  rw [holdsAt_field, field_of_no_fields v n (fields_of_sameShape s v h hs)] at ha
  exact ha

theorem decode_holdsAt_field_of_not_obj (j : JSON) (s v : GoVal) (p : GoVal → Bool)
    (n : String) (rest : List Place) (h : sameShape s v = true)
    (hj : ∀ ms, j ≠ JSON.obj ms)
    (ha : holdsAt p (Place.field n :: rest) v = true) (r : GoVal × Bool)
    (hd : decode v j = some r) : holdsAt p (Place.field n :: rest) r.1 = true := by
  by_cases hs : ∃ sfs, s = GoVal.struct sfs
  · obtain ⟨sfs, rfl⟩ := hs
    cases v <;> simp [sameShape] at h
    rw [decode_struct_of_not_obj _ j hj r hd]
    exact ha
  · exact decode_holdsAt_field_of_not_struct j s v p n rest h (fun fs e => hs ⟨fs, e⟩) ha r hd

theorem decode_holdsAt_index_of_not_arr (j : JSON) (s v : GoVal) (p : GoVal → Bool)
    (i : Nat) (rest : List Place) (h : sameShape s v = true) (hj : ∀ xs, j ≠ JSON.arr xs)
    (ha : holdsAt p (Place.index i :: rest) v = true) (r : GoVal × Bool)
    (hd : decode v j = some r) : holdsAt p (Place.index i :: rest) r.1 = true := by
  by_cases hs : ∃ z es sp, s = GoVal.slice z es sp
  · obtain ⟨sz, ses, ssp, rfl⟩ := hs
    cases v <;> simp [sameShape] at h
    rename_i z es sp
    have ha' := ha
    rw [holdsAt_index_slice] at ha'
    simp only [Bool.and_eq_true] at ha'
    cases j <;> simp [decode] at hd hj <;> subst hd
    · simp [holdsAt_index_slice, ha'.1]
    · exact ha
    · exact ha
    · exact ha
    · exact ha
  · have hspec := decode_spec j s v h
    rw [hd] at hspec
    exact holdsAt_index_of_not_slice p i rest s r.1 hspec.1 (fun z es sp e => hs ⟨z, es, sp, e⟩)

mutual
theorem decode_holdsAt : ∀ (j : JSON) (s v : GoVal) (p : GoVal → Bool) (path : List Place),
    sameShape s v = true → nodesOf s path j = [] → holdsAt p path v = true →
    ∀ r, decode v j = some r → holdsAt p path r.1 = true
  | j, s, v, p, [], h, hn, ha, r, hd => absurd hn (nodesOf_nil_ne s j)
  | JSON.null, s, v, p, Place.field n :: rest, h, hn, ha, r, hd =>
    decode_holdsAt_field_of_not_obj _ s v p n rest h (fun _ e => by cases e) ha r hd
  | JSON.bool _, s, v, p, Place.field n :: rest, h, hn, ha, r, hd =>
    decode_holdsAt_field_of_not_obj _ s v p n rest h (fun _ e => by cases e) ha r hd
  | JSON.num _, s, v, p, Place.field n :: rest, h, hn, ha, r, hd =>
    decode_holdsAt_field_of_not_obj _ s v p n rest h (fun _ e => by cases e) ha r hd
  | JSON.str _, s, v, p, Place.field n :: rest, h, hn, ha, r, hd =>
    decode_holdsAt_field_of_not_obj _ s v p n rest h (fun _ e => by cases e) ha r hd
  | JSON.arr _, s, v, p, Place.field n :: rest, h, hn, ha, r, hd =>
    decode_holdsAt_field_of_not_obj _ s v p n rest h (fun _ e => by cases e) ha r hd
  | JSON.null, s, v, p, Place.index i :: rest, h, hn, ha, r, hd =>
    decode_holdsAt_index_of_not_arr _ s v p i rest h (fun _ e => by cases e) ha r hd
  | JSON.bool _, s, v, p, Place.index i :: rest, h, hn, ha, r, hd =>
    decode_holdsAt_index_of_not_arr _ s v p i rest h (fun _ e => by cases e) ha r hd
  | JSON.num _, s, v, p, Place.index i :: rest, h, hn, ha, r, hd =>
    decode_holdsAt_index_of_not_arr _ s v p i rest h (fun _ e => by cases e) ha r hd
  | JSON.str _, s, v, p, Place.index i :: rest, h, hn, ha, r, hd =>
    decode_holdsAt_index_of_not_arr _ s v p i rest h (fun _ e => by cases e) ha r hd
  | JSON.obj _, s, v, p, Place.index i :: rest, h, hn, ha, r, hd =>
    decode_holdsAt_index_of_not_arr _ s v p i rest h (fun _ e => by cases e) ha r hd
  | JSON.obj ms, s, v, p, Place.field n :: rest, h, hn, ha, r, hd => by
    by_cases hs : ∃ sfs, s = GoVal.struct sfs
    · obtain ⟨sfs, rfl⟩ := hs
      cases v <;> simp [sameShape] at h
      rename_i fs
      simp only [decode, Option.map_eq_some'] at hd
      obtain ⟨r1, hd1, hr⟩ := hd
      subst hr
      simp only [nodesOf] at hn
      exact decodeMembers_holdsAt ms sfs fs p n rest h hn ha r1 hd1
    · exact decode_holdsAt_field_of_not_struct _ s v p n rest h (fun fs e => hs ⟨fs, e⟩) ha r
        hd
  | JSON.arr xs, s, v, p, Place.index i :: rest, h, hn, ha, r, hd => by
    by_cases hs : ∃ z es sp, s = GoVal.slice z es sp
    · obtain ⟨sz, ses, ssp, rfl⟩ := hs
      cases v <;> simp [sameShape] at h
      rename_i z es sp
      rw [holdsAt_index_slice] at ha
      simp only [Bool.and_eq_true] at ha
      simp only [nodesOf] at hn
      cases xs with
      | nil =>
        simp only [decode, Option.some.injEq] at hd
        subst hd
        simp [holdsAt_index_slice, ha.1]
      | cons x xs =>
        simp only [decode, Option.map_eq_some'] at hd
        obtain ⟨r1, hd1, hr⟩ := hd
        subst hr
        have hpool : (es ++ sp).all (fun e => sameShape sz e) = true := by
          simp only [List.all_append, Bool.and_eq_true, List.all_eq_true]
          exact ⟨h.1.2, h.2⟩
        have ih := decodeElems_holdsAt (x :: xs) sz z (es ++ sp) p i rest h.1.1 hpool hn ha.1
          ha.2 r1 hd1
        simp only [holdsAt_index_slice, Bool.and_eq_true]
        exact ⟨ha.1, ih⟩
    · have hspec := decode_spec (JSON.arr xs) s v h
      rw [hd] at hspec
      exact holdsAt_index_of_not_slice p i rest s r.1 hspec.1
        (fun z es sp e => hs ⟨z, es, sp, e⟩)
theorem decodeMembers_holdsAt : ∀ (ms : List (String × JSON))
    (sfs fs : List (String × String × GoVal)) (p : GoVal → Bool) (n : String)
    (rest : List Place), sameShapeFields sfs fs = true → nodesOfMembers sfs n rest ms = [] →
    holdsAt p rest ((GoVal.struct fs).field n) = true →
    ∀ r, decodeMembers fs ms = some r → holdsAt p rest ((GoVal.struct r.1).field n) = true
  | [], sfs, fs, p, n, rest, h, hn, ha, r, hd => by
    simp [decodeMembers] at hd
    subst hd
    exact ha
  | m :: ms, sfs, fs, p, n, rest, h, hn, ha, r, hd => by
    simp only [decodeMembers, findField_sameShape sfs fs _ h] at hd
    simp only [nodesOfMembers, List.append_eq_nil] at hn
    cases hf : findField sfs (unquote m.1) with
    | none =>
      rw [hf] at hd
      exact decodeMembers_holdsAt ms sfs fs p n rest h hn.2 ha r hd
    | some n1 =>
      rw [hf] at hd
      simp only at hd
      cases hd1 : decode ((GoVal.struct fs).field n1) m.2 with
      | none => simp [hd1] at hd
      | some r1 =>
        rw [hd1] at hd
        simp only at hd
        cases hd2 : decodeMembers (setField fs n1 r1.1) ms with
        | none => simp [hd2] at hd
        | some r2 =>
          rw [hd2] at hd
          simp only [Option.some.injEq] at hd
          subst hd
          have hshape1 := decode_spec m.2 ((GoVal.struct sfs).field n1)
            ((GoVal.struct fs).field n1) (field_sameShape n1 sfs fs h)
          rw [hd1] at hshape1
          have hshape2 : sameShapeFields sfs (setField fs n1 r1.1) = true :=
            setField_sameShape n1 r1.1 sfs fs h hshape1.1
          refine decodeMembers_holdsAt ms sfs (setField fs n1 r1.1) p n rest hshape2 hn.2 ?_
            r2 hd2
          by_cases hn1 : n1 = n
          · subst hn1
            have hmem : ∃ f ∈ fs, f.1 = n1 :=
              findField_mem fs (unquote m.1) n1 (by rw [findField_sameShape sfs fs _ h, hf])
            rw [field_setField_same n1 r1.1 fs hmem]
            have hn0 := hn.1
            rw [hf, if_pos rfl] at hn0
            exact decode_holdsAt m.2 _ _ p rest (field_sameShape n1 sfs fs h) hn0 ha r1 hd1
          · rw [field_setField_other n n1 r1.1 hn1 fs]
            exact ha
theorem decodeElems_holdsAt : ∀ (xs : List JSON) (sz z : GoVal) (pool : List GoVal)
    (p : GoVal → Bool) (i : Nat) (rest : List Place), sameShape sz z = true →
    pool.all (fun e => sameShape sz e) = true → nodesOfElems sz i rest xs = [] →
    holdsAt p rest z = true → holdsAt p rest (pool.getD i z) = true →
    ∀ r, decodeElems z pool xs = some r → holdsAt p rest ((r.1.1 ++ r.1.2).getD i z) = true
  | [], sz, z, pool, p, i, rest, hz, hpool, hn, ha, hap, r, hd => by
    simp [decodeElems] at hd
    subst hd
    exact hap
  | x :: xs, sz, z, pool, p, i, rest, hz, hpool, hn, ha, hap, r, hd => by
    have hhead : sameShape sz (pool.headD z) = true := by
      cases pool with
      | nil => simpa using hz
      | cons q qs =>
        simp only [List.all_cons, Bool.and_eq_true] at hpool
        simpa using hpool.1
    have htail : pool.tail.all (fun e => sameShape sz e) = true := by
      cases pool with
      | nil => simp
      | cons q qs =>
        simp only [List.all_cons, Bool.and_eq_true] at hpool
        simpa using hpool.2
    simp only [decodeElems] at hd
    cases hd1 : decode (pool.headD z) x with
    | none =>
      rw [hd1] at hd
      cases hd
    | some r1 =>
      rw [hd1] at hd
      simp only at hd
      cases hd2 : decodeElems z pool.tail xs with
      | none => simp [hd2] at hd
      | some r2 =>
        rw [hd2] at hd
        simp only [Option.some.injEq] at hd
        subst hd
        cases i with
        | zero =>
          simp only [nodesOfElems] at hn
          have hap0 : holdsAt p rest (pool.headD z) = true := by
            cases pool <;> simpa using hap
          have ih1 := decode_holdsAt x sz (pool.headD z) p rest hhead hn hap0 r1 hd1
          simpa using ih1
        | succ i =>
          simp only [nodesOfElems] at hn
          have hapt : holdsAt p rest (pool.tail.getD i z) = true := by
            cases pool <;> simpa using hap
          have ih2 := decodeElems_holdsAt xs sz z pool.tail p i rest hz htail hn ha hapt r2 hd2
          simpa using ih2
end

/-! ## The publish date of an entry -/

theorem holdsAt_of_allAt (p : GoVal → Bool) :
    ∀ (path : List Place) (v : GoVal),
      allAt p (path.map fun q =>
        match q with
        | Place.field n => Step.field n
        | Place.index _ => Step.elem) v = true → holdsAt p path v = true
  | [], v, h => h
  | Place.field n :: rest, v, h => holdsAt_of_allAt p rest (v.field n) h
  | Place.index i :: rest, v, h => by
    cases v <;> try rfl
    rename_i z es sp
    simp only [List.map_cons, allAt_elem_slice, Bool.and_eq_true, List.all_eq_true] at h
    rw [holdsAt_index_slice, Bool.and_eq_true]
    refine ⟨holdsAt_of_allAt p rest z h.1.1, ?_⟩
    rw [List.getD_eq_getElem?_getD]
    cases hg : (es ++ sp)[i]? with
    | none => exact holdsAt_of_allAt p rest z h.1.1
    | some e =>
      have he : e ∈ es ++ sp := List.getElem?_mem hg
      rcases List.mem_append.mp he with he | he
      · exact holdsAt_of_allAt p rest e (h.1.2 e he)
      · exact holdsAt_of_allAt p rest e (h.2 e he)

theorem adapter_datePlaces_zero (a : Adapter) (ref : EntryRef) :
    holdsAt unsetTime (a.datePlaces ref) a.ABCJSON = true := by
  obtain ⟨k, e⟩ := ref
  cases a <;> cases e
  · exact holdsAt_of_allAt unsetTime _ _
      (adapter_dates_zero Adapter.kohlerReport _ (List.mem_cons_self _ _))
  · exact holdsAt_of_allAt unsetTime _ _
      (adapter_dates_zero Adapter.kohlerReport _
        (List.mem_cons_of_mem _ (List.mem_cons_self _ _)))
  · rfl
  · exact holdsAt_of_allAt unsetTime _ _
      (adapter_dates_zero Adapter.mediaWatch _ (List.mem_cons_self _ _))

theorem adapter_entryAt_unset (a : Adapter) (abcData : GoVal) (ref : EntryRef) (it : Item)
    (h : holdsAt unsetTime (a.datePlaces ref) abcData = true)
    (hit : a.entryAt abcData ref = some it) :
    it ∈ a.candidates abcData ∧ it.PubDate = "Mon, 01 Jan 0001 00:00:00 UTC" := by
  obtain ⟨k, e⟩ := ref
  cases a
  · simp only [Adapter.entryAt] at hit
    cases hc : (Kohler.components abcData)[k]? with
    | none => simp [hc] at hit
    | some component =>
      rw [hc] at hit
      simp only at hit
      by_cases hp : Kohler.producesItems component = true
      · rw [if_pos hp] at hit
        have hmemc : component ∈ Adapter.kohlerReport.components abcData :=
          List.getElem?_mem hc
        cases e with
        | none =>
          simp only [Option.some.injEq] at hit
          subst hit
          have hv : holdsAt unsetTime [Place.field "Component", Place.field "Props",
              Place.field "Video", Place.field "PostDate", Place.field "PublishedDate"]
              component = true :=
            holdsAt_elem unsetTime k _ _ component h hc
          have ht : (component.sel ["Component", "Props", "Video", "PostDate",
              "PublishedDate"]).getTime = Time.zero := of_decide_eq_true hv
          refine ⟨(mem_candidates_iff Adapter.kohlerReport abcData _).mpr
            ⟨component, hmemc, hp, List.mem_cons_self _ _⟩, ?_⟩
          show ((component.sel ["Component", "Props", "Video"]).sel
            ["PostDate", "PublishedDate"]).getTime.FormatRFC1123 = _
          rw [← format_zero, ← ht]
          rfl
        | some i =>
          simp only [Option.map_eq_some'] at hit
          obtain ⟨listItem, hli, rfl⟩ := hit
          have hv : holdsAt unsetTime [Place.field "Component", Place.field "Props",
              Place.field "List", Place.index i, Place.field "Player", Place.field "PostDate",
              Place.field "PublishedDate"] component = true :=
            holdsAt_elem unsetTime k _ _ component h hc
          have hl : holdsAt unsetTime [Place.field "Player", Place.field "PostDate",
              Place.field "PublishedDate"] listItem = true :=
            holdsAt_elem unsetTime i _ _ listItem hv hli
          have ht : (listItem.sel ["Player", "PostDate", "PublishedDate"]).getTime
              = Time.zero := of_decide_eq_true hl
          refine ⟨(mem_candidates_iff Adapter.kohlerReport abcData _).mpr
            ⟨component, hmemc, hp, List.mem_cons_of_mem _
              (List.mem_map.mpr ⟨listItem, List.getElem?_mem hli, rfl⟩)⟩, ?_⟩
          show (listItem.sel ["Player", "PostDate", "PublishedDate"]).getTime.FormatRFC1123 = _
          rw [ht, format_zero]
      · rw [if_neg hp] at hit
        cases hit
  · simp only [Adapter.entryAt] at hit
    cases hc : (MediaWatch.components abcData)[k]? with
    | none => simp [hc] at hit
    | some component =>
      rw [hc] at hit
      simp only at hit
      by_cases hp : MediaWatch.producesItems component = true
      · rw [if_pos hp] at hit
        have hmemc : component ∈ Adapter.mediaWatch.components abcData :=
          List.getElem?_mem hc
        cases e with
        | none => cases hit
        | some i =>
          simp only [Option.map_eq_some'] at hit
          obtain ⟨listItem, hli, rfl⟩ := hit
          have hv : holdsAt unsetTime [Place.field "ComponentProps", Place.field "Items",
              Place.index i, Place.field "CardAttributionPrepared",
              Place.field "PublishedDate"] component = true :=
            holdsAt_elem unsetTime k _ _ component h hc
          have hl : holdsAt unsetTime [Place.field "CardAttributionPrepared",
              Place.field "PublishedDate"] listItem = true :=
            holdsAt_elem unsetTime i _ _ listItem hv hli
          have ht : (listItem.sel ["CardAttributionPrepared", "PublishedDate"]).getTime
              = Time.zero := of_decide_eq_true hl
          refine ⟨(mem_candidates_iff Adapter.mediaWatch abcData _).mpr
            ⟨component, hmemc, hp, List.mem_map.mpr ⟨listItem, List.getElem?_mem hli, rfl⟩⟩,
            ?_⟩
          show (listItem.sel ["CardAttributionPrepared",
            "PublishedDate"]).getTime.FormatRFC1123 = _
          rw [ht, format_zero]
      · rw [if_neg hp] at hit
        cases hit

theorem sameParse_eq (text : String) (j : JSON)
    (h : (match parseJSON text with
      | some k => sameJSON k j
      | none => false) = true) : parseJSON text = some j := by
  cases hp : parseJSON text with
  | none => simp [hp] at h
  | some k =>
    rw [hp] at h
    rw [sameJSON_eq k j h]

/-! # The claims -/

/-- C1. In both adapters, for every page whose embedded payload decodes (the run returns no
error), no two items of the returned `Channel.Items` have the same `GUID`, whatever components
of the payload they come from. -/
theorem items_guid_nodup (a : Adapter) (get : Except String Response)
    (h : (a.FetchAndParseToRSS get).1 = none) :
    ((a.FetchAndParseToRSS get).2.Channel.Items.map Item.GUID).Nodup := by
  obtain ⟨_, _, abcData, _, _, _, _, _, hrss⟩ := adapter_run_ok a get h
  rw [hrss, adapter_buildRSS_items]
  exact firstOccurrences_nodup _

theorem items_guid_nodup_witness :
    (Adapter.kohlerReport.FetchAndParseToRSS Kohler.samplePage).1 = none
      ∧ ((Adapter.kohlerReport.FetchAndParseToRSS Kohler.samplePage).2.Channel.Items.map
          Item.GUID).Nodup :=
  ⟨by decide!, items_guid_nodup Adapter.kohlerReport Kohler.samplePage (by decide!)⟩

/-- C4. In the Kohler Report adapter, for every fetched page: if no script element's text
contains the marker `"components"` (quotes included), `FetchAndParseToRSS` fails with the error
`no JSON data found` and returns the empty `RSS` value; and if at least one script element
contains the marker, that error is not returned. -/
theorem kohler_not_found_of_no_marker (status : String) (doc : List ScriptElement) :
    ((∀ s ∈ doc, strings.Contains s.text "\"components\"" = false) →
        Kohler.FetchAndParseToRSS (fetched status doc) = (some Error.noJSONData, {}))
      ∧ ((∃ s ∈ doc, strings.Contains s.text "\"components\"" = true) →
        (Kohler.FetchAndParseToRSS (fetched status doc)).1 ≠ some Error.noJSONData) := by
  constructor
  · intro h
    apply (adapter_not_found_iff Adapter.kohlerReport status doc).mpr
    exact lastText_of_none _ doc "" h
  · intro h hnf
    obtain ⟨pre, s, post, hdoc, hs, hpost⟩ := exists_last _ doc h
    have hloc : Kohler.locate doc = s.text := by
      rw [kohler_locate_eq, hdoc]
      exact lastText_of_last _ pre post s "" hs hpost
    have heq := adapter_fetched_eq Adapter.kohlerReport status doc
    have hne : Adapter.kohlerReport.locate doc ≠ "" := by
      show Kohler.locate doc ≠ ""
      rw [hloc]
      exact contains_ne_empty s hs
    rw [if_neg hne] at heq
    have heq' : (Kohler.FetchAndParseToRSS (fetched status doc)).1
        = (match Unmarshal (Adapter.kohlerReport.locate doc) Adapter.kohlerReport.ABCJSON with
          | Except.error err => (some (Error.parsingJSON err), ({} : RSS))
          | Except.ok abcData => (none, Adapter.kohlerReport.buildRSS abcData)).1 :=
      congrArg Prod.fst heq
    rw [heq'] at hnf
    split at hnf <;> simp at hnf

theorem kohler_not_found_of_no_marker_witness :
    ((∀ s ∈ Kohler.unmarkedDoc, strings.Contains s.text "\"components\"" = false)
        ∧ Kohler.FetchAndParseToRSS (fetched "200 OK" Kohler.unmarkedDoc)
          = (some Error.noJSONData, {}))
      ∧ ((∃ s ∈ Kohler.twoMarkedDoc, strings.Contains s.text "\"components\"" = true)
        ∧ (Kohler.FetchAndParseToRSS (fetched "200 OK" Kohler.twoMarkedDoc)).1
          ≠ some Error.noJSONData) :=
  ⟨⟨by decide!,
      (kohler_not_found_of_no_marker "200 OK" Kohler.unmarkedDoc).1 (by decide!)⟩,
    ⟨by decide!,
      (kohler_not_found_of_no_marker "200 OK" Kohler.twoMarkedDoc).2 (by decide!)⟩⟩

/-- C5. In the Kohler Report adapter, for every list of script elements in document order of
which at least one contains the marker: the payload text is the text of the last element that
contains the marker, however many earlier elements contain it, and it is this text that the run
decodes. -/
theorem kohler_payload_is_last_marked (status : String) (doc : List ScriptElement)
    (h : ∃ s ∈ doc, strings.Contains s.text "\"components\"" = true) :
    ∃ pre s post, doc = pre ++ s :: post
      ∧ strings.Contains s.text "\"components\"" = true
      ∧ (∀ t ∈ post, strings.Contains t.text "\"components\"" = false)
      ∧ Kohler.locate doc = s.text
      ∧ Kohler.FetchAndParseToRSS (fetched status doc)
        = match Unmarshal s.text Kohler.ABCJSON with
          | Except.error err => (some (Error.parsingJSON err), {})
          | Except.ok abcData => (none, Kohler.buildRSS abcData) := by
  obtain ⟨pre, s, post, hdoc, hs, hpost⟩ := exists_last _ doc h
  have hloc : Kohler.locate doc = s.text := by
    rw [kohler_locate_eq, hdoc]
    exact lastText_of_last _ pre post s "" hs hpost
  refine ⟨pre, s, post, hdoc, hs, hpost, hloc, ?_⟩
  have heq := adapter_fetched_eq Adapter.kohlerReport status doc
  have hne : Adapter.kohlerReport.locate doc ≠ "" := by
    show Kohler.locate doc ≠ ""
    rw [hloc]
    exact contains_ne_empty s hs
  rw [if_neg hne] at heq
  have hloc' : Adapter.kohlerReport.locate doc = s.text := hloc
  rw [hloc'] at heq
  exact heq

theorem kohler_payload_is_last_marked_witness :
    (∃ s ∈ Kohler.twoMarkedDoc, strings.Contains s.text "\"components\"" = true)
      ∧ ∃ pre s post, Kohler.twoMarkedDoc = pre ++ s :: post
        ∧ strings.Contains s.text "\"components\"" = true
        ∧ (∀ t ∈ post, strings.Contains t.text "\"components\"" = false)
        ∧ Kohler.locate Kohler.twoMarkedDoc = s.text
        ∧ Kohler.FetchAndParseToRSS (fetched "200 OK" Kohler.twoMarkedDoc)
          = match Unmarshal s.text Kohler.ABCJSON with
            | Except.error err => (some (Error.parsingJSON err), {})
            | Except.ok abcData => (none, Kohler.buildRSS abcData) :=
  ⟨by decide!, kohler_payload_is_last_marked "200 OK" Kohler.twoMarkedDoc (by decide!)⟩

/-- C6, as stated, fails: a page whose `script` element of identifier `__NEXT_DATA__` is
present but has no text is reported as `no JSON data found`, the locator telling an empty text
from a missing element no better than the empty `jsonData` it starts from. -/
theorem mediaWatch_not_found_with_element_present :
    (∃ s ∈ MediaWatch.emptyScriptDoc, s.id = some "__NEXT_DATA__")
      ∧ MediaWatch.FetchAndParseToRSS (fetched "200 OK" MediaWatch.emptyScriptDoc)
        = (some Error.noJSONData, {}) := by
  decide!

/-- C6, amended. In the Media Watch adapter, for every fetched page: the payload text is the
text of the last `script` element with identifier `__NEXT_DATA__`, and the run fails with
`no JSON data found` and the empty `RSS` value exactly when the page has no such element or the
last such element has an empty text. -/
theorem mediaWatch_payload_is_last_with_id (status : String) (doc : List ScriptElement) :
    (∀ pre s post, doc = pre ++ s :: post → s.id = some "__NEXT_DATA__" →
        (∀ t ∈ post, t.id ≠ some "__NEXT_DATA__") → MediaWatch.locate doc = s.text)
      ∧ (MediaWatch.FetchAndParseToRSS (fetched status doc) = (some Error.noJSONData, {})
        ↔ (∀ s ∈ doc, s.id ≠ some "__NEXT_DATA__")
          ∨ ∃ pre s post, doc = pre ++ s :: post ∧ s.id = some "__NEXT_DATA__"
            ∧ (∀ t ∈ post, t.id ≠ some "__NEXT_DATA__") ∧ s.text = "") := by
  have hlast : ∀ pre s post, doc = pre ++ s :: post → s.id = some "__NEXT_DATA__" →
      (∀ t ∈ post, t.id ≠ some "__NEXT_DATA__") → MediaWatch.locate doc = s.text := by
    intro pre s post hdoc hs hpost
    rw [mediaWatch_locate_eq, hdoc]
    apply lastText_of_last
    · simpa using hs
    · intro t ht
      simpa using hpost t ht
  refine ⟨hlast, ?_⟩
  refine Iff.trans (adapter_not_found_iff Adapter.mediaWatch status doc) ?_
  show MediaWatch.locate doc = "" ↔ _
  constructor
  · intro hloc
    by_cases hex : ∃ s ∈ doc, decide (s.id = some "__NEXT_DATA__") = true
    · right
      obtain ⟨pre, s, post, hdoc, hs, hpost⟩ := exists_last _ doc hex
      have hs' : s.id = some "__NEXT_DATA__" := by simpa using hs
      have hpost' : ∀ t ∈ post, t.id ≠ some "__NEXT_DATA__" := by
        intro t ht
        simpa using hpost t ht
      exact ⟨pre, s, post, hdoc, hs', hpost', by rw [← hlast pre s post hdoc hs' hpost', hloc]⟩
    · left
      intro s hs hid
      exact hex ⟨s, hs, by simpa using hid⟩
  · rintro (hnone | ⟨pre, s, post, hdoc, hs, hpost, htext⟩)
    · rw [mediaWatch_locate_eq]
      apply lastText_of_none
      intro s hs
      simpa using hnone s hs
    · rw [hlast pre s post hdoc hs hpost, htext]

theorem mediaWatch_payload_is_last_with_id_witness :
    MediaWatch.locate MediaWatch.twoScriptsDoc = MediaWatch.samplePayload
      ∧ MediaWatch.FetchAndParseToRSS (fetched "200 OK" MediaWatch.emptyScriptDoc)
        = (some Error.noJSONData, {}) :=
  ⟨(mediaWatch_payload_is_last_with_id "200 OK" MediaWatch.twoScriptsDoc).1
      [{ id := some "__NEXT_DATA__", text := "\x7b\x7d" },
        { id := none, text := "window.dataLayer = []" }]
      { id := some "__NEXT_DATA__", text := MediaWatch.samplePayload } [] rfl rfl
      (by simp),
    (mediaWatch_payload_is_last_with_id "200 OK" MediaWatch.emptyScriptDoc).2.mpr
      (Or.inr ⟨[], { id := some "__NEXT_DATA__", text := "" }, [], rfl, rfl, by simp, rfl⟩)⟩

/-- C7, as stated, fails: texts that are valid JSON make `json.Unmarshal` fail when a value
does not fit the field of `ABCJSON` it is decoded into, here a string in the place of the
object `pageProps` and an array in the place of the object `props`. -/
theorem valid_json_malformed_payload :
    ((parseJSON (Kohler.locate Kohler.wrongTypeDoc)).isSome = true
        ∧ Kohler.FetchAndParseToRSS (fetched "200 OK" Kohler.wrongTypeDoc)
          = (some (Error.parsingJSON UnmarshalError.UnmarshalTypeError), {}))
      ∧ ((parseJSON (MediaWatch.locate MediaWatch.wrongTypeDoc)).isSome = true
        ∧ MediaWatch.FetchAndParseToRSS (fetched "200 OK" MediaWatch.wrongTypeDoc)
          = (some (Error.parsingJSON UnmarshalError.UnmarshalTypeError), {})) := by
  decide!

/-- C7, amended. In both adapters, for every fetched page: the run fails with the
malformed-payload error (`parsing JSON data: ...`) exactly when a payload text is located that
is not valid JSON or holds a value that does not fit the Go type of the field of `ABCJSON` it
is decoded into; a located payload that is valid JSON and fits `ABCJSON` never causes this
failure. -/
theorem malformed_iff_invalid_or_unfit (a : Adapter) (status : String)
    (doc : List ScriptElement) :
    (∃ e, (a.FetchAndParseToRSS (fetched status doc)).1 = some (Error.parsingJSON e))
      ↔ a.locate doc ≠ ""
        ∧ ¬ ∃ j, parseJSON (a.locate doc) = some j ∧ fits a.ABCJSON j = true := by
  rw [adapter_fetched_eq, ← unmarshal_error_iff]
  by_cases hloc : a.locate doc = ""
  · simp [hloc]
  · simp only [if_neg hloc, ne_eq, hloc, not_false_eq_true, true_and]
    cases hu : Unmarshal (a.locate doc) a.ABCJSON with
    | error e => simp
    | ok v => simp

theorem malformed_iff_invalid_or_unfit_witness :
    (¬ ∃ e, (Adapter.mediaWatch.FetchAndParseToRSS (fetched "200 OK" MediaWatch.minimalDoc)).1
        = some (Error.parsingJSON e))
      ∧ ∃ e, (Adapter.mediaWatch.FetchAndParseToRSS
          (fetched "200 OK" MediaWatch.wrongTypeDoc)).1 = some (Error.parsingJSON e) :=
  ⟨fun h =>
      ((malformed_iff_invalid_or_unfit Adapter.mediaWatch "200 OK" MediaWatch.minimalDoc).mp
        h).2
        ⟨JSON.obj [("props", JSON.obj []), ("page", JSON.str "/mediawatch/episodes")],
          rfl, by decide!⟩,
    (malformed_iff_invalid_or_unfit Adapter.mediaWatch "200 OK" MediaWatch.wrongTypeDoc).mpr
      ⟨by decide!, fun ⟨j, hj, hf⟩ => by
        have hj' : parseJSON (Adapter.mediaWatch.locate MediaWatch.wrongTypeDoc)
            = some (JSON.obj [("props", JSON.arr [])]) := rfl
        rw [hj'] at hj
        cases hj
        revert hf
        decide!⟩⟩

/-- C8, as stated, fails: a channel title that is a number, and a publish date that is a string
but no timestamp, each in a valid JSON payload, do not read as missing values: `json.Unmarshal`
returns an error and the whole run fails. -/
theorem wrong_typed_node_fails_run :
    ((parseJSON (Kohler.locate Kohler.numberTitleDoc)).isSome = true
        ∧ Kohler.FetchAndParseToRSS (fetched "200 OK" Kohler.numberTitleDoc)
          = (some (Error.parsingJSON UnmarshalError.UnmarshalTypeError), {}))
      ∧ ((parseJSON (MediaWatch.locate MediaWatch.badDateDoc)).isSome = true
        ∧ MediaWatch.FetchAndParseToRSS (fetched "200 OK" MediaWatch.badDateDoc)
          = (some (Error.parsingJSON UnmarshalError.TimeError), {})) := by
  decide!

/-- C8, amended. In both adapters, for every valid JSON payload in which a node decoded into a
part of `ABCJSON` (the channel metadata fields and the per-item fields the pipeline reads among
them) is present, not `null`, and of another JSON kind than the Go type of that part: the read
yields no missing value; `json.Unmarshal` returns an error and the run fails with the
malformed-payload error and the empty `RSS` value. -/
theorem wrong_kind_node_fails_run (a : Adapter) (status : String) (doc : List ScriptElement)
    (j : JSON) (path : List Step) (t : GoVal) (y : JSON)
    (hj : parseJSON (a.locate doc) = some j) (hnode : (t, y) ∈ nodesAt a.ABCJSON path j)
    (hwrong : wrongKind t y = true) :
    ∃ e, a.FetchAndParseToRSS (fetched status doc) = (some (Error.parsingJSON e), {}) := by
  have hloc : a.locate doc ≠ "" := by
    intro he
    rw [he, parseJSON_empty] at hj
    cases hj
  have hunfit : ¬ ∃ j', parseJSON (a.locate doc) = some j' ∧ fits a.ABCJSON j' = true := by
    rintro ⟨j', hj', hf⟩
    rw [hj] at hj'
    cases hj'
    have := fits_nodesAt j a.ABCJSON path (t, y) hf hnode
    rw [fits_of_wrongKind t y hwrong] at this
    cases this
  obtain ⟨e, he⟩ := (unmarshal_error_iff a (a.locate doc)).mpr hunfit
  refine ⟨e, ?_⟩
  rw [adapter_fetched_eq, if_neg hloc, he]

theorem wrong_kind_node_fails_run_witness :
    ∃ e, Adapter.kohlerReport.FetchAndParseToRSS (fetched "200 OK" Kohler.numberTitleDoc)
      = (some (Error.parsingJSON e), {}) :=
  wrong_kind_node_fails_run Adapter.kohlerReport "200 OK" Kohler.numberTitleDoc
    (JSON.obj [("props", JSON.obj [("pageProps", JSON.obj [("channelpage",
      JSON.obj [("headTagsPagePrepared", JSON.obj [("title", JSON.num "5")]),
        ("components", JSON.arr [])])])])])
    [Step.field "Props", Step.field "PageProps", Step.field "Channelpage",
      Step.field "HeadTagsPagePrepared", Step.field "Title"]
    (GoVal.str "") (JSON.num "5") rfl (List.mem_singleton.mpr rfl) rfl

/-- C9. In both adapters, for every decodable payload in which the metadata path of the title,
link or description is absent (no node of the payload is decoded into the field): the run
returns no error, the corresponding `Channel` field is the empty string, and the other fields
are unaffected, every header field holding the last string of the payload at its own path and
`Items` the first occurrences of the candidate entries. -/
theorem header_empty_of_absent_path (a : Adapter) (status : String)
    (doc : List ScriptElement) (j : JSON) (f : HeaderField)
    (hj : parseJSON (a.locate doc) = some j) (hdec : a.decodes (a.locate doc) = true)
    (habsent : a.headerNodes f j = []) :
    (a.FetchAndParseToRSS (fetched status doc)).1 = none
      ∧ (a.FetchAndParseToRSS (fetched status doc)).2.Channel.header f = ""
      ∧ (∀ f', (a.FetchAndParseToRSS (fetched status doc)).2.Channel.header f'
          = lastString "" (a.headerNodes f' j))
      ∧ (a.FetchAndParseToRSS (fetched status doc)).2.Channel.Items
          = firstOccurrences (a.entries (fetched status doc)) := by
  have hloc : a.locate doc ≠ "" := by
    intro he
    rw [he, parseJSON_empty] at hj
    cases hj
  unfold Adapter.decodes at hdec
  cases hu : Unmarshal (a.locate doc) a.ABCJSON with
  | error e => simp [hu] at hdec
  | ok abcData =>
    obtain ⟨j', hj', _, hd⟩ := unmarshal_ok a (a.locate doc) abcData hu
    rw [hj] at hj'
    cases hj'
    have hrun : a.FetchAndParseToRSS (fetched status doc) = (none, a.buildRSS abcData) := by
      rw [adapter_fetched_eq, if_neg hloc, hu]
    have hhead : ∀ f', (a.buildRSS abcData).Channel.header f'
        = lastString "" (a.headerNodes f' j) := by
      intro f'
      rw [adapter_header_eq]
      have := decode_sel j a.ABCJSON a.ABCJSON (a.headerSel f') (sameShape_ABCJSON a)
        (abcData, false) hd
      rw [adapter_header_zero] at this
      exact this
    have hnone : (a.FetchAndParseToRSS (fetched status doc)).1 = none := by rw [hrun]
    refine ⟨hnone, ?_, ?_, adapter_items_eq a _ hnone⟩
    · rw [hrun, hhead f, habsent]
      rfl
    · intro f'
      rw [hrun]
      exact hhead f'

theorem header_empty_of_absent_path_witness :
    (Adapter.mediaWatch.FetchAndParseToRSS (fetched "200 OK" MediaWatch.linkOnlyDoc)).1 = none
      ∧ (Adapter.mediaWatch.FetchAndParseToRSS
          (fetched "200 OK" MediaWatch.linkOnlyDoc)).2.Channel.header HeaderField.title = "" :=
  have h := header_empty_of_absent_path Adapter.mediaWatch "200 OK" MediaWatch.linkOnlyDoc
    (JSON.obj [("props", JSON.obj [("pageProps", JSON.obj [("headTagsSocialPrepared",
      JSON.obj [("canonicalURL", JSON.str "https://www.abc.net.au/mediawatch/episodes")])])])])
    HeaderField.title rfl (by decide!) rfl
  ⟨h.1, h.2.1⟩

/-- C11, as stated, fails: an entry without a publish date is emitted with the zero time as
`PubDate`, not with the empty string, in both adapters; and a publish date that is a string but
no timestamp fails the whole run, so that no item is emitted. -/
theorem absent_timestamp_prints_zero_time :
    (Kohler.FetchAndParseToRSS Kohler.samplePage).2.Channel.Items.map
        (fun it => (it.Title, it.PubDate))
      = [("Rates on hold", "Tue, 05 Mar 2024 19:30:00 +1100"),
          ("Shares slide", "Mon, 04 Mar 2024 08:30:00 UTC"),
          ("Dollar up", "Mon, 01 Jan 0001 00:00:00 UTC")]
    ∧ (MediaWatch.FetchAndParseToRSS (fetched "200 OK" MediaWatch.undatedDoc)).2.Channel.Items.map
        (fun it => (it.Title, it.PubDate))
      = [("Episode 1", "Mon, 01 Jan 0001 00:00:00 UTC"),
          ("Episode 2", "Mon, 01 Jan 0001 00:00:00 UTC")]
    ∧ MediaWatch.FetchAndParseToRSS (fetched "200 OK" MediaWatch.badDateDoc)
      = (some (Error.parsingJSON UnmarshalError.TimeError), {}) := by
  decide!

/-- C11, amended. In both adapters an entry whose publish date is absent from the payload is
still a candidate entry, emitted as any other, and its `PubDate` is the zero time in the layout
RFC1123, `Mon, 01 Jan 0001 00:00:00 UTC`, not the empty string: for every decodable payload and
every entry of it, referenced by the index of its component and its index in the list or items
of the component, such that no node of the payload is decoded into the publish date of that
entry, the run returns no error, `Items` is the first occurrences of all candidate entries, the
item of the entry is among the candidates, emitted if no earlier candidate bears its guid, and
has that `PubDate`. A publish date that is a string but not parseable as a timestamp is no
item-level matter: for every valid JSON payload that holds one, the run fails with the
malformed-payload error and the empty `RSS` value. And no item of any run has an empty
`PubDate`, every `PubDate` being a timestamp in the layout RFC1123. -/
theorem pubDate_of_absent_or_unparseable_timestamp (a : Adapter) (status : String)
    (doc : List ScriptElement) (j : JSON) (hj : parseJSON (a.locate doc) = some j) :
    (a.decodes (a.locate doc) = true → ∀ (ref : EntryRef) (it : Item),
      nodesOf a.ABCJSON (a.datePlaces ref) j = [] →
      a.entryAt (a.payload (fetched status doc)) ref = some it →
      (a.FetchAndParseToRSS (fetched status doc)).1 = none
        ∧ (a.FetchAndParseToRSS (fetched status doc)).2.Channel.Items
            = firstOccurrences (a.entries (fetched status doc))
        ∧ it ∈ a.entries (fetched status doc)
        ∧ (∀ pre post, a.entries (fetched status doc) = pre ++ it :: post →
            it.GUID ∉ pre.map Item.GUID →
            it ∈ (a.FetchAndParseToRSS (fetched status doc)).2.Channel.Items)
        ∧ it.PubDate = "Mon, 01 Jan 0001 00:00:00 UTC")
    ∧ (∀ path ∈ a.datePaths, ∀ raw : String,
        (GoVal.time Time.zero, JSON.str raw) ∈ nodesAt a.ABCJSON path j →
        parseRFC3339 raw = none →
        ∃ e, a.FetchAndParseToRSS (fetched status doc) = (some (Error.parsingJSON e), {}))
    ∧ (∀ it ∈ (a.FetchAndParseToRSS (fetched status doc)).2.Channel.Items,
        it.PubDate ≠ "") := by
  have hloc : a.locate doc ≠ "" := by
    intro he
    rw [he, parseJSON_empty] at hj
    cases hj
  refine ⟨?_, ?_, fun it hit => item_pubDate_ne_empty a _ it hit⟩
  · intro hdec ref it habsent hentry
    obtain ⟨abcData, hd, hrun, hpay, hent⟩ := adapter_run_of_decodes a status doc j hj hdec
    have hnone : (a.FetchAndParseToRSS (fetched status doc)).1 = none := by rw [hrun]
    have hitems := adapter_items_eq a _ hnone
    rw [hpay] at hentry
    have hhold : holdsAt unsetTime (a.datePlaces ref) abcData = true :=
      decode_holdsAt j a.ABCJSON a.ABCJSON unsetTime (a.datePlaces ref) (sameShape_ABCJSON a)
        habsent (adapter_datePlaces_zero a ref) (abcData, false) hd
    have hres := adapter_entryAt_unset a abcData ref it hhold hentry
    refine ⟨hnone, hitems, ?_, ?_, hres.2⟩
    · rw [hent]
      exact hres.1
    · intro pre post hsplit hfirst
      rw [hitems, hsplit]
      exact mem_firstOccurrences_of_first it post pre hfirst
  · intro path _ raw hnode hbad
    have hunfit : ¬ ∃ j', parseJSON (a.locate doc) = some j' ∧ fits a.ABCJSON j' = true := by
      rintro ⟨j', hj', hf⟩
      rw [hj] at hj'
      cases hj'
      have := fits_nodesAt j a.ABCJSON path _ hf hnode
      simp [fits, hbad] at this
    obtain ⟨e, he⟩ := (unmarshal_error_iff a (a.locate doc)).mpr hunfit
    refine ⟨e, ?_⟩
    rw [adapter_fetched_eq, if_neg hloc, he]

theorem pubDate_of_absent_or_unparseable_timestamp_witness :
    ((Adapter.kohlerReport.FetchAndParseToRSS Kohler.samplePage).1 = none
      ∧ Adapter.kohlerReport.entryAt (Adapter.kohlerReport.payload Kohler.samplePage)
          { component := 2, entry := some 0 }
        = some { Title := "Dollar up", Link := "https://abc/3", Description := "S3",
                 PubDate := "Mon, 01 Jan 0001 00:00:00 UTC", GUID := "https://abc/3",
                 Thumbnail := "img2" }
      ∧ ({ Title := "Dollar up", Link := "https://abc/3", Description := "S3",
           PubDate := "Mon, 01 Jan 0001 00:00:00 UTC", GUID := "https://abc/3",
           Thumbnail := "img2" } : Item) ∈ Adapter.kohlerReport.entries Kohler.samplePage)
    ∧ ∃ e, Adapter.mediaWatch.FetchAndParseToRSS (fetched "200 OK" MediaWatch.badDateDoc)
        = (some (Error.parsingJSON e), {}) :=
  have hk := (pubDate_of_absent_or_unparseable_timestamp Adapter.kohlerReport "200 OK"
      [{ id := none, text := "window.dataLayer = []" },
       { id := some "__NEXT_DATA__", text := Kohler.samplePayload }]
      (JSON.obj [("props", JSON.obj [("pageProps", JSON.obj [("channelpage",
        JSON.obj [("headTagsPagePrepared", JSON.obj [("title", JSON.str "The Kohler Report"),
        ("canonicalURL", JSON.str "https://www.abc.net.au/news/programs/kohler-report"),
        ("description", JSON.str "Finance news")]), ("components",
        JSON.arr [JSON.obj [("documentId", JSON.str "1"), ("component", JSON.obj [("name",
        JSON.str "VideoPlayer"), ("props", JSON.obj [("video", JSON.obj [("title",
        JSON.str "Rates on hold"), ("config", JSON.obj [("image", JSON.str "img1")]), ("share",
        JSON.obj [("shareLink", JSON.str "https://abc/1"), ("synopsis", JSON.str "S1")]),
        ("postDate", JSON.obj [("publishedDate", JSON.str "2024-03-05T19:30:00+11:00")])]),
        ("list", JSON.arr [JSON.obj [("card", JSON.obj [("title", JSON.obj [("children",
        JSON.str "Rates again")]), ("image", JSON.obj [("imgSrc", JSON.str "card1")])]),
        ("player", JSON.obj [("config", JSON.obj [("image", JSON.str "own1")]), ("share",
        JSON.obj [("shareLink", JSON.str "https://abc/1"), ("synopsis", JSON.str "S1b")]),
        ("postDate", JSON.obj [("publishedDate", JSON.str "2024-03-06T19:30:00+11:00")])])],
        JSON.obj [("card", JSON.obj [("title", JSON.obj [("children",
        JSON.str "Shares slide")])]), ("player", JSON.obj [("config", JSON.obj [("image",
        JSON.str "own2")]), ("share", JSON.obj [("shareLink", JSON.str "https://abc/2"),
        ("synopsis", JSON.str "S2")]), ("postDate", JSON.obj [("publishedDate",
        JSON.str "2024-03-04T08:30:00Z")])])]])])])], JSON.obj [("documentId", JSON.str "1"),
        ("component", JSON.obj [("name", JSON.str "Teaser"), ("props", JSON.obj [("video",
        JSON.obj [("title", JSON.str "Ignored"), ("share", JSON.obj [("shareLink",
        JSON.str "https://abc/9"), ("synopsis", JSON.str "S9")])])])])],
        JSON.obj [("documentId", JSON.str "1"), ("component", JSON.obj [("name",
        JSON.str "VideoPlayer"), ("props", JSON.obj [("video", JSON.obj [("title",
        JSON.str "Shares slide, repeated"), ("config", JSON.obj [("image", JSON.str "img2")]),
        ("share", JSON.obj [("shareLink", JSON.str "https://abc/2"), ("synopsis",
        JSON.str "S2b")])]), ("list", JSON.arr [JSON.obj [("card", JSON.obj [("title",
        JSON.obj [("children", JSON.str "Dollar up")])]), ("player", JSON.obj [("share",
        JSON.obj [("shareLink", JSON.str "https://abc/3"), ("synopsis",
        JSON.str "S3")])])]])])])]])])])]), ("page", JSON.str "/news/[...channel]")])
      (sameParse_eq _ _ (by decide!))).1 (by decide!) { component := 2, entry := some 0 }
      { Title := "Dollar up", Link := "https://abc/3", Description := "S3",
        PubDate := "Mon, 01 Jan 0001 00:00:00 UTC", GUID := "https://abc/3",
        Thumbnail := "img2" }
      (List.isEmpty_iff.mp (by decide!)) (by decide!)
  ⟨⟨hk.1, by decide!, hk.2.2.1⟩,
    (pubDate_of_absent_or_unparseable_timestamp Adapter.mediaWatch "200 OK"
      MediaWatch.badDateDoc
      (JSON.obj [("props", JSON.obj [("pageProps", JSON.obj [("data",
        JSON.obj [("componentsContent", JSON.arr [JSON.obj [("component",
        JSON.str "EpisodeCollection"), ("componentProps", JSON.obj [("items",
        JSON.arr [JSON.obj [("articleLink", JSON.str "/mediawatch/episodes/ep01"),
        ("cardAttributionPrepared", JSON.obj [("publishedDate", JSON.str "5 February 2024")]),
        ("cardTitle", JSON.str "Episode 1")]])])]])])])])])
      rfl).2.1
      [Step.field "Props", Step.field "PageProps", Step.field "Data",
        Step.field "ComponentsContent", Step.elem, Step.field "ComponentProps",
        Step.field "Items", Step.elem, Step.field "CardAttributionPrepared",
        Step.field "PublishedDate"]
      (List.mem_singleton.mpr rfl) "5 February 2024" (List.mem_singleton.mpr rfl) (by decide!)⟩

/-- C12. In both adapters every fatal condition returns its error with the empty `RSS` value:
a fetch error, a status other than 200, a markup parse error, no payload found, and a payload
`json.Unmarshal` rejects. Whenever an error is returned the `RSS` value is the empty one, with
no version, no channel metadata and no items; and whenever the error is nil the result is the
feed built from the whole decoded payload. -/
theorem fatal_condition_returns_empty_feed (a : Adapter) (get : Except String Response) :
    (∀ err, get = Except.error err →
        a.FetchAndParseToRSS get = (some (Error.fetching err), {}))
    ∧ (∀ resp, get = Except.ok resp → resp.StatusCode ≠ StatusOK →
        a.FetchAndParseToRSS get = (some (Error.statusCode resp.Status), {}))
    ∧ (∀ resp err, get = Except.ok resp → resp.StatusCode = StatusOK →
        resp.Doc = Except.error err →
        a.FetchAndParseToRSS get = (some (Error.parsingNews err), {}))
    ∧ (∀ resp doc, get = Except.ok resp → resp.StatusCode = StatusOK →
        resp.Doc = Except.ok doc → a.locate doc = "" →
        a.FetchAndParseToRSS get = (some Error.noJSONData, {}))
    ∧ (∀ resp doc err, get = Except.ok resp → resp.StatusCode = StatusOK →
        resp.Doc = Except.ok doc → a.locate doc ≠ "" →
        Unmarshal (a.locate doc) a.ABCJSON = Except.error err →
        a.FetchAndParseToRSS get = (some (Error.parsingJSON err), {}))
    ∧ ((a.FetchAndParseToRSS get).1 ≠ none →
        (a.FetchAndParseToRSS get).2.Version = ""
          ∧ (a.FetchAndParseToRSS get).2.Channel
            = { Title := "", Link := "", Description := "", Items := [] })
    ∧ ((a.FetchAndParseToRSS get).1 = none →
        (a.FetchAndParseToRSS get).2 = a.buildRSS (a.payload get)
          ∧ (a.FetchAndParseToRSS get).2.Version = "2.0") := by
  refine ⟨?_, ?_, ?_, ?_, ?_, ?_, ?_⟩
  · rintro err rfl
    rw [adapter_FetchAndParseToRSS_eq]
  · rintro resp rfl hs
    rw [adapter_FetchAndParseToRSS_eq]
    simp only [if_pos hs]
  · rintro resp err rfl hs hdoc
    rw [adapter_FetchAndParseToRSS_eq]
    simp only [hs, ne_eq, not_true_eq_false, if_false, hdoc]
  · rintro resp doc rfl hs hdoc hloc
    rw [adapter_FetchAndParseToRSS_eq]
    simp only [hs, ne_eq, not_true_eq_false, if_false, hdoc, hloc, if_true]
  · rintro resp doc err rfl hs hdoc hloc hu
    rw [adapter_FetchAndParseToRSS_eq]
    simp only [hs, ne_eq, not_true_eq_false, if_false, hdoc, hloc, hu]
  · intro herr
    rw [adapter_FetchAndParseToRSS_eq] at herr ⊢
    cases get with
    | error err => exact ⟨rfl, rfl⟩
    | ok resp =>
      simp only at herr ⊢
      by_cases hs : resp.StatusCode ≠ StatusOK
      · rw [if_pos hs]
        exact ⟨rfl, rfl⟩
      · rw [if_neg hs] at herr ⊢
        cases hdoc : resp.Doc with
        | error err => exact ⟨rfl, rfl⟩
        | ok doc =>
          rw [hdoc] at herr
          simp only at herr ⊢
          by_cases hloc : a.locate doc = ""
          · rw [if_pos hloc]
            exact ⟨rfl, rfl⟩
          · rw [if_neg hloc] at herr ⊢
            cases hu : Unmarshal (a.locate doc) a.ABCJSON with
            | error err => exact ⟨rfl, rfl⟩
            | ok abcData =>
              rw [hu] at herr
              exact absurd rfl herr
  · intro hok
    have hp := (adapter_payload_eq a get hok).1
    refine ⟨hp, ?_⟩
    rw [hp]
    cases a <;> rfl

theorem fatal_condition_returns_empty_feed_witness :
    (Adapter.kohlerReport.FetchAndParseToRSS (Except.error "timeout")
        = (some (Error.fetching "timeout"), {})
      ∧ Adapter.kohlerReport.FetchAndParseToRSS
          (Except.ok { Status := "404 Not Found", StatusCode := 404, Doc := Except.ok [] })
        = (some (Error.statusCode "404 Not Found"), {})
      ∧ Adapter.mediaWatch.FetchAndParseToRSS
          (Except.ok { Status := "200 OK", StatusCode := 200, Doc := Except.error "EOF" })
        = (some (Error.parsingNews "EOF"), {}))
    ∧ (Adapter.kohlerReport.FetchAndParseToRSS (fetched "200 OK" Kohler.unmarkedDoc)
        = (some Error.noJSONData, {})
      ∧ Adapter.mediaWatch.FetchAndParseToRSS (fetched "200 OK" MediaWatch.wrongTypeDoc)
        = (some (Error.parsingJSON UnmarshalError.UnmarshalTypeError), {}))
    ∧ ((Adapter.mediaWatch.FetchAndParseToRSS (fetched "200 OK" MediaWatch.badDateDoc)).2.Version
          = ""
      ∧ (Adapter.mediaWatch.FetchAndParseToRSS (fetched "200 OK" MediaWatch.badDateDoc)).2.Channel
          = { Title := "", Link := "", Description := "", Items := [] })
    ∧ (Adapter.kohlerReport.FetchAndParseToRSS Kohler.samplePage).2
        = Adapter.kohlerReport.buildRSS (Adapter.kohlerReport.payload Kohler.samplePage)
    ∧ (Adapter.kohlerReport.FetchAndParseToRSS Kohler.samplePage).2.Version = "2.0" :=
  ⟨⟨(fatal_condition_returns_empty_feed Adapter.kohlerReport (Except.error "timeout")).1
        "timeout" rfl,
      (fatal_condition_returns_empty_feed Adapter.kohlerReport
        (Except.ok { Status := "404 Not Found", StatusCode := 404, Doc := Except.ok [] })).2.1
        _ rfl (by decide),
      (fatal_condition_returns_empty_feed Adapter.mediaWatch
        (Except.ok { Status := "200 OK", StatusCode := 200, Doc := Except.error "EOF" })).2.2.1
        _ "EOF" rfl rfl rfl⟩,
    ⟨(fatal_condition_returns_empty_feed Adapter.kohlerReport
        (fetched "200 OK" Kohler.unmarkedDoc)).2.2.2.1 _ Kohler.unmarkedDoc rfl rfl rfl
        (by decide!),
      (fatal_condition_returns_empty_feed Adapter.mediaWatch
        (fetched "200 OK" MediaWatch.wrongTypeDoc)).2.2.2.2.1 _ MediaWatch.wrongTypeDoc
        UnmarshalError.UnmarshalTypeError rfl rfl rfl (by decide!) rfl⟩,
    (fatal_condition_returns_empty_feed Adapter.mediaWatch
      (fetched "200 OK" MediaWatch.badDateDoc)).2.2.2.2.2.1 (by decide!),
    (fatal_condition_returns_empty_feed Adapter.kohlerReport
      Kohler.samplePage).2.2.2.2.2.2 (by decide!)⟩

/-- C13. In both adapters the outcome of a run is a function of the page content alone: the
map `seenGUIDs`, the feed and the decoded `abcData` are local to the call and start empty, and
nothing else is read. Two runs over pages from which the locator takes the same payload text,
the same page twice among them, return the same error and the same feed, hence the same
`Channel` with the same items in the same order. -/
theorem run_determined_by_payload_text (a : Adapter) (status status' : String)
    (doc doc' : List ScriptElement) (h : a.locate doc = a.locate doc') :
    a.FetchAndParseToRSS (fetched status doc) = a.FetchAndParseToRSS (fetched status' doc') := by
  rw [adapter_fetched_eq, adapter_fetched_eq, h]

theorem run_determined_by_payload_text_witness :
    Adapter.kohlerReport.locate Kohler.twoMarkedDoc = Adapter.kohlerReport.locate Kohler.sampleDoc
      ∧ Adapter.kohlerReport.FetchAndParseToRSS (fetched "200 OK" Kohler.twoMarkedDoc)
        = Adapter.kohlerReport.FetchAndParseToRSS (fetched "200" Kohler.sampleDoc) :=
  ⟨by decide!,
    run_determined_by_payload_text Adapter.kohlerReport "200 OK" "200" Kohler.twoMarkedDoc
      Kohler.sampleDoc (by decide!)⟩

/-- C14, as stated, fails in the Kohler Report adapter: the payload `Kohler.emptyListPayload`
has one component, named `VideoPlayer`, with no video and an empty list, and the run returns no
error and the metadata of the channel, but one item, every field of which is empty but the
publish date: the loop appends the item of the featured video of a `VideoPlayer` component
whatever the payload holds of it. -/
theorem kohler_empty_list_emits_item :
    (Kohler.FetchAndParseToRSS (fetched "200 OK" Kohler.emptyListDoc)).1 = none
      ∧ (Kohler.FetchAndParseToRSS (fetched "200 OK" Kohler.emptyListDoc)).2.Channel.Title
        = "The Kohler Report"
      ∧ (Kohler.FetchAndParseToRSS (fetched "200 OK" Kohler.emptyListDoc)).2.Channel.Items
        = [{ Title := "", Link := "", Description := "",
             PubDate := "Mon, 01 Jan 0001 00:00:00 UTC", GUID := "", Thumbnail := "" }] := by
  decide!

/-- C14, amended. In both adapters, for every decodable payload the run returns no error and
the title, link and description of the channel are the last strings of the payload at their
metadata paths, and `Channel.Items` has no item exactly when the payload has no candidate
entry: in the Media Watch adapter when the items of every component named `EpisodeCollection`
are empty, a payload without components or without a component of that name included; in the
Kohler Report adapter when no component is named `VideoPlayer`, a component of that name
contributing the item of its featured video also when its list is empty. -/
theorem no_items_iff_no_candidate_entry (a : Adapter) (status : String)
    (doc : List ScriptElement) (j : JSON)
    (hj : parseJSON (a.locate doc) = some j) (hdec : a.decodes (a.locate doc) = true) :
    (a.FetchAndParseToRSS (fetched status doc)).1 = none
      ∧ (∀ f, (a.FetchAndParseToRSS (fetched status doc)).2.Channel.header f
          = lastString "" (a.headerNodes f j))
      ∧ (a = Adapter.kohlerReport →
          ((a.FetchAndParseToRSS (fetched status doc)).2.Channel.Items = []
            ↔ ∀ component ∈ Kohler.components (a.payload (fetched status doc)),
                (component.sel ["Component", "Name"]).getString ≠ "VideoPlayer"))
      ∧ (a = Adapter.mediaWatch →
          ((a.FetchAndParseToRSS (fetched status doc)).2.Channel.Items = []
            ↔ ∀ component ∈ MediaWatch.components (a.payload (fetched status doc)),
                (component.sel ["Component"]).getString = "EpisodeCollection" →
                (component.sel ["ComponentProps", "Items"]).elems.length = 0)) := by
  obtain ⟨abcData, hd, hrun, hpay, hent⟩ := adapter_run_of_decodes a status doc j hj hdec
  have hnone : (a.FetchAndParseToRSS (fetched status doc)).1 = none := by rw [hrun]
  have hnil : (a.FetchAndParseToRSS (fetched status doc)).2.Channel.Items = []
      ↔ ∀ component ∈ a.components abcData,
          a.producesItems component = true → a.componentEntries component = [] := by
    rw [adapter_items_eq a _ hnone, hent, firstOccurrences_eq_nil, candidates_eq_nil]
  refine ⟨hnone, ?_, ?_, ?_⟩
  · intro f
    rw [hrun]
    exact adapter_header_of_decode a j abcData hd f
  · intro ha
    subst ha
    rw [hnil, hpay]
    simp only [Adapter.components, Adapter.producesItems, Kohler.producesItems,
      Adapter.componentEntries, Kohler.componentEntries, decide_eq_true_eq]
    constructor
    · intro h component hc hp
      exact absurd (h component hc hp) (List.cons_ne_nil _ _)
    · intro h component hc hp
      exact absurd hp (h component hc)
  · intro ha
    subst ha
    rw [hnil, hpay]
    simp only [Adapter.components, Adapter.producesItems, MediaWatch.producesItems,
      Adapter.componentEntries, MediaWatch.componentEntries, decide_eq_true_eq,
      List.map_eq_nil_iff, List.length_eq_zero]

theorem no_items_iff_no_candidate_entry_witness :
    ((Adapter.kohlerReport.FetchAndParseToRSS (fetched "200 OK" Kohler.teaserOnlyDoc)).1 = none
        ∧ (Adapter.kohlerReport.FetchAndParseToRSS
            (fetched "200 OK" Kohler.teaserOnlyDoc)).2.Channel.Title = "The Kohler Report"
        ∧ (Adapter.kohlerReport.FetchAndParseToRSS
            (fetched "200 OK" Kohler.teaserOnlyDoc)).2.Channel.Items = [])
      ∧ ((Adapter.mediaWatch.FetchAndParseToRSS
            (fetched "200 OK" MediaWatch.emptyItemsDoc)).1 = none
        ∧ (Adapter.mediaWatch.FetchAndParseToRSS
            (fetched "200 OK" MediaWatch.emptyItemsDoc)).2.Channel.Title = "Media Watch"
        ∧ (Adapter.mediaWatch.FetchAndParseToRSS
            (fetched "200 OK" MediaWatch.emptyItemsDoc)).2.Channel.Items = []) :=
  have hk := no_items_iff_no_candidate_entry Adapter.kohlerReport "200 OK"
    Kohler.teaserOnlyDoc
    (JSON.obj [("props", JSON.obj [("pageProps", JSON.obj [("channelpage",
      JSON.obj [("headTagsPagePrepared", JSON.obj [("title", JSON.str "The Kohler Report"),
      ("canonicalURL", JSON.str "https://www.abc.net.au/news/programs/kohler-report"),
      ("description", JSON.str "Finance news")]), ("components",
      JSON.arr [JSON.obj [("component", JSON.obj [("name", JSON.str "Teaser"), ("props",
      JSON.obj [("video", JSON.obj [("title", JSON.str "Ignored"), ("share",
      JSON.obj [("shareLink", JSON.str "https://abc/9")])]), ("list", JSON.arr [])])])]])])])])])
    rfl (by decide!)
  have hm := no_items_iff_no_candidate_entry Adapter.mediaWatch "200 OK"
    MediaWatch.emptyItemsDoc
    (JSON.obj [("props", JSON.obj [("pageProps", JSON.obj [("data",
      JSON.obj [("componentsContent", JSON.arr [JSON.obj [("component",
      JSON.str "EpisodeCollection"), ("componentProps", JSON.obj [("items", JSON.arr [])])],
      JSON.obj [("component", JSON.str "Promo"), ("componentProps", JSON.obj [("items",
      JSON.arr [JSON.obj [("articleLink", JSON.str "/mediawatch/promo"), ("cardTitle",
      JSON.str "Ignored")]])])]])]), ("headTagsSocialPrepared", JSON.obj [("canonicalURL",
      JSON.str "https://www.abc.net.au/mediawatch/episodes"), ("description",
      JSON.str "Media Watch episodes"), ("site", JSON.str "Media Watch")])])])])
    rfl (by decide!)
  ⟨⟨hk.1, (hk.2.1 HeaderField.title).trans (by decide!), (hk.2.2.1 rfl).mpr (by decide!)⟩,
    ⟨hm.1, (hm.2.1 HeaderField.title).trans (by decide!), (hm.2.2.2 rfl).mpr (by decide!)⟩⟩

/-- C16. In the Kohler Report adapter every item of a successful run comes from a component
named `VideoPlayer`, as the item of its featured video or of an entry of its list, and in
both cases its `Thumbnail` is the image of the featured video of that component
(`props.video.config.image`), which is the `Thumbnail` of the featured item: an item of a list
entry takes nothing from the card or player image of the entry. -/
theorem kohler_thumbnail_is_video_image (get : Except String Response)
    (h : (Kohler.FetchAndParseToRSS get).1 = none) (it : Item)
    (hit : it ∈ (Kohler.FetchAndParseToRSS get).2.Channel.Items) :
    ∃ component ∈ Kohler.components (Adapter.kohlerReport.payload get),
      Kohler.producesItems component = true
        ∧ (it = Kohler.videoItem (component.sel ["Component", "Props", "Video"])
          ∨ ∃ listItem ∈ (component.sel ["Component", "Props", "List"]).elems,
              it = Kohler.listItemItem (component.sel ["Component", "Props", "Video"]) listItem)
        ∧ it.Thumbnail
            = (component.sel ["Component", "Props", "Video", "Config", "Image"]).getString
        ∧ it.Thumbnail
            = (Kohler.videoItem (component.sel ["Component", "Props", "Video"])).Thumbnail := by
  obtain ⟨component, hc, hp, hmem⟩ := mem_items_of_run Adapter.kohlerReport get h it hit
  refine ⟨component, hc, hp, ?_⟩
  rcases List.mem_cons.mp hmem with rfl | hmem
  · exact ⟨Or.inl rfl, rfl, rfl⟩
  · obtain ⟨listItem, hli, rfl⟩ := List.mem_map.mp hmem
    exact ⟨Or.inr ⟨listItem, hli, rfl⟩, rfl, rfl⟩

theorem kohler_thumbnail_is_video_image_witness :
    (Kohler.FetchAndParseToRSS Kohler.samplePage).1 = none
      ∧ ∃ component ∈ Kohler.components (Adapter.kohlerReport.payload Kohler.samplePage),
        Kohler.producesItems component = true
          ∧ (({ Title := "Shares slide", Link := "https://abc/2", Description := "S2",
                PubDate := "Mon, 04 Mar 2024 08:30:00 UTC", GUID := "https://abc/2",
                Thumbnail := "img1" } : Item)
              = Kohler.videoItem (component.sel ["Component", "Props", "Video"])
            ∨ ∃ listItem ∈ (component.sel ["Component", "Props", "List"]).elems,
                ({ Title := "Shares slide", Link := "https://abc/2", Description := "S2",
                   PubDate := "Mon, 04 Mar 2024 08:30:00 UTC", GUID := "https://abc/2",
                   Thumbnail := "img1" } : Item)
                  = Kohler.listItemItem (component.sel ["Component", "Props", "Video"]) listItem)
          ∧ "img1"
              = (component.sel ["Component", "Props", "Video", "Config", "Image"]).getString
          ∧ "img1"
              = (Kohler.videoItem (component.sel ["Component", "Props", "Video"])).Thumbnail :=
  ⟨by decide!,
    kohler_thumbnail_is_video_image Kohler.samplePage (by decide!)
      { Title := "Shares slide", Link := "https://abc/2", Description := "S2",
        PubDate := "Mon, 04 Mar 2024 08:30:00 UTC", GUID := "https://abc/2",
        Thumbnail := "img1" } (by decide!)⟩

/-- C17. In both adapters, for every item of the `Channel.Items` of a successful run, `GUID`
equals `Link`: the key of the deduplication is the link of the item. -/
theorem items_guid_eq_link (a : Adapter) (get : Except String Response)
    (h : (a.FetchAndParseToRSS get).1 = none) (it : Item)
    (hit : it ∈ (a.FetchAndParseToRSS get).2.Channel.Items) : it.GUID = it.Link := by
  obtain ⟨component, _, _, hmem⟩ := mem_items_of_run a get h it hit
  cases a
  · rcases List.mem_cons.mp hmem with rfl | hmem
    · rfl
    · obtain ⟨listItem, _, rfl⟩ := List.mem_map.mp hmem
      rfl
  · obtain ⟨listItem, _, rfl⟩ := List.mem_map.mp hmem
    rfl

theorem items_guid_eq_link_witness :
    (Adapter.mediaWatch.FetchAndParseToRSS MediaWatch.samplePage).1 = none
      ∧ (Adapter.mediaWatch.FetchAndParseToRSS MediaWatch.samplePage).2.Channel.Items.map
          Item.GUID
        = (Adapter.mediaWatch.FetchAndParseToRSS MediaWatch.samplePage).2.Channel.Items.map
          Item.Link :=
  ⟨by decide!,
    List.map_congr_left
      (items_guid_eq_link Adapter.mediaWatch MediaWatch.samplePage (by decide!))⟩

/-- C19, as stated, fails: a component of another name is decoded with the whole payload before
the loop tests its name, so that its data matters. The payload `MediaWatch.numberPromoPayload`
is `MediaWatch.undatedPayload` with a component named `Promo` added, the card title of whose
item is a number: the run on the first fails and returns no item, the run on the second
returns two. -/
theorem added_component_fails_run :
    MediaWatch.FetchAndParseToRSS (fetched "200 OK" MediaWatch.numberPromoDoc)
        = (some (Error.parsingJSON UnmarshalError.UnmarshalTypeError), {})
      ∧ (MediaWatch.FetchAndParseToRSS (fetched "200 OK" MediaWatch.numberPromoDoc)).2.Channel.Items
        = []
      ∧ (MediaWatch.FetchAndParseToRSS (fetched "200 OK" MediaWatch.undatedDoc)).2.Channel.Items.map
          Item.Title
        = ["Episode 1", "Episode 2"] := by
  decide!

/-- C19, amended. In both adapters only the components that pass the test of the loop, the name
`VideoPlayer` in the Kohler Report adapter and `EpisodeCollection` in the Media Watch adapter,
contribute items, and a component of another name that the decoder accepts contributes nothing:
for every two decodable payloads, each holding its components array once, whose components
arrays differ by one component that, decoded, does not pass the test, whatever video, list or
items data it holds, the runs return the same `Channel.Items`. -/
theorem other_component_leaves_items (a : Adapter) (status status' : String)
    (doc doc' : List ScriptElement) (j j' : JSON) (pre post : List JSON) (c : JSON)
    (hj : parseJSON (a.locate doc) = some j) (hj' : parseJSON (a.locate doc') = some j')
    (hdec : a.decodes (a.locate doc) = true) (hdec' : a.decodes (a.locate doc') = true)
    (hcomp : (nodesAt a.ABCJSON (a.componentsSel.map Step.field) j).map Prod.snd
      = [JSON.arr (pre ++ post)])
    (hcomp' : (nodesAt a.ABCJSON (a.componentsSel.map Step.field) j').map Prod.snd
      = [JSON.arr (pre ++ c :: post)])
    (hother : ∀ component ∈ freshElems a.componentZero [c],
      a.producesItems component = false) :
    (a.FetchAndParseToRSS (fetched status doc)).2.Channel.Items
      = (a.FetchAndParseToRSS (fetched status' doc')).2.Channel.Items := by
  obtain ⟨abcData, hd, hrun, _, hent⟩ := adapter_run_of_decodes a status doc j hj hdec
  obtain ⟨abcData', hd', hrun', _, hent'⟩ := adapter_run_of_decodes a status' doc' j' hj' hdec'
  have hnone : (a.FetchAndParseToRSS (fetched status doc)).1 = none := by rw [hrun]
  have hnone' : (a.FetchAndParseToRSS (fetched status' doc')).1 = none := by rw [hrun']
  rw [adapter_items_eq a _ hnone, adapter_items_eq a _ hnone', hent, hent',
    adapter_candidates_filter, adapter_candidates_filter,
    adapter_components_of_array a j abcData _ hd hcomp,
    adapter_components_of_array a j' abcData' _ hd' hcomp']
  have hsplit : pre ++ c :: post = pre ++ [c] ++ post := by simp
  rw [hsplit, freshElems_append, freshElems_append, freshElems_append,
    filter_insert_of_not a.producesItems _ _ _ hother]

theorem other_component_leaves_items_witness :
    (Adapter.mediaWatch.FetchAndParseToRSS
          (fetched "200 OK" MediaWatch.undatedDoc)).2.Channel.Items
        = (Adapter.mediaWatch.FetchAndParseToRSS
          (fetched "200 OK" MediaWatch.undatedPromoDoc)).2.Channel.Items
      ∧ (Adapter.mediaWatch.FetchAndParseToRSS
          (fetched "200 OK" MediaWatch.undatedPromoDoc)).2.Channel.Items.map Item.Title
        = ["Episode 1", "Episode 2"] :=
  ⟨other_component_leaves_items Adapter.mediaWatch "200 OK" "200 OK" MediaWatch.undatedDoc
    MediaWatch.undatedPromoDoc
    (JSON.obj [("props", JSON.obj [("pageProps", JSON.obj [("data",
      JSON.obj [("componentsContent", JSON.arr [JSON.obj [("component",
      JSON.str "EpisodeCollection"), ("componentProps", JSON.obj [("items",
      JSON.arr [JSON.obj [("articleLink", JSON.str "/mediawatch/episodes/ep01"), ("cardTitle",
      JSON.str "Episode 1"), ("description", JSON.str "D1")], JSON.obj [("articleLink",
      JSON.str "/mediawatch/episodes/ep02"), ("cardTitle", JSON.str "Episode 2")]])])]])]),
      ("headTagsSocialPrepared", JSON.obj [("site", JSON.str "Media Watch")])])])])
    (JSON.obj [("props", JSON.obj [("pageProps", JSON.obj [("data",
      JSON.obj [("componentsContent", JSON.arr [JSON.obj [("component", JSON.str "Promo"),
      ("componentProps", JSON.obj [("items", JSON.arr [JSON.obj [("articleLink",
      JSON.str "/mediawatch/promo"), ("cardTitle", JSON.str "Ignored")]])])],
      JSON.obj [("component", JSON.str "EpisodeCollection"), ("componentProps",
      JSON.obj [("items", JSON.arr [JSON.obj [("articleLink",
      JSON.str "/mediawatch/episodes/ep01"), ("cardTitle", JSON.str "Episode 1"),
      ("description", JSON.str "D1")], JSON.obj [("articleLink",
      JSON.str "/mediawatch/episodes/ep02"), ("cardTitle", JSON.str "Episode 2")]])])]])]),
      ("headTagsSocialPrepared", JSON.obj [("site", JSON.str "Media Watch")])])])])
    []
    [JSON.obj [("component", JSON.str "EpisodeCollection"), ("componentProps",
      JSON.obj [("items", JSON.arr [JSON.obj [("articleLink",
      JSON.str "/mediawatch/episodes/ep01"), ("cardTitle", JSON.str "Episode 1"),
      ("description", JSON.str "D1")], JSON.obj [("articleLink",
      JSON.str "/mediawatch/episodes/ep02"), ("cardTitle", JSON.str "Episode 2")]])])]]
    (JSON.obj [("component", JSON.str "Promo"), ("componentProps", JSON.obj [("items",
      JSON.arr [JSON.obj [("articleLink", JSON.str "/mediawatch/promo"), ("cardTitle",
      JSON.str "Ignored")]])])])
    rfl rfl (by decide!) (by decide!) (sameJSONElems_eq _ _ (by decide!))
    (sameJSONElems_eq _ _ (by decide!)) (by decide!),
    by decide!⟩

/-- C20. In the Media Watch adapter every item of a successful run is the item of an entry of
the items of a component named `EpisodeCollection`: its `Link` and its `GUID` are `BaseURL`,
the constant `https://www.abc.net.au`, followed by the `articleLink` of the entry, its `Title`
is the `cardTitle`, its `Description` the `description`, and its `Thumbnail` is empty. Two
entries have the same guid, and so are duplicates, exactly when their `articleLink` strings
are equal. -/
theorem mediaWatch_item_fields (get : Except String Response)
    (h : (MediaWatch.FetchAndParseToRSS get).1 = none) :
    (∀ it ∈ (MediaWatch.FetchAndParseToRSS get).2.Channel.Items,
        ∃ component ∈ MediaWatch.components (Adapter.mediaWatch.payload get),
          MediaWatch.producesItems component = true
            ∧ ∃ listItem ∈ (component.sel ["ComponentProps", "Items"]).elems,
                it.Link = "https://www.abc.net.au" ++ (listItem.sel ["ArticleLink"]).getString
                  ∧ it.GUID
                    = "https://www.abc.net.au" ++ (listItem.sel ["ArticleLink"]).getString
                  ∧ it.Title = (listItem.sel ["CardTitle"]).getString
                  ∧ it.Description = (listItem.sel ["Description"]).getString
                  ∧ it.Thumbnail = "")
      ∧ (∀ listItem listItem' : GoVal,
          (MediaWatch.listItemItem listItem).GUID = (MediaWatch.listItemItem listItem').GUID
            ↔ (listItem.sel ["ArticleLink"]).getString
              = (listItem'.sel ["ArticleLink"]).getString) := by
  constructor
  · intro it hit
    obtain ⟨component, hc, hp, hmem⟩ := mem_items_of_run Adapter.mediaWatch get h it hit
    obtain ⟨listItem, hli, rfl⟩ := List.mem_map.mp hmem
    exact ⟨component, hc, hp, listItem, hli, rfl, rfl, rfl, rfl, rfl⟩
  · intro listItem listItem'
    constructor
    · intro hg
      exact string_append_left_cancel BaseURL _ _ hg
    · intro hl
      show BaseURL ++ _ = BaseURL ++ _
      rw [hl]

theorem mediaWatch_item_fields_witness :
    (MediaWatch.FetchAndParseToRSS MediaWatch.samplePage).1 = none
      ∧ ∃ component ∈ MediaWatch.components (Adapter.mediaWatch.payload MediaWatch.samplePage),
          MediaWatch.producesItems component = true
            ∧ ∃ listItem ∈ (component.sel ["ComponentProps", "Items"]).elems,
                "https://www.abc.net.au/mediawatch/episodes/ep02"
                    = "https://www.abc.net.au" ++ (listItem.sel ["ArticleLink"]).getString
                  ∧ "https://www.abc.net.au/mediawatch/episodes/ep02"
                    = "https://www.abc.net.au" ++ (listItem.sel ["ArticleLink"]).getString
                  ∧ "Episode 2" = (listItem.sel ["CardTitle"]).getString
                  ∧ "D2" = (listItem.sel ["Description"]).getString
                  ∧ "" = "" :=
  ⟨by decide!,
    (mediaWatch_item_fields MediaWatch.samplePage (by decide!)).1
      { Title := "Episode 2", Link := "https://www.abc.net.au/mediawatch/episodes/ep02",
        Description := "D2", PubDate := "Mon, 12 Feb 2024 10:15:00 UTC",
        GUID := "https://www.abc.net.au/mediawatch/episodes/ep02" } (by decide!)⟩

end AbcRss
